import Mathlib

/-!
Verification of the snake-game simulation core (`snake.py`).

The Python source is embedded shallowly: the mutable `Snake` object becomes an
immutable record and each method becomes a function returning the updated
record.  Python `int` is `Int`, tuples of ints are products, lists are `List`,
`random.choice` is modelled by an explicit index/oracle argument, and functions
that raise `GameException` return `Option`.
-/

set_option maxRecDepth 20000

/-- Constant `RECT_SIZE = 20` (pixel size of one grid cell). -/
def RECT_SIZE : Int := 20

/-- Constant `ROWS = 20`. -/
def ROWS : Nat := 20

/-- Constant `COLS = 20`. -/
def COLS : Nat := 20

/-- Constant `WIDTH = RECT_SIZE * COLS = 400`. -/
def WIDTH : Int := RECT_SIZE * (COLS : Int)

/-- Constant `HEIGHT = RECT_SIZE * ROWS = 400`. -/
def HEIGHT : Int := RECT_SIZE * (ROWS : Int)

/-- Enumeration `class Direction(enum.Enum)`. -/
inductive Direction where
  | NONE
  | UP
  | DOWN
  | LEFT
  | RIGHT
deriving DecidableEq, Repr

/-- Type alias `Color = Tuple[int, int, int]`. -/
def Color := Int × Int × Int
deriving DecidableEq, Repr

/-- Constant `RED = (255, 0, 0)`. -/
def RED : Color := (255, 0, 0)

/-- Constant `WHITE = (255, 255, 255)`. -/
def WHITE : Color := (255, 255, 255)

/-- Dataclass `Point` (frozen) with integer coordinates. -/
structure Point where
  x : Int
  y : Int
deriving DecidableEq, Repr

/-- Method `Point.__add__`: componentwise addition. -/
instance : Add Point := ⟨fun a b => ⟨a.x + b.x, a.y + b.y⟩⟩

theorem Point.add_def (a b : Point) : a + b = ⟨a.x + b.x, a.y + b.y⟩ := rfl

/-- Class `Apple`: a position and a color. -/
structure Apple where
  point : Point
  color : Color
deriving DecidableEq, Repr

/-- Class `Snake`: fields in the order `__init__` assigns them
(`points`, `size`, `direction`, `colors`). -/
structure Snake where
  points : List Point
  size : Nat
  direction : Direction
  colors : List Color
deriving DecidableEq, Repr

namespace Snake

/-- Table `Snake._MOVES`: the direction-to-delta table. -/
def _MOVES : Direction → Point
  | Direction.NONE => ⟨0, 0⟩
  | Direction.UP => ⟨0, -RECT_SIZE⟩
  | Direction.DOWN => ⟨0, RECT_SIZE⟩
  | Direction.LEFT => ⟨-RECT_SIZE, 0⟩
  | Direction.RIGHT => ⟨RECT_SIZE, 0⟩

/-- Constructor `Snake.__init__`: fails on an empty point list or mismatched lengths;
otherwise `size = len(points)` and `direction = NONE`. -/
def mk_snake (points : List Point) (colors : List Color) : Option Snake :=
  if points.length = 0 then none
  else if points.length ≠ colors.length then none
  else some ⟨points, points.length, Direction.NONE, colors⟩

/-- Method `Snake.head`: `points[0]` (total model; constructed snakes are nonempty). -/
def head (s : Snake) : Point := s.points.headD ⟨0, 0⟩

/-- Method `Snake.current_move`. -/
def current_move (s : Snake) : Point := _MOVES s.direction

/-- Method `Snake._move_through_walls`: wrap each out-of-range coordinate to the
opposite edge. -/
def _move_through_walls (p : Point) : Point :=
  let p1 : Point :=
    if p.x < 0 then ⟨WIDTH - RECT_SIZE, p.y⟩
    else if p.x + RECT_SIZE > WIDTH then ⟨0, p.y⟩
    else p
  if p1.y < 0 then ⟨p1.x, HEIGHT - RECT_SIZE⟩
  else if p1.y + RECT_SIZE > HEIGHT then ⟨p1.x, 0⟩
  else p1

/-- Method `Snake._move`: add the delta, then wrap through walls (unconditionally). -/
def _move (point move : Point) : Point := _move_through_walls (point + move)

/-- Method `Snake._is_reverse_move`. -/
def _is_reverse_move (s : Snake) (d : Direction) : Bool :=
  if s.points.length = 1 then false
  else decide (_move s.head (_MOVES d) = s.points.getD 1 ⟨0, 0⟩)

/-- Method `Snake.set_direction`. -/
def set_direction (s : Snake) (d : Direction) : Snake :=
  if d = Direction.NONE then s
  else if s._is_reverse_move d then s
  else { s with direction := d }

/-- Method `Snake.collide_wall`: look-ahead check of the prospective head
`point = head + current_move`. -/
def collide_wall (s : Snake) : Bool :=
  if (s.head + s.current_move).x < 0 ∨ (s.head + s.current_move).x + RECT_SIZE > WIDTH then
    true
  else if (s.head + s.current_move).y < 0 ∨ (s.head + s.current_move).y + RECT_SIZE > HEIGHT then
    true
  else false

/-- Method `Snake.collide_itself`: `len(set(points)) != len(points)`, with
`List.dedup` modelling `set`. -/
def collide_itself (s : Snake) : Bool :=
  decide (s.points.dedup.length ≠ s.points.length)

/-- Method `Snake.move`: prepend the wrapped new head, truncate to `size`. -/
def move (s : Snake) : Snake :=
  if s.current_move = (⟨0, 0⟩ : Point) then s
  else { s with points := (_move s.head s.current_move :: s.points).take s.size }

/-- Method `Snake.eat`: returns the Python return value paired with the updated
snake. -/
def eat (s : Snake) (apple : Apple) : Bool × Snake :=
  if s.head = apple.point then
    (true, { s with size := s.size + 1, colors := s.colors ++ [apple.color] })
  else (false, s)

end Snake

/-- Predicate `collide_itself` is `false` exactly on duplicate-free position lists. -/
theorem collide_itself_eq_false_iff (s : Snake) :
    s.collide_itself = false ↔ s.points.Nodup := by
  unfold Snake.collide_itself
  rw [decide_eq_false_iff_not, not_not]
  constructor
  · intro h
    have hsub : s.points.dedup.Sublist s.points := List.dedup_sublist s.points
    have : s.points.dedup = s.points := hsub.eq_of_length h
    rw [← this]
    exact s.points.nodup_dedup
  · intro h
    rw [List.dedup_eq_self.mpr h]

/-- Branch-free form of the wrap transform. -/
theorem _move_through_walls_eq (p : Point) :
    Snake._move_through_walls p =
      ⟨if p.x < 0 then WIDTH - RECT_SIZE else if p.x + RECT_SIZE > WIDTH then 0 else p.x,
       if p.y < 0 then HEIGHT - RECT_SIZE else if p.y + RECT_SIZE > HEIGHT then 0 else p.y⟩ := by
  cases p with
  | mk x y =>
    unfold Snake._move_through_walls
    dsimp only
    split_ifs <;> rfl

/-- C1: `move()` is the identity when the active delta is the zero vector
(which happens exactly for direction NONE); otherwise it prepends the wrapped
new head (`_move_through_walls` applied unconditionally to `head + delta`) and
truncates the position list to the first `size` elements, leaving `colors`,
`size` and `direction` unchanged. -/
theorem C1_move_spec (s : Snake) :
    (s.current_move = (⟨0, 0⟩ : Point) ↔ s.direction = Direction.NONE) ∧
    (s.direction = Direction.NONE → s.move = s) ∧
    (s.direction ≠ Direction.NONE →
      s.move = ⟨(Snake._move_through_walls (s.head + Snake._MOVES s.direction) :: s.points).take
          s.size, s.size, s.direction, s.colors⟩) := by
  refine ⟨?_, ?_, ?_⟩
  · cases h : s.direction <;>
      simp [Snake.current_move, Snake._MOVES, h, Point.mk.injEq, RECT_SIZE]
  · intro h
    simp [Snake.move, Snake.current_move, h, Snake._MOVES]
  · intro h
    have hm : s.current_move ≠ (⟨0, 0⟩ : Point) := by
      cases hd : s.direction
      · exact absurd hd h
      all_goals simp [Snake.current_move, Snake._MOVES, hd, Point.mk.injEq, RECT_SIZE]
    unfold Snake.move
    rw [if_neg hm]
    rfl

/-- Witness for C1 at a concrete snake heading RIGHT from the origin. -/
theorem C1_move_spec_witness :
    (⟨[⟨0, 0⟩], 1, Direction.RIGHT, [RED]⟩ : Snake).move
        = ⟨(Snake._move_through_walls ((⟨0, 0⟩ : Point) + Snake._MOVES Direction.RIGHT) ::
            [(⟨0, 0⟩ : Point)]).take 1, 1, Direction.RIGHT, [RED]⟩ ∧
      (⟨[⟨0, 0⟩], 1, Direction.RIGHT, [RED]⟩ : Snake).move
        = ⟨[⟨20, 0⟩], 1, Direction.RIGHT, [RED]⟩ :=
  ⟨(C1_move_spec _).2.2 (by decide), by decide⟩

/-- C2: `set_direction` never changes `points`, `colors` or `size`;
`set_direction(NONE)` is a no-op; a length-1 snake accepts every non-NONE
direction; a snake of length ≥ 2 rejects exactly those non-NONE directions
whose wrapped delta applied to the head lands on the second segment. -/
theorem C2_set_direction_spec (s : Snake) (d : Direction) :
    ((s.set_direction d).points = s.points ∧ (s.set_direction d).colors = s.colors ∧
      (s.set_direction d).size = s.size) ∧
    (s.set_direction Direction.NONE = s) ∧
    (s.points.length = 1 → d ≠ Direction.NONE → (s.set_direction d).direction = d) ∧
    (2 ≤ s.points.length → d ≠ Direction.NONE →
      (Snake._move s.head (Snake._MOVES d) = s.points.getD 1 ⟨0, 0⟩ → s.set_direction d = s) ∧
      (Snake._move s.head (Snake._MOVES d) ≠ s.points.getD 1 ⟨0, 0⟩ →
        (s.set_direction d).direction = d)) := by
  refine ⟨?_, ?_, ?_, ?_⟩
  · unfold Snake.set_direction
    split
    · exact ⟨rfl, rfl, rfl⟩
    split
    · exact ⟨rfl, rfl, rfl⟩
    · exact ⟨rfl, rfl, rfl⟩
  · simp [Snake.set_direction]
  · intro h1 hd
    simp [Snake.set_direction, Snake._is_reverse_move, hd, h1]
  · intro h2 hd
    have hne1 : s.points.length ≠ 1 := by omega
    constructor
    · intro heq
      simp only [List.getD, List.get?_eq_getElem?] at heq
      simp [Snake.set_direction, Snake._is_reverse_move, hd, hne1, heq]
    · intro hne
      simp only [List.getD, List.get?_eq_getElem?] at hne
      simp [Snake.set_direction, Snake._is_reverse_move, hd, hne1, hne]

/-- Witness for C2: the two-segment snake from `test.py` rejects RIGHT
(reversal onto the second segment) and accepts UP. -/
theorem C2_set_direction_spec_witness :
    ((⟨[⟨0, 0⟩, ⟨20, 0⟩], 2, Direction.NONE, [RED, RED]⟩ : Snake).set_direction
        Direction.RIGHT = ⟨[⟨0, 0⟩, ⟨20, 0⟩], 2, Direction.NONE, [RED, RED]⟩) ∧
    ((⟨[⟨0, 0⟩, ⟨20, 0⟩], 2, Direction.NONE, [RED, RED]⟩ : Snake).set_direction
        Direction.UP).direction = Direction.UP :=
  ⟨((C2_set_direction_spec _ Direction.RIGHT).2.2.2 (by decide) (by decide)).1 (by decide),
   ((C2_set_direction_spec _ Direction.UP).2.2.2 (by decide) (by decide)).2 (by decide)⟩

/-- C5: `eat` succeeds exactly when the head sits on the apple; success
increments `size` by one and appends the apple color, leaving positions and
direction unchanged; failure leaves the whole snake unchanged.  The
nonemptiness hypothesis restricts to snakes on which the Python `head()` method is
defined. -/
theorem C5_eat_spec (s : Snake) (a : Apple) (_h : s.points ≠ []) :
    ((s.eat a).1 = true ↔ s.head = a.point) ∧
    (s.head = a.point →
      (s.eat a).2 = ⟨s.points, s.size + 1, s.direction, s.colors ++ [a.color]⟩) ∧
    (s.head ≠ a.point → (s.eat a).2 = s) := by
  unfold Snake.eat
  split_ifs with h
  · exact ⟨by simp [h], fun _ => rfl, fun hne => absurd h hne⟩
  · exact ⟨by simp [h], fun heq => absurd heq h, fun _ => rfl⟩

/-- Witness for C5: the concrete `test_eat` scenario from `test.py`. -/
theorem C5_eat_spec_witness :
    ((⟨[⟨0, 0⟩], 1, Direction.NONE, [RED]⟩ : Snake).eat ⟨⟨0, 0⟩, WHITE⟩).2
        = ⟨[⟨0, 0⟩], 2, Direction.NONE, [RED, WHITE]⟩ ∧
    ((⟨[⟨0, 0⟩], 1, Direction.NONE, [RED]⟩ : Snake).eat ⟨⟨20, 20⟩, WHITE⟩).2
        = ⟨[⟨0, 0⟩], 1, Direction.NONE, [RED]⟩ :=
  ⟨(C5_eat_spec _ ⟨⟨0, 0⟩, WHITE⟩ (by decide)).2.1 (by decide),
   (C5_eat_spec _ ⟨⟨20, 20⟩, WHITE⟩ (by decide)).2.2 (by decide)⟩

/-- C10: with direction NONE the prospective head is the head itself, so an
in-grid head can never trigger `collide_wall`. -/
theorem C10_collide_wall_none (s : Snake) (hd : s.direction = Direction.NONE)
    (hx0 : 0 ≤ s.head.x) (hx1 : s.head.x ≤ WIDTH - RECT_SIZE)
    (hy0 : 0 ≤ s.head.y) (hy1 : s.head.y ≤ HEIGHT - RECT_SIZE) :
    s.collide_wall = false := by
  have hm : s.current_move = (⟨0, 0⟩ : Point) := by
    simp [Snake.current_move, hd, Snake._MOVES]
  unfold Snake.collide_wall
  rw [hm]
  simp only [Point.add_def, add_zero]
  rw [if_neg, if_neg]
  · simp only [WIDTH, HEIGHT, RECT_SIZE, ROWS, COLS] at hy1 ⊢
    omega
  · simp only [WIDTH, HEIGHT, RECT_SIZE, ROWS, COLS] at hx1 ⊢
    omega

/-- Witness for C10: a freshly initialized centered snake does not collide
with the wall before any direction input. -/
theorem C10_collide_wall_none_witness :
    (⟨[⟨200, 200⟩], 1, Direction.NONE, [RED]⟩ : Snake).collide_wall = false :=
  C10_collide_wall_none _ (by decide) (by decide) (by decide) (by decide) (by decide)

/-- Reachable snake states: a successfully constructed snake followed by any
sequence of `set_direction`, `move` and `eat` calls. -/
inductive Reach : Snake → Prop where
  | init (points : List Point) (colors : List Color) (s : Snake) :
      Snake.mk_snake points colors = some s → Reach s
  | set_dir (s : Snake) (d : Direction) : Reach s → Reach (s.set_direction d)
  | mv (s : Snake) : Reach s → Reach s.move
  | eats (s : Snake) (a : Apple) : Reach s → Reach (s.eat a).2

/-- Unfolding of a successful `Snake.__init__`. -/
theorem mk_snake_spec (points : List Point) (colors : List Color) (s : Snake)
    (h : Snake.mk_snake points colors = some s) :
    s.points = points ∧ s.size = points.length ∧ s.direction = Direction.NONE ∧
      s.colors = colors ∧ points.length = colors.length ∧ points ≠ [] := by
  unfold Snake.mk_snake at h
  split_ifs at h with h1 h2
  injection h with h
  subst h
  refine ⟨rfl, rfl, rfl, rfl, by omega, ?_⟩
  intro hnil
  rw [hnil] at h1
  exact h1 rfl

/-- Operation `set_direction` changes at most the `direction` field. -/
theorem set_direction_fields (s : Snake) (d : Direction) :
    (s.set_direction d).points = s.points ∧ (s.set_direction d).size = s.size ∧
      (s.set_direction d).colors = s.colors := by
  unfold Snake.set_direction
  split
  · exact ⟨rfl, rfl, rfl⟩
  split
  · exact ⟨rfl, rfl, rfl⟩
  · exact ⟨rfl, rfl, rfl⟩

/-- On every reachable state the position list never outgrows `size`. -/
theorem reach_points_le_size {s : Snake} (h : Reach s) : s.points.length ≤ s.size := by
  induction h with
  | init points colors s h =>
    obtain ⟨hp, hs, -, -, -, -⟩ := mk_snake_spec points colors s h
    rw [hp, hs]
  | set_dir s d _ ih =>
    rw [(set_direction_fields s d).1, (set_direction_fields s d).2.1]
    exact ih
  | mv s _ ih =>
    unfold Snake.move
    split
    · exact ih
    · simp [Nat.min_le_left]
  | eats s a _ ih =>
    unfold Snake.eat
    split
    · exact Nat.le_succ_of_le ih
    · exact ih

/-- On every reachable state the color list length always equals `size`. -/
theorem reach_colors_len {s : Snake} (h : Reach s) : s.colors.length = s.size := by
  induction h with
  | init points colors s h =>
    obtain ⟨-, hs, -, hc, hlen, -⟩ := mk_snake_spec points colors s h
    rw [hc, hs, hlen]
  | set_dir s d _ ih =>
    rw [(set_direction_fields s d).2.1, (set_direction_fields s d).2.2]
    exact ih
  | mv s _ ih =>
    unfold Snake.move
    split
    · exact ih
    · exact ih
  | eats s a _ ih =>
    unfold Snake.eat
    split
    · simpa using ih
    · exact ih

/-- The length-1 snake of `test_eat`, before and after eating an apple sitting
on its head. -/
def eatCexBase : Snake := ⟨[⟨0, 0⟩], 1, Direction.NONE, [RED]⟩

/-- State of `eatCexBase` after a successful `eat`: `size = 2` but one position. -/
def eatCexAte : Snake := (eatCexBase.eat ⟨⟨0, 0⟩, WHITE⟩).2

/-- Counterexample to C3 as stated: after a successful `eat` the position list
is shorter than `size` on a reachable state. -/
theorem C3_cex_eat_breaks_lockstep :
    Reach eatCexAte ∧ eatCexAte.points.length ≠ eatCexAte.size :=
  ⟨Reach.eats eatCexBase ⟨⟨0, 0⟩, WHITE⟩
      (Reach.init [⟨0, 0⟩] [RED] eatCexBase (by decide)),
   by decide⟩

/-- C3 (amended): on every reachable state `len(points) ≤ size`; equality can
break (only) after a successful `eat`, until later `move` calls regrow the
list. -/
theorem C3_points_le_size (s : Snake) (h : Reach s) : s.points.length ≤ s.size :=
  reach_points_le_size h

/-- Witness for C3 (amended) at a concrete constructed snake. -/
theorem C3_points_le_size_witness : eatCexBase.points.length ≤ eatCexBase.size :=
  C3_points_le_size eatCexBase (Reach.init [⟨0, 0⟩] [RED] eatCexBase (by decide))

/-- Counterexample to C4 as stated: after a successful `eat` the color list is
longer than the position list on a reachable state. -/
theorem C4_cex_eat_breaks_lockstep :
    Reach eatCexAte ∧ eatCexAte.colors.length ≠ eatCexAte.points.length :=
  ⟨Reach.eats eatCexBase ⟨⟨0, 0⟩, WHITE⟩
      (Reach.init [⟨0, 0⟩] [RED] eatCexBase (by decide)),
   by decide⟩

/-- C4 (amended): on every reachable state the color list length equals
`size` (hence it is an upper bound for the position list length, strict right
after a successful `eat`). -/
theorem C4_colors_eq_size (s : Snake) (h : Reach s) :
    s.colors.length = s.size ∧ s.points.length ≤ s.colors.length :=
  ⟨reach_colors_len h, by rw [reach_colors_len h]; exact reach_points_le_size h⟩

/-- Witness for C4 (amended) at a concrete constructed snake. -/
theorem C4_colors_eq_size_witness :
    eatCexBase.colors.length = eatCexBase.size ∧
      eatCexBase.points.length ≤ eatCexBase.colors.length :=
  C4_colors_eq_size eatCexBase (Reach.init [⟨0, 0⟩] [RED] eatCexBase (by decide))

/-- C9: `move()` with direction NONE is the identity; under wrap, one LEFT
move from the origin lands at `x = WIDTH - RECT_SIZE` and one UP move at
`y = HEIGHT - RECT_SIZE`; and from every in-grid cell-aligned head (positions
are grid cells per the data model, so `x` is a multiple of `RECT_SIZE`) a
RIGHT move followed by a LEFT move returns the head to its original
position. -/
theorem C9_move_algebra :
    (∀ s : Snake, s.direction = Direction.NONE → s.move = s) ∧
    ((⟨[⟨0, 0⟩], 1, Direction.NONE, [RED]⟩ : Snake).set_direction Direction.LEFT).move.head
        = ⟨WIDTH - RECT_SIZE, 0⟩ ∧
    ((⟨[⟨0, 0⟩], 1, Direction.NONE, [RED]⟩ : Snake).set_direction Direction.UP).move.head
        = ⟨0, HEIGHT - RECT_SIZE⟩ ∧
    (∀ p : Point, 0 ≤ p.x → p.x + RECT_SIZE ≤ WIDTH → RECT_SIZE ∣ p.x →
      0 ≤ p.y → p.y + RECT_SIZE ≤ HEIGHT →
      ((((⟨[p], 1, Direction.NONE, [RED]⟩ : Snake).set_direction
          Direction.RIGHT).move.set_direction Direction.LEFT).move).head = p) := by
  refine ⟨?_, by decide, by decide, ?_⟩
  · intro s h
    simp [Snake.move, Snake.current_move, h, Snake._MOVES]
  · intro p hx0 hx1 hdvd hy0 hy1
    obtain ⟨x, y⟩ := p
    obtain ⟨k, hk⟩ := hdvd
    have e : ((((⟨[⟨x, y⟩], 1, Direction.NONE, [RED]⟩ : Snake).set_direction
          Direction.RIGHT).move.set_direction Direction.LEFT).move).head
        = Snake._move (Snake._move ⟨x, y⟩ ⟨RECT_SIZE, 0⟩) ⟨-RECT_SIZE, 0⟩ := rfl
    rw [e]
    simp only [Snake._move, _move_through_walls_eq, Point.add_def]
    simp only [WIDTH, HEIGHT, RECT_SIZE, ROWS, COLS] at hx0 hx1 hy0 hy1 hk ⊢
    rw [Point.mk.injEq]
    constructor <;> split_ifs <;> omega

/-- Witness for C9: identity of a NONE move, and the round-trip at the
wrap-edge cell `(380, 40)`. -/
theorem C9_move_algebra_witness :
    ((⟨[⟨0, 0⟩], 1, Direction.NONE, [RED]⟩ : Snake).move
        = ⟨[⟨0, 0⟩], 1, Direction.NONE, [RED]⟩) ∧
    ((((⟨[⟨380, 40⟩], 1, Direction.NONE, [RED]⟩ : Snake).set_direction
        Direction.RIGHT).move.set_direction Direction.LEFT).move).head = ⟨380, 40⟩ :=
  ⟨C9_move_algebra.1 ⟨[⟨0, 0⟩], 1, Direction.NONE, [RED]⟩ rfl,
   C9_move_algebra.2.2.2 ⟨380, 40⟩ (by decide) (by decide) ⟨19, by decide⟩
     (by decide) (by decide)⟩

/-- Cell enumeration of `new_apple`: `(x, y)` for `x in range(WIDTH //
RECT_SIZE)`, `y in range(HEIGHT // RECT_SIZE)`. -/
def allCells : List (Int × Int) :=
  (List.range (WIDTH / RECT_SIZE).toNat).flatMap fun x =>
    (List.range (HEIGHT / RECT_SIZE).toNat).map fun y => ((x : Int), (y : Int))

/-- The grid cell a segment occupies: Python floor division `// RECT_SIZE`. -/
def cellOf (p : Point) : Int × Int := (Int.fdiv p.x RECT_SIZE, Int.fdiv p.y RECT_SIZE)

/-- The free-cell set of `new_apple` (the Python unordered `set` modelled as the
filtered enumeration list). -/
def free_cells (s : Snake) : List (Int × Int) :=
  allCells.filter fun c => decide (c ∉ s.points.map cellOf)

/-- Function `new_apple`, with `random.choice` modelled by an index `k` into the free
list and `random_color()` by `col`.  Note the source unpacks the chosen cell
`(x, y)` as `h, w` and then builds `Point(w * RECT_SIZE, h * RECT_SIZE)`,
transposing the cell; the model reproduces that. -/
def new_apple (k : Nat) (col : Color) (s : Snake) : Option Apple :=
  if h : (free_cells s).length = 0 then none
  else
    let hw := (free_cells s).get ⟨k % (free_cells s).length,
      Nat.mod_lt _ (Nat.pos_of_ne_zero h)⟩
    some ⟨⟨hw.2 * RECT_SIZE, hw.1 * RECT_SIZE⟩, col⟩

/-- A snake occupying only cell `(0, 1)` (pixel position `(0, 20)`). -/
def c6Snake : Snake := ⟨[⟨0, 20⟩], 1, Direction.NONE, [RED]⟩

/-- C6, evaluated at the failing input: free cells exist and the chooser picks
the free cell `(1, 0)`, yet the spawned apple sits at pixel `(0, 20)`, i.e. on
the occupied cell `(0, 1)` — the success clause of the claim fails because the
code transposes the chosen cell. -/
theorem C6_spawn_on_occupied_cell :
    free_cells c6Snake ≠ [] ∧
    (((1 : Int), (0 : Int)) ∈ free_cells c6Snake) ∧
    new_apple 19 WHITE c6Snake = some ⟨⟨0, 20⟩, WHITE⟩ ∧
    cellOf ⟨0, 20⟩ ∈ c6Snake.points.map cellOf := by
  decide

/-- The per-tick state of `run_game`: the locals of the while-loop body. -/
structure Game where
  snake : Snake
  apple : Apple
  game_over : Bool
  game_speed : Nat
deriving DecidableEq, Repr

/-- One iteration of the `run_game` loop in strict source order: game-over
short-circuit, `set_direction`, wall check, self-collision check, `eat` with
apple respawn (failure ends the round), then `move`.  `d` is the pending
direction; `k`/`col` are the randomness oracles of `new_apple`. -/
def tick (wall body speed : Bool) (d : Direction) (k : Nat) (col : Color) (g : Game) : Game :=
  if g.game_over then g
  else if wall && (g.snake.set_direction d).collide_wall then
    { g with snake := g.snake.set_direction d, game_over := true }
  else if body && (g.snake.set_direction d).collide_itself then
    { g with snake := g.snake.set_direction d, game_over := true }
  else if ((g.snake.set_direction d).eat g.apple).1 then
    match new_apple k col ((g.snake.set_direction d).eat g.apple).2 with
    | none => { g with snake := ((g.snake.set_direction d).eat g.apple).2, game_over := true }
    | some a1 =>
      { snake := ((g.snake.set_direction d).eat g.apple).2.move, apple := a1,
        game_over := false,
        game_speed := if speed then g.game_speed + 1 else g.game_speed }
  else { g with snake := ((g.snake.set_direction d).eat g.apple).2.move }

/-- Predicate `collide_itself` only looks at the position list. -/
theorem collide_itself_congr {s t : Snake} (h : s.points = t.points) :
    s.collide_itself = t.collide_itself := by
  unfold Snake.collide_itself
  rw [h]

/-- C8 (amended): in a playing tick the wall check runs against the
prospective head before `eat` and `move`, so a wall-fatal tick commits neither
(only `set_direction` has happened) and ends in game-over; the self-collision
check, however, tests the positions as they are at the start of the tick: a
tick that *starts* with a duplicate goes to game-over before `eat`/`move`, but
`move` itself may introduce a duplicate that is committed and only detected on
the following tick. -/
theorem C8_tick_collision_order (wall body speed : Bool) (d : Direction) (k : Nat)
    (col : Color) (g : Game) (hg : g.game_over = false) :
    (wall = true → (g.snake.set_direction d).collide_wall = true →
      tick wall body speed d k col g
        = { g with snake := g.snake.set_direction d, game_over := true }) ∧
    ((wall = false ∨ (g.snake.set_direction d).collide_wall = false) →
      body = true → g.snake.collide_itself = true →
      tick wall body speed d k col g
        = { g with snake := g.snake.set_direction d, game_over := true }) ∧
    (body = true → g.snake.collide_itself = true →
      (tick wall body speed d k col g).game_over = true) := by
  have hci : (g.snake.set_direction d).collide_itself = g.snake.collide_itself :=
    collide_itself_congr (set_direction_fields g.snake d).1
  refine ⟨?_, ?_, ?_⟩
  · intro hw hc
    simp [tick, hg, hw, hc]
  · intro hwf hb hc
    rcases hwf with hwf | hwf <;>
      simp [tick, hg, hwf, hb, hci, hc]
  · intro hb hc
    by_cases hw : wall && (g.snake.set_direction d).collide_wall
    · simp [tick, hg, hw]
    · simp [tick, hg, hw, hb, hci, hc]

/-- A 5-segment snake one DOWN-move away from biting its own body. -/
def c8Snake : Snake :=
  ⟨[⟨20, 20⟩, ⟨40, 20⟩, ⟨40, 40⟩, ⟨20, 40⟩, ⟨0, 40⟩], 5, Direction.NONE,
   [RED, RED, RED, RED, RED]⟩

/-- The playing state containing `c8Snake` and a far-away apple. -/
def c8Game : Game := ⟨c8Snake, ⟨⟨380, 380⟩, WHITE⟩, false, 10⟩

/-- Counterexample to C8 as stated: with the self-collision rule enabled, a
playing tick ends still playing while the snake positions contain a
duplicate cell — `move` committed the fatal configuration; it is only
detected one tick later. -/
theorem C8_cex_committed_self_collision :
    (tick false true false Direction.DOWN 0 WHITE c8Game).game_over = false ∧
    (tick false true false Direction.DOWN 0 WHITE c8Game).snake.collide_itself = true := by
  decide

/-- Witness for C8 (amended): a wall-fatal tick ends in game-over with the
snake not moved and the apple untouched. -/
theorem C8_tick_collision_order_witness :
    tick true false false Direction.LEFT 0 WHITE
        ⟨⟨[⟨0, 0⟩], 1, Direction.NONE, [RED]⟩, ⟨⟨380, 380⟩, WHITE⟩, false, 10⟩
      = ⟨(⟨[⟨0, 0⟩], 1, Direction.NONE, [RED]⟩ : Snake).set_direction Direction.LEFT,
         ⟨⟨380, 380⟩, WHITE⟩, true, 10⟩ :=
  (C8_tick_collision_order true false false Direction.LEFT 0 WHITE
      ⟨⟨[⟨0, 0⟩], 1, Direction.NONE, [RED]⟩, ⟨⟨380, 380⟩, WHITE⟩, false, 10⟩ rfl).1
    rfl (by decide)

/-- The grid-center starting cell of `new_snake_sized` (and `new_snake`):
`Point(w * RECT_SIZE, h * RECT_SIZE)` with `w = h = (400 // 20) // 2`. -/
def startHead : Point := ⟨WIDTH / RECT_SIZE / 2 * RECT_SIZE, HEIGHT / RECT_SIZE / 2 * RECT_SIZE⟩

/-- The four cycling spiral step vectors (right, down, left, up). -/
def spiralMoves : List Point :=
  [⟨RECT_SIZE, 0⟩, ⟨0, RECT_SIZE⟩, ⟨-RECT_SIZE, 0⟩, ⟨0, -RECT_SIZE⟩]

/-- Pattern `[val for val in range(2, 100, 2) for _ in (0, 1)]`. -/
def spiralPattern : List Nat := (List.range' 2 49 2).flatMap fun v => [v, v]

/-- The flattened step sequence of the two nested loops of `new_snake_sized`:
entry `i` of the pattern contributes `pattern[i]` copies of the cycling move
`moves[i % 4]`. -/
def allSteps : List Point :=
  spiralPattern.enum.flatMap fun iv => List.replicate iv.2 (spiralMoves.getD (iv.1 % 4) ⟨0, 0⟩)

/-- The flattened loop of `new_snake_sized`: per step, return `points` once
`len(points) >= size`, otherwise append `points[-1] + move`; `none` when the
pattern is exhausted (`raise GameException`). -/
def snakeLoop (size : Nat) : List Point → List Point → Option (List Point)
  | [], _ => none
  | mv :: rest, pts =>
    if size ≤ pts.length then some pts
    else snakeLoop size rest (pts ++ [pts.getLastD ⟨0, 0⟩ + mv])

/-- Function `new_snake_sized`: the spiral initializer.  `rc` models the stream of
`random_color()` draws for the non-head colors. -/
def new_snake_sized (rc : Nat → Color) (size : Nat) : Option Snake :=
  match snakeLoop size allSteps [startHead] with
  | some pts => Snake.mk_snake pts.reverse (RED :: (List.range (size - 1)).map rc)
  | none => none

/-- Pure tail-extension: append `last + move` once per step. -/
def extendF : List Point → List Point → List Point
  | pts, [] => pts
  | pts, mv :: rest => extendF (pts ++ [pts.getLastD ⟨0, 0⟩ + mv]) rest

/-- The full spiral path from `p` through a step list (head-first accumulation
of the same extension). -/
def spiralFrom : Point → List Point → List Point
  | p, [] => [p]
  | p, mv :: rest => p :: spiralFrom (p + mv) rest

/-- All 4901 positions the spiral pattern can ever produce, in placement
order. -/
def spiralAll : List Point := spiralFrom startHead allSteps

theorem spiralFrom_length (steps : List Point) : ∀ p, (spiralFrom p steps).length = steps.length + 1 := by
  induction steps with
  | nil => intro p; rfl
  | cons mv rest ih =>
    intro p
    simp only [spiralFrom, List.length_cons, ih (p + mv)]

theorem spiralFrom_take (steps : List Point) :
    ∀ (p : Point) (k : Nat), spiralFrom p (steps.take k) = (spiralFrom p steps).take (k + 1) := by
  induction steps with
  | nil => intro p k; simp [spiralFrom]
  | cons mv rest ih =>
    intro p k
    cases k with
    | zero => simp [spiralFrom]
    | succ j =>
      simp only [List.take_succ_cons, spiralFrom]
      rw [ih (p + mv) j]

theorem extendF_acc (steps : List Point) :
    ∀ (acc : List Point) (p : Point), extendF (acc ++ [p]) steps = acc ++ spiralFrom p steps := by
  induction steps with
  | nil => intro acc p; rfl
  | cons mv rest ih =>
    intro acc p
    have hl : (acc ++ [p]).getLastD (⟨0, 0⟩ : Point) = p := by
      simp [List.getLastD_concat]
    simp only [extendF, hl, spiralFrom]
    rw [List.append_assoc acc [p] [p + mv]]
    have h2 := ih (acc ++ [p]) (p + mv)
    rw [List.append_assoc] at h2
    rw [h2]
    simp

theorem extendF_single (p : Point) (steps : List Point) :
    extendF [p] steps = spiralFrom p steps := by
  have h := extendF_acc steps [] p
  simpa using h

/-- Closed form of the initializer loop: with at least one step available the
loop returns iff `size` is reached within the available iterations (one
iteration is spent on the final length check), and the returned list extends
the accumulator by exactly the first `size - len` steps. -/
theorem snakeLoop_eq (size : Nat) :
    ∀ (steps pts : List Point), steps ≠ [] →
      snakeLoop size steps pts =
        if size ≤ pts.length + (steps.length - 1)
        then some (extendF pts (steps.take (size - pts.length)))
        else none := by
  intro steps
  induction steps with
  | nil => intro pts h; exact absurd rfl h
  | cons mv rest ih =>
    intro pts _
    by_cases h : size ≤ pts.length
    · have h0 : size - pts.length = 0 := by omega
      simp only [snakeLoop, if_pos h, h0, List.take_zero, extendF]
      rw [if_pos (by simp; omega)]
    · simp only [snakeLoop, if_neg h]
      cases rest with
      | nil =>
        simp only [snakeLoop]
        rw [if_neg (by simp; omega)]
      | cons mv2 rest2 =>
        rw [ih (pts ++ [pts.getLastD ⟨0, 0⟩ + mv]) (by simp)]
        have hj : size - pts.length = (size - (pts ++ [pts.getLastD ⟨0, 0⟩ + mv]).length) + 1 := by
          simp only [List.length_append, List.length_cons, List.length_nil]
          omega
        have hcond : (pts ++ [pts.getLastD ⟨0, 0⟩ + mv]).length + ((mv2 :: rest2).length - 1)
            = pts.length + ((mv :: mv2 :: rest2).length - 1) := by
          simp only [List.length_append, List.length_cons, List.length_nil]
          omega
        rw [hcond, hj]
        by_cases hc : size ≤ pts.length + ((mv :: mv2 :: rest2).length - 1)
        · rw [if_pos hc, if_pos hc]
          rw [List.take_succ_cons]
          rfl
        · rw [if_neg hc, if_neg hc]

/-- Injective integer key on the spiral coordinate range (all spiral
coordinates lie in `[-760, 1200]`, so the shifted coordinates fit under the
stride 8192). -/
def cellKey (p : Point) : Nat := (p.x + 2000).toNat * 8192 + (p.y + 2000).toNat

/-- Fuel-based merge of two sorted lists (structural, hence kernel-reducible). -/
def mergeF : Nat → List Nat → List Nat → List Nat
  | 0, xs, ys => xs ++ ys
  | _ + 1, [], ys => ys
  | _ + 1, x :: xs, [] => x :: xs
  | f + 1, x :: xs, y :: ys =>
    if x ≤ y then x :: mergeF f xs (y :: ys) else y :: mergeF f (x :: xs) ys

/-- Fuel-based top-down merge sort; the list length is threaded through as an
arithmetic parameter `n` so evaluation never forces `List.length`. -/
def msortN : Nat → Nat → List Nat → List Nat
  | 0, _, l => l
  | _ + 1, 0, l => l
  | _ + 1, 1, l => l
  | f + 1, n + 2, l =>
    mergeF (n + 2) (msortN f ((n + 2) / 2) (l.take ((n + 2) / 2)))
      (msortN f (n + 2 - (n + 2) / 2) (l.drop ((n + 2) / 2)))

/-- Strict sortedness check. -/
def strictSorted : List Nat → Bool
  | [] => true
  | [_] => true
  | a :: b :: rest => decide (a < b) && strictSorted (b :: rest)

theorem mergeF_perm : ∀ (f : Nat) (xs ys : List Nat), List.Perm (mergeF f xs ys) (xs ++ ys) := by
  intro f
  induction f with
  | zero => intro xs ys; exact List.Perm.refl _
  | succ f ih =>
    intro xs ys
    cases xs with
    | nil => simp [mergeF]
    | cons x xs =>
      cases ys with
      | nil => simp [mergeF]
      | cons y ys =>
        simp only [mergeF]
        split_ifs with h
        · exact (ih xs (y :: ys)).cons x
        · have h1 : List.Perm (y :: mergeF f (x :: xs) ys) (y :: ((x :: xs) ++ ys)) :=
            (ih (x :: xs) ys).cons y
          exact h1.trans List.perm_middle.symm

theorem msortN_perm : ∀ (f n : Nat) (l : List Nat), List.Perm (msortN f n l) l := by
  intro f
  induction f with
  | zero => intro n l; exact List.Perm.refl _
  | succ f ih =>
    intro n l
    cases n with
    | zero => exact List.Perm.refl _
    | succ m =>
      cases m with
      | zero => exact List.Perm.refl _
      | succ n =>
        have h1 := mergeF_perm (n + 2) (msortN f ((n + 2) / 2) (l.take ((n + 2) / 2)))
          (msortN f (n + 2 - (n + 2) / 2) (l.drop ((n + 2) / 2)))
        have h2 := (ih ((n + 2) / 2) (l.take ((n + 2) / 2))).append
          (ih (n + 2 - (n + 2) / 2) (l.drop ((n + 2) / 2)))
        have h3 := h1.trans h2
        rwa [List.take_append_drop] at h3

theorem strictSorted_chain : ∀ l : List Nat, strictSorted l = true → l.Chain' (· < ·) := by
  intro l
  induction l with
  | nil => intro _; trivial
  | cons a t ih =>
    cases t with
    | nil => intro _; simp
    | cons b rest =>
      intro h
      simp only [strictSorted, Bool.and_eq_true, decide_eq_true_eq] at h
      exact List.Chain'.cons h.1 (ih h.2)

theorem strictSorted_nodup (l : List Nat) (h : strictSorted l = true) : l.Nodup := by
  have hp : l.Pairwise (· < ·) := List.chain'_iff_pairwise.mp (strictSorted_chain l h)
  exact hp.imp fun hab => Nat.ne_of_lt hab

/-- The spiral positions, as integer keys. -/
def spiralKeys : List Nat := spiralAll.map cellKey

/-- Strictness helper: forces a `Nat` to a literal before continuing. -/
def withNatO {A : Type} (n : Nat) (f : Nat → Option A) : Option A :=
  match n with
  | 0 => f 0
  | m + 1 => f (m + 1)

/-- Strictness helper: forces an `Int` to a literal before continuing. -/
def withIntO {A : Type} (i : Int) (f : Int → Option A) : Option A :=
  match i with
  | Int.ofNat n => withNatO n fun m => f (Int.ofNat m)
  | Int.negSucc n => withNatO n fun m => f (Int.negSucc m)

theorem withNatO_eq {A : Type} (n : Nat) (f : Nat → Option A) : withNatO n f = f n := by
  cases n <;> rfl

theorem withIntO_eq {A : Type} (i : Int) (f : Int → Option A) : withIntO i f = f i := by
  cases i <;> simp [withIntO, withNatO_eq]

/-- Walks a segment of spiral steps from `(x, y)`, checking one key per
pre-step position, and returns the end coordinates; the coordinates are
re-forced to literals at every step. -/
def segCheck : Int → Int → List Point → List Nat → Option (Int × Int)
  | x, y, [], [] => some (x, y)
  | x, y, mv :: rest, k :: ks =>
    if cellKey ⟨x, y⟩ = k then
      withIntO (x + mv.x) fun x1 => withIntO (y + mv.y) fun y1 => segCheck x1 y1 rest ks
    else none
  | _, _, _, _ => none

/-- A successful `segCheck` run discharges one block of the spiral-key
computation, reducing it to the remaining steps from the returned end
coordinates. -/
theorem segCheck_spec (ks : List Nat) : ∀ (s1 : List Point) (x y x' y' : Int),
    segCheck x y s1 ks = some (x', y') →
    ∀ s2 : List Point,
      (spiralFrom ⟨x, y⟩ (s1 ++ s2)).map cellKey
        = ks ++ (spiralFrom ⟨x', y'⟩ s2).map cellKey := by
  induction ks with
  | nil =>
    intro s1 x y x' y' h s2
    cases s1 with
    | nil =>
      simp only [segCheck, Option.some.injEq, Prod.mk.injEq] at h
      rw [List.nil_append, List.nil_append, h.1, h.2]
    | cons mv rest => simp [segCheck] at h
  | cons k ks ih =>
    intro s1 x y x' y' h s2
    cases s1 with
    | nil => simp [segCheck] at h
    | cons mv rest =>
      simp only [segCheck, withIntO_eq] at h
      split_ifs at h with hk
      · have h2 := ih rest (x + mv.x) (y + mv.y) x' y' h s2
        have hp : ((⟨x, y⟩ : Point) + mv) = (⟨x + mv.x, y + mv.y⟩ : Point) := rfl
        simp only [List.cons_append, List.append_eq, spiralFrom, List.map_cons, hp, h2, hk]

/-- The 4901 spiral keys as a pre-evaluated literal (certificate data; tied
to the source-derived `spiralKeys` by `spiralKeys_eq_lit`). -/
def spiralKeysLit0 : List Nat := [ 18024600, 18188440, 18352280, 18352300, 18352320, 18188480,
  18024640, 17860800, 17696960, 17696940, 17696920, 17696900, 17696880, 17860720, 18024560,
  18188400, 18352240, 18516080, 18679920, 18679940, 18679960, 18679980, 18680000, 18680020,
  18680040, 18516200, 18352360, 18188520, 18024680, 17860840, 17697000, 17533160, 17369320,
  17369300, 17369280, 17369260, 17369240, 17369220, 17369200, 17369180, 17369160, 17533000,
  17696840, 17860680, 18024520, 18188360, 18352200, 18516040, 18679880, 18843720, 19007560,
  19007580, 19007600, 19007620, 19007640, 19007660, 19007680, 19007700, 19007720, 19007740,
  19007760, 18843920, 18680080, 18516240, 18352400, 18188560, 18024720, 17860880, 17697040,
  17533200, 17369360, 17205520, 17041680, 17041660, 17041640, 17041620, 17041600, 17041580,
  17041560, 17041540, 17041520, 17041500, 17041480, 17041460, 17041440, 17205280, 17369120,
  17532960, 17696800, 17860640, 18024480, 18188320, 18352160, 18516000, 18679840, 18843680,
  19007520, 19171360, 19335200, 19335220]

def spiralKeysLit1 : List Nat := [ 19335240, 19335260, 19335280, 19335300, 19335320, 19335340,
  19335360, 19335380, 19335400, 19335420, 19335440, 19335460, 19335480, 19171640, 19007800,
  18843960, 18680120, 18516280, 18352440, 18188600, 18024760, 17860920, 17697080, 17533240,
  17369400, 17205560, 17041720, 16877880, 16714040, 16714020, 16714000, 16713980, 16713960,
  16713940, 16713920, 16713900, 16713880, 16713860, 16713840, 16713820, 16713800, 16713780,
  16713760, 16713740, 16713720, 16877560, 17041400, 17205240, 17369080, 17532920, 17696760,
  17860600, 18024440, 18188280, 18352120, 18515960, 18679800, 18843640, 19007480, 19171320,
  19335160, 19499000, 19662840, 19662860, 19662880, 19662900, 19662920, 19662940, 19662960,
  19662980, 19663000, 19663020, 19663040, 19663060, 19663080, 19663100, 19663120, 19663140,
  19663160, 19663180, 19663200, 19499360, 19335520, 19171680, 19007840, 18844000, 18680160,
  18516320, 18352480, 18188640, 18024800, 17860960, 17697120, 17533280, 17369440, 17205600,
  17041760, 16877920, 16714080, 16550240]

def spiralKeysLit2 : List Nat := [ 16386400, 16386380, 16386360, 16386340, 16386320, 16386300,
  16386280, 16386260, 16386240, 16386220, 16386200, 16386180, 16386160, 16386140, 16386120,
  16386100, 16386080, 16386060, 16386040, 16386020, 16386000, 16549840, 16713680, 16877520,
  17041360, 17205200, 17369040, 17532880, 17696720, 17860560, 18024400, 18188240, 18352080,
  18515920, 18679760, 18843600, 19007440, 19171280, 19335120, 19498960, 19662800, 19826640,
  19990480, 19990500, 19990520, 19990540, 19990560, 19990580, 19990600, 19990620, 19990640,
  19990660, 19990680, 19990700, 19990720, 19990740, 19990760, 19990780, 19990800, 19990820,
  19990840, 19990860, 19990880, 19990900, 19990920, 19827080, 19663240, 19499400, 19335560,
  19171720, 19007880, 18844040, 18680200, 18516360, 18352520, 18188680, 18024840, 17861000,
  17697160, 17533320, 17369480, 17205640, 17041800, 16877960, 16714120, 16550280, 16386440,
  16222600, 16058760, 16058740, 16058720, 16058700, 16058680, 16058660, 16058640, 16058620,
  16058600, 16058580, 16058560, 16058540]

def spiralKeysLit3 : List Nat := [ 16058520, 16058500, 16058480, 16058460, 16058440, 16058420,
  16058400, 16058380, 16058360, 16058340, 16058320, 16058300, 16058280, 16222120, 16385960,
  16549800, 16713640, 16877480, 17041320, 17205160, 17369000, 17532840, 17696680, 17860520,
  18024360, 18188200, 18352040, 18515880, 18679720, 18843560, 19007400, 19171240, 19335080,
  19498920, 19662760, 19826600, 19990440, 20154280, 20318120, 20318140, 20318160, 20318180,
  20318200, 20318220, 20318240, 20318260, 20318280, 20318300, 20318320, 20318340, 20318360,
  20318380, 20318400, 20318420, 20318440, 20318460, 20318480, 20318500, 20318520, 20318540,
  20318560, 20318580, 20318600, 20318620, 20318640, 20154800, 19990960, 19827120, 19663280,
  19499440, 19335600, 19171760, 19007920, 18844080, 18680240, 18516400, 18352560, 18188720,
  18024880, 17861040, 17697200, 17533360, 17369520, 17205680, 17041840, 16878000, 16714160,
  16550320, 16386480, 16222640, 16058800, 15894960, 15731120, 15731100, 15731080, 15731060,
  15731040, 15731020, 15731000, 15730980]

def spiralKeysLit4 : List Nat := [ 15730960, 15730940, 15730920, 15730900, 15730880, 15730860,
  15730840, 15730820, 15730800, 15730780, 15730760, 15730740, 15730720, 15730700, 15730680,
  15730660, 15730640, 15730620, 15730600, 15730580, 15730560, 15894400, 16058240, 16222080,
  16385920, 16549760, 16713600, 16877440, 17041280, 17205120, 17368960, 17532800, 17696640,
  17860480, 18024320, 18188160, 18352000, 18515840, 18679680, 18843520, 19007360, 19171200,
  19335040, 19498880, 19662720, 19826560, 19990400, 20154240, 20318080, 20481920, 20645760,
  20645780, 20645800, 20645820, 20645840, 20645860, 20645880, 20645900, 20645920, 20645940,
  20645960, 20645980, 20646000, 20646020, 20646040, 20646060, 20646080, 20646100, 20646120,
  20646140, 20646160, 20646180, 20646200, 20646220, 20646240, 20646260, 20646280, 20646300,
  20646320, 20646340, 20646360, 20482520, 20318680, 20154840, 19991000, 19827160, 19663320,
  19499480, 19335640, 19171800, 19007960, 18844120, 18680280, 18516440, 18352600, 18188760,
  18024920, 17861080, 17697240, 17533400]

def spiralKeysLit5 : List Nat := [ 17369560, 17205720, 17041880, 16878040, 16714200, 16550360,
  16386520, 16222680, 16058840, 15895000, 15731160, 15567320, 15403480, 15403460, 15403440,
  15403420, 15403400, 15403380, 15403360, 15403340, 15403320, 15403300, 15403280, 15403260,
  15403240, 15403220, 15403200, 15403180, 15403160, 15403140, 15403120, 15403100, 15403080,
  15403060, 15403040, 15403020, 15403000, 15402980, 15402960, 15402940, 15402920, 15402900,
  15402880, 15402860, 15402840, 15566680, 15730520, 15894360, 16058200, 16222040, 16385880,
  16549720, 16713560, 16877400, 17041240, 17205080, 17368920, 17532760, 17696600, 17860440,
  18024280, 18188120, 18351960, 18515800, 18679640, 18843480, 19007320, 19171160, 19335000,
  19498840, 19662680, 19826520, 19990360, 20154200, 20318040, 20481880, 20645720, 20809560,
  20973400, 20973420, 20973440, 20973460, 20973480, 20973500, 20973520, 20973540, 20973560,
  20973580, 20973600, 20973620, 20973640, 20973660, 20973680, 20973700, 20973720, 20973740,
  20973760, 20973780, 20973800, 20973820]

def spiralKeysLit6 : List Nat := [ 20973840, 20973860, 20973880, 20973900, 20973920, 20973940,
  20973960, 20973980, 20974000, 20974020, 20974040, 20974060, 20974080, 20810240, 20646400,
  20482560, 20318720, 20154880, 19991040, 19827200, 19663360, 19499520, 19335680, 19171840,
  19008000, 18844160, 18680320, 18516480, 18352640, 18188800, 18024960, 17861120, 17697280,
  17533440, 17369600, 17205760, 17041920, 16878080, 16714240, 16550400, 16386560, 16222720,
  16058880, 15895040, 15731200, 15567360, 15403520, 15239680, 15075840, 15075820, 15075800,
  15075780, 15075760, 15075740, 15075720, 15075700, 15075680, 15075660, 15075640, 15075620,
  15075600, 15075580, 15075560, 15075540, 15075520, 15075500, 15075480, 15075460, 15075440,
  15075420, 15075400, 15075380, 15075360, 15075340, 15075320, 15075300, 15075280, 15075260,
  15075240, 15075220, 15075200, 15075180, 15075160, 15075140, 15075120, 15238960, 15402800,
  15566640, 15730480, 15894320, 16058160, 16222000, 16385840, 16549680, 16713520, 16877360,
  17041200, 17205040, 17368880, 17532720]

def spiralKeysLit7 : List Nat := [ 17696560, 17860400, 18024240, 18188080, 18351920, 18515760,
  18679600, 18843440, 19007280, 19171120, 19334960, 19498800, 19662640, 19826480, 19990320,
  20154160, 20318000, 20481840, 20645680, 20809520, 20973360, 21137200, 21301040, 21301060,
  21301080, 21301100, 21301120, 21301140, 21301160, 21301180, 21301200, 21301220, 21301240,
  21301260, 21301280, 21301300, 21301320, 21301340, 21301360, 21301380, 21301400, 21301420,
  21301440, 21301460, 21301480, 21301500, 21301520, 21301540, 21301560, 21301580, 21301600,
  21301620, 21301640, 21301660, 21301680, 21301700, 21301720, 21301740, 21301760, 21301780,
  21301800, 21137960, 20974120, 20810280, 20646440, 20482600, 20318760, 20154920, 19991080,
  19827240, 19663400, 19499560, 19335720, 19171880, 19008040, 18844200, 18680360, 18516520,
  18352680, 18188840, 18025000, 17861160, 17697320, 17533480, 17369640, 17205800, 17041960,
  16878120, 16714280, 16550440, 16386600, 16222760, 16058920, 15895080, 15731240, 15567400,
  15403560, 15239720, 15075880, 14912040]

def spiralKeysLit8 : List Nat := [ 14748200, 14748180, 14748160, 14748140, 14748120, 14748100,
  14748080, 14748060, 14748040, 14748020, 14748000, 14747980, 14747960, 14747940, 14747920,
  14747900, 14747880, 14747860, 14747840, 14747820, 14747800, 14747780, 14747760, 14747740,
  14747720, 14747700, 14747680, 14747660, 14747640, 14747620, 14747600, 14747580, 14747560,
  14747540, 14747520, 14747500, 14747480, 14747460, 14747440, 14747420, 14747400, 14911240,
  15075080, 15238920, 15402760, 15566600, 15730440, 15894280, 16058120, 16221960, 16385800,
  16549640, 16713480, 16877320, 17041160, 17205000, 17368840, 17532680, 17696520, 17860360,
  18024200, 18188040, 18351880, 18515720, 18679560, 18843400, 19007240, 19171080, 19334920,
  19498760, 19662600, 19826440, 19990280, 20154120, 20317960, 20481800, 20645640, 20809480,
  20973320, 21137160, 21301000, 21464840, 21628680, 21628700, 21628720, 21628740, 21628760,
  21628780, 21628800, 21628820, 21628840, 21628860, 21628880, 21628900, 21628920, 21628940,
  21628960, 21628980, 21629000, 21629020]

def spiralKeysLit9 : List Nat := [ 21629040, 21629060, 21629080, 21629100, 21629120, 21629140,
  21629160, 21629180, 21629200, 21629220, 21629240, 21629260, 21629280, 21629300, 21629320,
  21629340, 21629360, 21629380, 21629400, 21629420, 21629440, 21629460, 21629480, 21629500,
  21629520, 21465680, 21301840, 21138000, 20974160, 20810320, 20646480, 20482640, 20318800,
  20154960, 19991120, 19827280, 19663440, 19499600, 19335760, 19171920, 19008080, 18844240,
  18680400, 18516560, 18352720, 18188880, 18025040, 17861200, 17697360, 17533520, 17369680,
  17205840, 17042000, 16878160, 16714320, 16550480, 16386640, 16222800, 16058960, 15895120,
  15731280, 15567440, 15403600, 15239760, 15075920, 14912080, 14748240, 14584400, 14420560,
  14420540, 14420520, 14420500, 14420480, 14420460, 14420440, 14420420, 14420400, 14420380,
  14420360, 14420340, 14420320, 14420300, 14420280, 14420260, 14420240, 14420220, 14420200,
  14420180, 14420160, 14420140, 14420120, 14420100, 14420080, 14420060, 14420040, 14420020,
  14420000, 14419980, 14419960, 14419940]

def spiralKeysLit10 : List Nat := [ 14419920, 14419900, 14419880, 14419860, 14419840, 14419820,
  14419800, 14419780, 14419760, 14419740, 14419720, 14419700, 14419680, 14583520, 14747360,
  14911200, 15075040, 15238880, 15402720, 15566560, 15730400, 15894240, 16058080, 16221920,
  16385760, 16549600, 16713440, 16877280, 17041120, 17204960, 17368800, 17532640, 17696480,
  17860320, 18024160, 18188000, 18351840, 18515680, 18679520, 18843360, 19007200, 19171040,
  19334880, 19498720, 19662560, 19826400, 19990240, 20154080, 20317920, 20481760, 20645600,
  20809440, 20973280, 21137120, 21300960, 21464800, 21628640, 21792480, 21956320, 21956340,
  21956360, 21956380, 21956400, 21956420, 21956440, 21956460, 21956480, 21956500, 21956520,
  21956540, 21956560, 21956580, 21956600, 21956620, 21956640, 21956660, 21956680, 21956700,
  21956720, 21956740, 21956760, 21956780, 21956800, 21956820, 21956840, 21956860, 21956880,
  21956900, 21956920, 21956940, 21956960, 21956980, 21957000, 21957020, 21957040, 21957060,
  21957080, 21957100, 21957120, 21957140]

def spiralKeysLit11 : List Nat := [ 21957160, 21957180, 21957200, 21957220, 21957240, 21793400,
  21629560, 21465720, 21301880, 21138040, 20974200, 20810360, 20646520, 20482680, 20318840,
  20155000, 19991160, 19827320, 19663480, 19499640, 19335800, 19171960, 19008120, 18844280,
  18680440, 18516600, 18352760, 18188920, 18025080, 17861240, 17697400, 17533560, 17369720,
  17205880, 17042040, 16878200, 16714360, 16550520, 16386680, 16222840, 16059000, 15895160,
  15731320, 15567480, 15403640, 15239800, 15075960, 14912120, 14748280, 14584440, 14420600,
  14256760, 14092920, 14092900, 14092880, 14092860, 14092840, 14092820, 14092800, 14092780,
  14092760, 14092740, 14092720, 14092700, 14092680, 14092660, 14092640, 14092620, 14092600,
  14092580, 14092560, 14092540, 14092520, 14092500, 14092480, 14092460, 14092440, 14092420,
  14092400, 14092380, 14092360, 14092340, 14092320, 14092300, 14092280, 14092260, 14092240,
  14092220, 14092200, 14092180, 14092160, 14092140, 14092120, 14092100, 14092080, 14092060,
  14092040, 14092020, 14092000, 14091980]

def spiralKeysLit12 : List Nat := [ 14091960, 14255800, 14419640, 14583480, 14747320, 14911160,
  15075000, 15238840, 15402680, 15566520, 15730360, 15894200, 16058040, 16221880, 16385720,
  16549560, 16713400, 16877240, 17041080, 17204920, 17368760, 17532600, 17696440, 17860280,
  18024120, 18187960, 18351800, 18515640, 18679480, 18843320, 19007160, 19171000, 19334840,
  19498680, 19662520, 19826360, 19990200, 20154040, 20317880, 20481720, 20645560, 20809400,
  20973240, 21137080, 21300920, 21464760, 21628600, 21792440, 21956280, 22120120, 22283960,
  22283980, 22284000, 22284020, 22284040, 22284060, 22284080, 22284100, 22284120, 22284140,
  22284160, 22284180, 22284200, 22284220, 22284240, 22284260, 22284280, 22284300, 22284320,
  22284340, 22284360, 22284380, 22284400, 22284420, 22284440, 22284460, 22284480, 22284500,
  22284520, 22284540, 22284560, 22284580, 22284600, 22284620, 22284640, 22284660, 22284680,
  22284700, 22284720, 22284740, 22284760, 22284780, 22284800, 22284820, 22284840, 22284860,
  22284880, 22284900, 22284920, 22284940]

def spiralKeysLit13 : List Nat := [ 22284960, 22121120, 21957280, 21793440, 21629600, 21465760,
  21301920, 21138080, 20974240, 20810400, 20646560, 20482720, 20318880, 20155040, 19991200,
  19827360, 19663520, 19499680, 19335840, 19172000, 19008160, 18844320, 18680480, 18516640,
  18352800, 18188960, 18025120, 17861280, 17697440, 17533600, 17369760, 17205920, 17042080,
  16878240, 16714400, 16550560, 16386720, 16222880, 16059040, 15895200, 15731360, 15567520,
  15403680, 15239840, 15076000, 14912160, 14748320, 14584480, 14420640, 14256800, 14092960,
  13929120, 13765280, 13765260, 13765240, 13765220, 13765200, 13765180, 13765160, 13765140,
  13765120, 13765100, 13765080, 13765060, 13765040, 13765020, 13765000, 13764980, 13764960,
  13764940, 13764920, 13764900, 13764880, 13764860, 13764840, 13764820, 13764800, 13764780,
  13764760, 13764740, 13764720, 13764700, 13764680, 13764660, 13764640, 13764620, 13764600,
  13764580, 13764560, 13764540, 13764520, 13764500, 13764480, 13764460, 13764440, 13764420,
  13764400, 13764380, 13764360, 13764340]

def spiralKeysLit14 : List Nat := [ 13764320, 13764300, 13764280, 13764260, 13764240, 13928080,
  14091920, 14255760, 14419600, 14583440, 14747280, 14911120, 15074960, 15238800, 15402640,
  15566480, 15730320, 15894160, 16058000, 16221840, 16385680, 16549520, 16713360, 16877200,
  17041040, 17204880, 17368720, 17532560, 17696400, 17860240, 18024080, 18187920, 18351760,
  18515600, 18679440, 18843280, 19007120, 19170960, 19334800, 19498640, 19662480, 19826320,
  19990160, 20154000, 20317840, 20481680, 20645520, 20809360, 20973200, 21137040, 21300880,
  21464720, 21628560, 21792400, 21956240, 22120080, 22283920, 22447760, 22611600, 22611620,
  22611640, 22611660, 22611680, 22611700, 22611720, 22611740, 22611760, 22611780, 22611800,
  22611820, 22611840, 22611860, 22611880, 22611900, 22611920, 22611940, 22611960, 22611980,
  22612000, 22612020, 22612040, 22612060, 22612080, 22612100, 22612120, 22612140, 22612160,
  22612180, 22612200, 22612220, 22612240, 22612260, 22612280, 22612300, 22612320, 22612340,
  22612360, 22612380, 22612400, 22612420]

def spiralKeysLit15 : List Nat := [ 22612440, 22612460, 22612480, 22612500, 22612520, 22612540,
  22612560, 22612580, 22612600, 22612620, 22612640, 22612660, 22612680, 22448840, 22285000,
  22121160, 21957320, 21793480, 21629640, 21465800, 21301960, 21138120, 20974280, 20810440,
  20646600, 20482760, 20318920, 20155080, 19991240, 19827400, 19663560, 19499720, 19335880,
  19172040, 19008200, 18844360, 18680520, 18516680, 18352840, 18189000, 18025160, 17861320,
  17697480, 17533640, 17369800, 17205960, 17042120, 16878280, 16714440, 16550600, 16386760,
  16222920, 16059080, 15895240, 15731400, 15567560, 15403720, 15239880, 15076040, 14912200,
  14748360, 14584520, 14420680, 14256840, 14093000, 13929160, 13765320, 13601480, 13437640,
  13437620, 13437600, 13437580, 13437560, 13437540, 13437520, 13437500, 13437480, 13437460,
  13437440, 13437420, 13437400, 13437380, 13437360, 13437340, 13437320, 13437300, 13437280,
  13437260, 13437240, 13437220, 13437200, 13437180, 13437160, 13437140, 13437120, 13437100,
  13437080, 13437060, 13437040, 13437020]

def spiralKeysLit16 : List Nat := [ 13437000, 13436980, 13436960, 13436940, 13436920, 13436900,
  13436880, 13436860, 13436840, 13436820, 13436800, 13436780, 13436760, 13436740, 13436720,
  13436700, 13436680, 13436660, 13436640, 13436620, 13436600, 13436580, 13436560, 13436540,
  13436520, 13600360, 13764200, 13928040, 14091880, 14255720, 14419560, 14583400, 14747240,
  14911080, 15074920, 15238760, 15402600, 15566440, 15730280, 15894120, 16057960, 16221800,
  16385640, 16549480, 16713320, 16877160, 17041000, 17204840, 17368680, 17532520, 17696360,
  17860200, 18024040, 18187880, 18351720, 18515560, 18679400, 18843240, 19007080, 19170920,
  19334760, 19498600, 19662440, 19826280, 19990120, 20153960, 20317800, 20481640, 20645480,
  20809320, 20973160, 21137000, 21300840, 21464680, 21628520, 21792360, 21956200, 22120040,
  22283880, 22447720, 22611560, 22775400, 22939240, 22939260, 22939280, 22939300, 22939320,
  22939340, 22939360, 22939380, 22939400, 22939420, 22939440, 22939460, 22939480, 22939500,
  22939520, 22939540, 22939560, 22939580]

def spiralKeysLit17 : List Nat := [ 22939600, 22939620, 22939640, 22939660, 22939680, 22939700,
  22939720, 22939740, 22939760, 22939780, 22939800, 22939820, 22939840, 22939860, 22939880,
  22939900, 22939920, 22939940, 22939960, 22939980, 22940000, 22940020, 22940040, 22940060,
  22940080, 22940100, 22940120, 22940140, 22940160, 22940180, 22940200, 22940220, 22940240,
  22940260, 22940280, 22940300, 22940320, 22940340, 22940360, 22940380, 22940400, 22776560,
  22612720, 22448880, 22285040, 22121200, 21957360, 21793520, 21629680, 21465840, 21302000,
  21138160, 20974320, 20810480, 20646640, 20482800, 20318960, 20155120, 19991280, 19827440,
  19663600, 19499760, 19335920, 19172080, 19008240, 18844400, 18680560, 18516720, 18352880,
  18189040, 18025200, 17861360, 17697520, 17533680, 17369840, 17206000, 17042160, 16878320,
  16714480, 16550640, 16386800, 16222960, 16059120, 15895280, 15731440, 15567600, 15403760,
  15239920, 15076080, 14912240, 14748400, 14584560, 14420720, 14256880, 14093040, 13929200,
  13765360, 13601520, 13437680, 13273840]

def spiralKeysLit18 : List Nat := [ 13110000, 13109980, 13109960, 13109940, 13109920, 13109900,
  13109880, 13109860, 13109840, 13109820, 13109800, 13109780, 13109760, 13109740, 13109720,
  13109700, 13109680, 13109660, 13109640, 13109620, 13109600, 13109580, 13109560, 13109540,
  13109520, 13109500, 13109480, 13109460, 13109440, 13109420, 13109400, 13109380, 13109360,
  13109340, 13109320, 13109300, 13109280, 13109260, 13109240, 13109220, 13109200, 13109180,
  13109160, 13109140, 13109120, 13109100, 13109080, 13109060, 13109040, 13109020, 13109000,
  13108980, 13108960, 13108940, 13108920, 13108900, 13108880, 13108860, 13108840, 13108820,
  13108800, 13272640, 13436480, 13600320, 13764160, 13928000, 14091840, 14255680, 14419520,
  14583360, 14747200, 14911040, 15074880, 15238720, 15402560, 15566400, 15730240, 15894080,
  16057920, 16221760, 16385600, 16549440, 16713280, 16877120, 17040960, 17204800, 17368640,
  17532480, 17696320, 17860160, 18024000, 18187840, 18351680, 18515520, 18679360, 18843200,
  19007040, 19170880, 19334720, 19498560]

def spiralKeysLit19 : List Nat := [ 19662400, 19826240, 19990080, 20153920, 20317760, 20481600,
  20645440, 20809280, 20973120, 21136960, 21300800, 21464640, 21628480, 21792320, 21956160,
  22120000, 22283840, 22447680, 22611520, 22775360, 22939200, 23103040, 23266880, 23266900,
  23266920, 23266940, 23266960, 23266980, 23267000, 23267020, 23267040, 23267060, 23267080,
  23267100, 23267120, 23267140, 23267160, 23267180, 23267200, 23267220, 23267240, 23267260,
  23267280, 23267300, 23267320, 23267340, 23267360, 23267380, 23267400, 23267420, 23267440,
  23267460, 23267480, 23267500, 23267520, 23267540, 23267560, 23267580, 23267600, 23267620,
  23267640, 23267660, 23267680, 23267700, 23267720, 23267740, 23267760, 23267780, 23267800,
  23267820, 23267840, 23267860, 23267880, 23267900, 23267920, 23267940, 23267960, 23267980,
  23268000, 23268020, 23268040, 23268060, 23268080, 23268100, 23268120, 23104280, 22940440,
  22776600, 22612760, 22448920, 22285080, 22121240, 21957400, 21793560, 21629720, 21465880,
  21302040, 21138200, 20974360, 20810520]

def spiralKeysLit20 : List Nat := [ 20646680, 20482840, 20319000, 20155160, 19991320, 19827480,
  19663640, 19499800, 19335960, 19172120, 19008280, 18844440, 18680600, 18516760, 18352920,
  18189080, 18025240, 17861400, 17697560, 17533720, 17369880, 17206040, 17042200, 16878360,
  16714520, 16550680, 16386840, 16223000, 16059160, 15895320, 15731480, 15567640, 15403800,
  15239960, 15076120, 14912280, 14748440, 14584600, 14420760, 14256920, 14093080, 13929240,
  13765400, 13601560, 13437720, 13273880, 13110040, 12946200, 12782360, 12782340, 12782320,
  12782300, 12782280, 12782260, 12782240, 12782220, 12782200, 12782180, 12782160, 12782140,
  12782120, 12782100, 12782080, 12782060, 12782040, 12782020, 12782000, 12781980, 12781960,
  12781940, 12781920, 12781900, 12781880, 12781860, 12781840, 12781820, 12781800, 12781780,
  12781760, 12781740, 12781720, 12781700, 12781680, 12781660, 12781640, 12781620, 12781600,
  12781580, 12781560, 12781540, 12781520, 12781500, 12781480, 12781460, 12781440, 12781420,
  12781400, 12781380, 12781360, 12781340]

def spiralKeysLit21 : List Nat := [ 12781320, 12781300, 12781280, 12781260, 12781240, 12781220,
  12781200, 12781180, 12781160, 12781140, 12781120, 12781100, 12781080, 12944920, 13108760,
  13272600, 13436440, 13600280, 13764120, 13927960, 14091800, 14255640, 14419480, 14583320,
  14747160, 14911000, 15074840, 15238680, 15402520, 15566360, 15730200, 15894040, 16057880,
  16221720, 16385560, 16549400, 16713240, 16877080, 17040920, 17204760, 17368600, 17532440,
  17696280, 17860120, 18023960, 18187800, 18351640, 18515480, 18679320, 18843160, 19007000,
  19170840, 19334680, 19498520, 19662360, 19826200, 19990040, 20153880, 20317720, 20481560,
  20645400, 20809240, 20973080, 21136920, 21300760, 21464600, 21628440, 21792280, 21956120,
  22119960, 22283800, 22447640, 22611480, 22775320, 22939160, 23103000, 23266840, 23430680,
  23594520, 23594540, 23594560, 23594580, 23594600, 23594620, 23594640, 23594660, 23594680,
  23594700, 23594720, 23594740, 23594760, 23594780, 23594800, 23594820, 23594840, 23594860,
  23594880, 23594900, 23594920, 23594940]

def spiralKeysLit22 : List Nat := [ 23594960, 23594980, 23595000, 23595020, 23595040, 23595060,
  23595080, 23595100, 23595120, 23595140, 23595160, 23595180, 23595200, 23595220, 23595240,
  23595260, 23595280, 23595300, 23595320, 23595340, 23595360, 23595380, 23595400, 23595420,
  23595440, 23595460, 23595480, 23595500, 23595520, 23595540, 23595560, 23595580, 23595600,
  23595620, 23595640, 23595660, 23595680, 23595700, 23595720, 23595740, 23595760, 23595780,
  23595800, 23595820, 23595840, 23432000, 23268160, 23104320, 22940480, 22776640, 22612800,
  22448960, 22285120, 22121280, 21957440, 21793600, 21629760, 21465920, 21302080, 21138240,
  20974400, 20810560, 20646720, 20482880, 20319040, 20155200, 19991360, 19827520, 19663680,
  19499840, 19336000, 19172160, 19008320, 18844480, 18680640, 18516800, 18352960, 18189120,
  18025280, 17861440, 17697600, 17533760, 17369920, 17206080, 17042240, 16878400, 16714560,
  16550720, 16386880, 16223040, 16059200, 15895360, 15731520, 15567680, 15403840, 15240000,
  15076160, 14912320, 14748480, 14584640]

def spiralKeysLit23 : List Nat := [ 14420800, 14256960, 14093120, 13929280, 13765440, 13601600,
  13437760, 13273920, 13110080, 12946240, 12782400, 12618560, 12454720, 12454700, 12454680,
  12454660, 12454640, 12454620, 12454600, 12454580, 12454560, 12454540, 12454520, 12454500,
  12454480, 12454460, 12454440, 12454420, 12454400, 12454380, 12454360, 12454340, 12454320,
  12454300, 12454280, 12454260, 12454240, 12454220, 12454200, 12454180, 12454160, 12454140,
  12454120, 12454100, 12454080, 12454060, 12454040, 12454020, 12454000, 12453980, 12453960,
  12453940, 12453920, 12453900, 12453880, 12453860, 12453840, 12453820, 12453800, 12453780,
  12453760, 12453740, 12453720, 12453700, 12453680, 12453660, 12453640, 12453620, 12453600,
  12453580, 12453560, 12453540, 12453520, 12453500, 12453480, 12453460, 12453440, 12453420,
  12453400, 12453380, 12453360, 12617200, 12781040, 12944880, 13108720, 13272560, 13436400,
  13600240, 13764080, 13927920, 14091760, 14255600, 14419440, 14583280, 14747120, 14910960,
  15074800, 15238640, 15402480, 15566320]

def spiralKeysLit24 : List Nat := [ 15730160, 15894000, 16057840, 16221680, 16385520, 16549360,
  16713200, 16877040, 17040880, 17204720, 17368560, 17532400, 17696240, 17860080, 18023920,
  18187760, 18351600, 18515440, 18679280, 18843120, 19006960, 19170800, 19334640, 19498480,
  19662320, 19826160, 19990000, 20153840, 20317680, 20481520, 20645360, 20809200, 20973040,
  21136880, 21300720, 21464560, 21628400, 21792240, 21956080, 22119920, 22283760, 22447600,
  22611440, 22775280, 22939120, 23102960, 23266800, 23430640, 23594480, 23758320, 23922160,
  23922180, 23922200, 23922220, 23922240, 23922260, 23922280, 23922300, 23922320, 23922340,
  23922360, 23922380, 23922400, 23922420, 23922440, 23922460, 23922480, 23922500, 23922520,
  23922540, 23922560, 23922580, 23922600, 23922620, 23922640, 23922660, 23922680, 23922700,
  23922720, 23922740, 23922760, 23922780, 23922800, 23922820, 23922840, 23922860, 23922880,
  23922900, 23922920, 23922940, 23922960, 23922980, 23923000, 23923020, 23923040, 23923060,
  23923080, 23923100, 23923120, 23923140]

def spiralKeysLit25 : List Nat := [ 23923160, 23923180, 23923200, 23923220, 23923240, 23923260,
  23923280, 23923300, 23923320, 23923340, 23923360, 23923380, 23923400, 23923420, 23923440,
  23923460, 23923480, 23923500, 23923520, 23923540, 23923560, 23759720, 23595880, 23432040,
  23268200, 23104360, 22940520, 22776680, 22612840, 22449000, 22285160, 22121320, 21957480,
  21793640, 21629800, 21465960, 21302120, 21138280, 20974440, 20810600, 20646760, 20482920,
  20319080, 20155240, 19991400, 19827560, 19663720, 19499880, 19336040, 19172200, 19008360,
  18844520, 18680680, 18516840, 18353000, 18189160, 18025320, 17861480, 17697640, 17533800,
  17369960, 17206120, 17042280, 16878440, 16714600, 16550760, 16386920, 16223080, 16059240,
  15895400, 15731560, 15567720, 15403880, 15240040, 15076200, 14912360, 14748520, 14584680,
  14420840, 14257000, 14093160, 13929320, 13765480, 13601640, 13437800, 13273960, 13110120,
  12946280, 12782440, 12618600, 12454760, 12290920, 12127080, 12127060, 12127040, 12127020,
  12127000, 12126980, 12126960, 12126940]

def spiralKeysLit26 : List Nat := [ 12126920, 12126900, 12126880, 12126860, 12126840, 12126820,
  12126800, 12126780, 12126760, 12126740, 12126720, 12126700, 12126680, 12126660, 12126640,
  12126620, 12126600, 12126580, 12126560, 12126540, 12126520, 12126500, 12126480, 12126460,
  12126440, 12126420, 12126400, 12126380, 12126360, 12126340, 12126320, 12126300, 12126280,
  12126260, 12126240, 12126220, 12126200, 12126180, 12126160, 12126140, 12126120, 12126100,
  12126080, 12126060, 12126040, 12126020, 12126000, 12125980, 12125960, 12125940, 12125920,
  12125900, 12125880, 12125860, 12125840, 12125820, 12125800, 12125780, 12125760, 12125740,
  12125720, 12125700, 12125680, 12125660, 12125640, 12289480, 12453320, 12617160, 12781000,
  12944840, 13108680, 13272520, 13436360, 13600200, 13764040, 13927880, 14091720, 14255560,
  14419400, 14583240, 14747080, 14910920, 15074760, 15238600, 15402440, 15566280, 15730120,
  15893960, 16057800, 16221640, 16385480, 16549320, 16713160, 16877000, 17040840, 17204680,
  17368520, 17532360, 17696200, 17860040]

def spiralKeysLit27 : List Nat := [ 18023880, 18187720, 18351560, 18515400, 18679240, 18843080,
  19006920, 19170760, 19334600, 19498440, 19662280, 19826120, 19989960, 20153800, 20317640,
  20481480, 20645320, 20809160, 20973000, 21136840, 21300680, 21464520, 21628360, 21792200,
  21956040, 22119880, 22283720, 22447560, 22611400, 22775240, 22939080, 23102920, 23266760,
  23430600, 23594440, 23758280, 23922120, 24085960, 24249800, 24249820, 24249840, 24249860,
  24249880, 24249900, 24249920, 24249940, 24249960, 24249980, 24250000, 24250020, 24250040,
  24250060, 24250080, 24250100, 24250120, 24250140, 24250160, 24250180, 24250200, 24250220,
  24250240, 24250260, 24250280, 24250300, 24250320, 24250340, 24250360, 24250380, 24250400,
  24250420, 24250440, 24250460, 24250480, 24250500, 24250520, 24250540, 24250560, 24250580,
  24250600, 24250620, 24250640, 24250660, 24250680, 24250700, 24250720, 24250740, 24250760,
  24250780, 24250800, 24250820, 24250840, 24250860, 24250880, 24250900, 24250920, 24250940,
  24250960, 24250980, 24251000, 24251020]

def spiralKeysLit28 : List Nat := [ 24251040, 24251060, 24251080, 24251100, 24251120, 24251140,
  24251160, 24251180, 24251200, 24251220, 24251240, 24251260, 24251280, 24087440, 23923600,
  23759760, 23595920, 23432080, 23268240, 23104400, 22940560, 22776720, 22612880, 22449040,
  22285200, 22121360, 21957520, 21793680, 21629840, 21466000, 21302160, 21138320, 20974480,
  20810640, 20646800, 20482960, 20319120, 20155280, 19991440, 19827600, 19663760, 19499920,
  19336080, 19172240, 19008400, 18844560, 18680720, 18516880, 18353040, 18189200, 18025360,
  17861520, 17697680, 17533840, 17370000, 17206160, 17042320, 16878480, 16714640, 16550800,
  16386960, 16223120, 16059280, 15895440, 15731600, 15567760, 15403920, 15240080, 15076240,
  14912400, 14748560, 14584720, 14420880, 14257040, 14093200, 13929360, 13765520, 13601680,
  13437840, 13274000, 13110160, 12946320, 12782480, 12618640, 12454800, 12290960, 12127120,
  11963280, 11799440, 11799420, 11799400, 11799380, 11799360, 11799340, 11799320, 11799300,
  11799280, 11799260, 11799240, 11799220]

def spiralKeysLit29 : List Nat := [ 11799200, 11799180, 11799160, 11799140, 11799120, 11799100,
  11799080, 11799060, 11799040, 11799020, 11799000, 11798980, 11798960, 11798940, 11798920,
  11798900, 11798880, 11798860, 11798840, 11798820, 11798800, 11798780, 11798760, 11798740,
  11798720, 11798700, 11798680, 11798660, 11798640, 11798620, 11798600, 11798580, 11798560,
  11798540, 11798520, 11798500, 11798480, 11798460, 11798440, 11798420, 11798400, 11798380,
  11798360, 11798340, 11798320, 11798300, 11798280, 11798260, 11798240, 11798220, 11798200,
  11798180, 11798160, 11798140, 11798120, 11798100, 11798080, 11798060, 11798040, 11798020,
  11798000, 11797980, 11797960, 11797940, 11797920, 11961760, 12125600, 12289440, 12453280,
  12617120, 12780960, 12944800, 13108640, 13272480, 13436320, 13600160, 13764000, 13927840,
  14091680, 14255520, 14419360, 14583200, 14747040, 14910880, 15074720, 15238560, 15402400,
  15566240, 15730080, 15893920, 16057760, 16221600, 16385440, 16549280, 16713120, 16876960,
  17040800, 17204640, 17368480, 17532320]

def spiralKeysLit30 : List Nat := [ 17696160, 17860000, 18023840, 18187680, 18351520, 18515360,
  18679200, 18843040, 19006880, 19170720, 19334560, 19498400, 19662240, 19826080, 19989920,
  20153760, 20317600, 20481440, 20645280, 20809120, 20972960, 21136800, 21300640, 21464480,
  21628320, 21792160, 21956000, 22119840, 22283680, 22447520, 22611360, 22775200, 22939040,
  23102880, 23266720, 23430560, 23594400, 23758240, 23922080, 24085920, 24249760, 24413600,
  24577440, 24577460, 24577480, 24577500, 24577520, 24577540, 24577560, 24577580, 24577600,
  24577620, 24577640, 24577660, 24577680, 24577700, 24577720, 24577740, 24577760, 24577780,
  24577800, 24577820, 24577840, 24577860, 24577880, 24577900, 24577920, 24577940, 24577960,
  24577980, 24578000, 24578020, 24578040, 24578060, 24578080, 24578100, 24578120, 24578140,
  24578160, 24578180, 24578200, 24578220, 24578240, 24578260, 24578280, 24578300, 24578320,
  24578340, 24578360, 24578380, 24578400, 24578420, 24578440, 24578460, 24578480, 24578500,
  24578520, 24578540, 24578560, 24578580]

def spiralKeysLit31 : List Nat := [ 24578600, 24578620, 24578640, 24578660, 24578680, 24578700,
  24578720, 24578740, 24578760, 24578780, 24578800, 24578820, 24578840, 24578860, 24578880,
  24578900, 24578920, 24578940, 24578960, 24578980, 24579000, 24415160, 24251320, 24087480,
  23923640, 23759800, 23595960, 23432120, 23268280, 23104440, 22940600, 22776760, 22612920,
  22449080, 22285240, 22121400, 21957560, 21793720, 21629880, 21466040, 21302200, 21138360,
  20974520, 20810680, 20646840, 20483000, 20319160, 20155320, 19991480, 19827640, 19663800,
  19499960, 19336120, 19172280, 19008440, 18844600, 18680760, 18516920, 18353080, 18189240,
  18025400, 17861560, 17697720, 17533880, 17370040, 17206200, 17042360, 16878520, 16714680,
  16550840, 16387000, 16223160, 16059320, 15895480, 15731640, 15567800, 15403960, 15240120,
  15076280, 14912440, 14748600, 14584760, 14420920, 14257080, 14093240, 13929400, 13765560,
  13601720, 13437880, 13274040, 13110200, 12946360, 12782520, 12618680, 12454840, 12291000,
  12127160, 11963320, 11799480, 11635640]

def spiralKeysLit32 : List Nat := [ 11471800, 11471780, 11471760, 11471740, 11471720, 11471700,
  11471680, 11471660, 11471640, 11471620, 11471600, 11471580, 11471560, 11471540, 11471520,
  11471500, 11471480, 11471460, 11471440, 11471420, 11471400, 11471380, 11471360, 11471340,
  11471320, 11471300, 11471280, 11471260, 11471240, 11471220, 11471200, 11471180, 11471160,
  11471140, 11471120, 11471100, 11471080, 11471060, 11471040, 11471020, 11471000, 11470980,
  11470960, 11470940, 11470920, 11470900, 11470880, 11470860, 11470840, 11470820, 11470800,
  11470780, 11470760, 11470740, 11470720, 11470700, 11470680, 11470660, 11470640, 11470620,
  11470600, 11470580, 11470560, 11470540, 11470520, 11470500, 11470480, 11470460, 11470440,
  11470420, 11470400, 11470380, 11470360, 11470340, 11470320, 11470300, 11470280, 11470260,
  11470240, 11470220, 11470200, 11634040, 11797880, 11961720, 12125560, 12289400, 12453240,
  12617080, 12780920, 12944760, 13108600, 13272440, 13436280, 13600120, 13763960, 13927800,
  14091640, 14255480, 14419320, 14583160]

def spiralKeysLit33 : List Nat := [ 14747000, 14910840, 15074680, 15238520, 15402360, 15566200,
  15730040, 15893880, 16057720, 16221560, 16385400, 16549240, 16713080, 16876920, 17040760,
  17204600, 17368440, 17532280, 17696120, 17859960, 18023800, 18187640, 18351480, 18515320,
  18679160, 18843000, 19006840, 19170680, 19334520, 19498360, 19662200, 19826040, 19989880,
  20153720, 20317560, 20481400, 20645240, 20809080, 20972920, 21136760, 21300600, 21464440,
  21628280, 21792120, 21955960, 22119800, 22283640, 22447480, 22611320, 22775160, 22939000,
  23102840, 23266680, 23430520, 23594360, 23758200, 23922040, 24085880, 24249720, 24413560,
  24577400, 24741240, 24905080, 24905100, 24905120, 24905140, 24905160, 24905180, 24905200,
  24905220, 24905240, 24905260, 24905280, 24905300, 24905320, 24905340, 24905360, 24905380,
  24905400, 24905420, 24905440, 24905460, 24905480, 24905500, 24905520, 24905540, 24905560,
  24905580, 24905600, 24905620, 24905640, 24905660, 24905680, 24905700, 24905720, 24905740,
  24905760, 24905780, 24905800, 24905820]

def spiralKeysLit34 : List Nat := [ 24905840, 24905860, 24905880, 24905900, 24905920, 24905940,
  24905960, 24905980, 24906000, 24906020, 24906040, 24906060, 24906080, 24906100, 24906120,
  24906140, 24906160, 24906180, 24906200, 24906220, 24906240, 24906260, 24906280, 24906300,
  24906320, 24906340, 24906360, 24906380, 24906400, 24906420, 24906440, 24906460, 24906480,
  24906500, 24906520, 24906540, 24906560, 24906580, 24906600, 24906620, 24906640, 24906660,
  24906680, 24906700, 24906720, 24742880, 24579040, 24415200, 24251360, 24087520, 23923680,
  23759840, 23596000, 23432160, 23268320, 23104480, 22940640, 22776800, 22612960, 22449120,
  22285280, 22121440, 21957600, 21793760, 21629920, 21466080, 21302240, 21138400, 20974560,
  20810720, 20646880, 20483040, 20319200, 20155360, 19991520, 19827680, 19663840, 19500000,
  19336160, 19172320, 19008480, 18844640, 18680800, 18516960, 18353120, 18189280, 18025440,
  17861600, 17697760, 17533920, 17370080, 17206240, 17042400, 16878560, 16714720, 16550880,
  16387040, 16223200, 16059360, 15895520]

def spiralKeysLit35 : List Nat := [ 15731680, 15567840, 15404000, 15240160, 15076320, 14912480,
  14748640, 14584800, 14420960, 14257120, 14093280, 13929440, 13765600, 13601760, 13437920,
  13274080, 13110240, 12946400, 12782560, 12618720, 12454880, 12291040, 12127200, 11963360,
  11799520, 11635680, 11471840, 11308000, 11144160, 11144140, 11144120, 11144100, 11144080,
  11144060, 11144040, 11144020, 11144000, 11143980, 11143960, 11143940, 11143920, 11143900,
  11143880, 11143860, 11143840, 11143820, 11143800, 11143780, 11143760, 11143740, 11143720,
  11143700, 11143680, 11143660, 11143640, 11143620, 11143600, 11143580, 11143560, 11143540,
  11143520, 11143500, 11143480, 11143460, 11143440, 11143420, 11143400, 11143380, 11143360,
  11143340, 11143320, 11143300, 11143280, 11143260, 11143240, 11143220, 11143200, 11143180,
  11143160, 11143140, 11143120, 11143100, 11143080, 11143060, 11143040, 11143020, 11143000,
  11142980, 11142960, 11142940, 11142920, 11142900, 11142880, 11142860, 11142840, 11142820,
  11142800, 11142780, 11142760, 11142740]

def spiralKeysLit36 : List Nat := [ 11142720, 11142700, 11142680, 11142660, 11142640, 11142620,
  11142600, 11142580, 11142560, 11142540, 11142520, 11142500, 11142480, 11306320, 11470160,
  11634000, 11797840, 11961680, 12125520, 12289360, 12453200, 12617040, 12780880, 12944720,
  13108560, 13272400, 13436240, 13600080, 13763920, 13927760, 14091600, 14255440, 14419280,
  14583120, 14746960, 14910800, 15074640, 15238480, 15402320, 15566160, 15730000, 15893840,
  16057680, 16221520, 16385360, 16549200, 16713040, 16876880, 17040720, 17204560, 17368400,
  17532240, 17696080, 17859920, 18023760, 18187600, 18351440, 18515280, 18679120, 18842960,
  19006800, 19170640, 19334480, 19498320, 19662160, 19826000, 19989840, 20153680, 20317520,
  20481360, 20645200, 20809040, 20972880, 21136720, 21300560, 21464400, 21628240, 21792080,
  21955920, 22119760, 22283600, 22447440, 22611280, 22775120, 22938960, 23102800, 23266640,
  23430480, 23594320, 23758160, 23922000, 24085840, 24249680, 24413520, 24577360, 24741200,
  24905040, 25068880, 25232720, 25232740]

def spiralKeysLit37 : List Nat := [ 25232760, 25232780, 25232800, 25232820, 25232840, 25232860,
  25232880, 25232900, 25232920, 25232940, 25232960, 25232980, 25233000, 25233020, 25233040,
  25233060, 25233080, 25233100, 25233120, 25233140, 25233160, 25233180, 25233200, 25233220,
  25233240, 25233260, 25233280, 25233300, 25233320, 25233340, 25233360, 25233380, 25233400,
  25233420, 25233440, 25233460, 25233480, 25233500, 25233520, 25233540, 25233560, 25233580,
  25233600, 25233620, 25233640, 25233660, 25233680, 25233700, 25233720, 25233740, 25233760,
  25233780, 25233800, 25233820, 25233840, 25233860, 25233880, 25233900, 25233920, 25233940,
  25233960, 25233980, 25234000, 25234020, 25234040, 25234060, 25234080, 25234100, 25234120,
  25234140, 25234160, 25234180, 25234200, 25234220, 25234240, 25234260, 25234280, 25234300,
  25234320, 25234340, 25234360, 25234380, 25234400, 25234420, 25234440, 25070600, 24906760,
  24742920, 24579080, 24415240, 24251400, 24087560, 23923720, 23759880, 23596040, 23432200,
  23268360, 23104520, 22940680, 22776840]

def spiralKeysLit38 : List Nat := [ 22613000, 22449160, 22285320, 22121480, 21957640, 21793800,
  21629960, 21466120, 21302280, 21138440, 20974600, 20810760, 20646920, 20483080, 20319240,
  20155400, 19991560, 19827720, 19663880, 19500040, 19336200, 19172360, 19008520, 18844680,
  18680840, 18517000, 18353160, 18189320, 18025480, 17861640, 17697800, 17533960, 17370120,
  17206280, 17042440, 16878600, 16714760, 16550920, 16387080, 16223240, 16059400, 15895560,
  15731720, 15567880, 15404040, 15240200, 15076360, 14912520, 14748680, 14584840, 14421000,
  14257160, 14093320, 13929480, 13765640, 13601800, 13437960, 13274120, 13110280, 12946440,
  12782600, 12618760, 12454920, 12291080, 12127240, 11963400, 11799560, 11635720, 11471880,
  11308040, 11144200, 10980360, 10816520, 10816500, 10816480, 10816460, 10816440, 10816420,
  10816400, 10816380, 10816360, 10816340, 10816320, 10816300, 10816280, 10816260, 10816240,
  10816220, 10816200, 10816180, 10816160, 10816140, 10816120, 10816100, 10816080, 10816060,
  10816040, 10816020, 10816000, 10815980]

def spiralKeysLit39 : List Nat := [ 10815960, 10815940, 10815920, 10815900, 10815880, 10815860,
  10815840, 10815820, 10815800, 10815780, 10815760, 10815740, 10815720, 10815700, 10815680,
  10815660, 10815640, 10815620, 10815600, 10815580, 10815560, 10815540, 10815520, 10815500,
  10815480, 10815460, 10815440, 10815420, 10815400, 10815380, 10815360, 10815340, 10815320,
  10815300, 10815280, 10815260, 10815240, 10815220, 10815200, 10815180, 10815160, 10815140,
  10815120, 10815100, 10815080, 10815060, 10815040, 10815020, 10815000, 10814980, 10814960,
  10814940, 10814920, 10814900, 10814880, 10814860, 10814840, 10814820, 10814800, 10814780,
  10814760, 10978600, 11142440, 11306280, 11470120, 11633960, 11797800, 11961640, 12125480,
  12289320, 12453160, 12617000, 12780840, 12944680, 13108520, 13272360, 13436200, 13600040,
  13763880, 13927720, 14091560, 14255400, 14419240, 14583080, 14746920, 14910760, 15074600,
  15238440, 15402280, 15566120, 15729960, 15893800, 16057640, 16221480, 16385320, 16549160,
  16713000, 16876840, 17040680, 17204520]

def spiralKeysLit40 : List Nat := [ 17368360, 17532200, 17696040, 17859880, 18023720, 18187560,
  18351400, 18515240, 18679080, 18842920, 19006760, 19170600, 19334440, 19498280, 19662120,
  19825960, 19989800, 20153640, 20317480, 20481320, 20645160, 20809000, 20972840, 21136680,
  21300520, 21464360, 21628200, 21792040, 21955880, 22119720, 22283560, 22447400, 22611240,
  22775080, 22938920, 23102760, 23266600, 23430440, 23594280, 23758120, 23921960, 24085800,
  24249640, 24413480, 24577320, 24741160, 24905000, 25068840, 25232680, 25396520, 25560360,
  25560380, 25560400, 25560420, 25560440, 25560460, 25560480, 25560500, 25560520, 25560540,
  25560560, 25560580, 25560600, 25560620, 25560640, 25560660, 25560680, 25560700, 25560720,
  25560740, 25560760, 25560780, 25560800, 25560820, 25560840, 25560860, 25560880, 25560900,
  25560920, 25560940, 25560960, 25560980, 25561000, 25561020, 25561040, 25561060, 25561080,
  25561100, 25561120, 25561140, 25561160, 25561180, 25561200, 25561220, 25561240, 25561260,
  25561280, 25561300, 25561320, 25561340]

def spiralKeysLit41 : List Nat := [ 25561360, 25561380, 25561400, 25561420, 25561440, 25561460,
  25561480, 25561500, 25561520, 25561540, 25561560, 25561580, 25561600, 25561620, 25561640,
  25561660, 25561680, 25561700, 25561720, 25561740, 25561760, 25561780, 25561800, 25561820,
  25561840, 25561860, 25561880, 25561900, 25561920, 25561940, 25561960, 25561980, 25562000,
  25562020, 25562040, 25562060, 25562080, 25562100, 25562120, 25562140, 25562160, 25398320,
  25234480, 25070640, 24906800, 24742960, 24579120, 24415280, 24251440, 24087600, 23923760,
  23759920, 23596080, 23432240, 23268400, 23104560, 22940720, 22776880, 22613040, 22449200,
  22285360, 22121520, 21957680, 21793840, 21630000, 21466160, 21302320, 21138480, 20974640,
  20810800, 20646960, 20483120, 20319280, 20155440, 19991600, 19827760, 19663920, 19500080,
  19336240, 19172400, 19008560, 18844720, 18680880, 18517040, 18353200, 18189360, 18025520,
  17861680, 17697840, 17534000, 17370160, 17206320, 17042480, 16878640, 16714800, 16550960,
  16387120, 16223280, 16059440, 15895600]

def spiralKeysLit42 : List Nat := [ 15731760, 15567920, 15404080, 15240240, 15076400, 14912560,
  14748720, 14584880, 14421040, 14257200, 14093360, 13929520, 13765680, 13601840, 13438000,
  13274160, 13110320, 12946480, 12782640, 12618800, 12454960, 12291120, 12127280, 11963440,
  11799600, 11635760, 11471920, 11308080, 11144240, 10980400, 10816560, 10652720, 10488880,
  10488860, 10488840, 10488820, 10488800, 10488780, 10488760, 10488740, 10488720, 10488700,
  10488680, 10488660, 10488640, 10488620, 10488600, 10488580, 10488560, 10488540, 10488520,
  10488500, 10488480, 10488460, 10488440, 10488420, 10488400, 10488380, 10488360, 10488340,
  10488320, 10488300, 10488280, 10488260, 10488240, 10488220, 10488200, 10488180, 10488160,
  10488140, 10488120, 10488100, 10488080, 10488060, 10488040, 10488020, 10488000, 10487980,
  10487960, 10487940, 10487920, 10487900, 10487880, 10487860, 10487840, 10487820, 10487800,
  10487780, 10487760, 10487740, 10487720, 10487700, 10487680, 10487660, 10487640, 10487620,
  10487600, 10487580, 10487560, 10487540]

def spiralKeysLit43 : List Nat := [ 10487520, 10487500, 10487480, 10487460, 10487440, 10487420,
  10487400, 10487380, 10487360, 10487340, 10487320, 10487300, 10487280, 10487260, 10487240,
  10487220, 10487200, 10487180, 10487160, 10487140, 10487120, 10487100, 10487080, 10487060,
  10487040, 10650880, 10814720, 10978560, 11142400, 11306240, 11470080, 11633920, 11797760,
  11961600, 12125440, 12289280, 12453120, 12616960, 12780800, 12944640, 13108480, 13272320,
  13436160, 13600000, 13763840, 13927680, 14091520, 14255360, 14419200, 14583040, 14746880,
  14910720, 15074560, 15238400, 15402240, 15566080, 15729920, 15893760, 16057600, 16221440,
  16385280, 16549120, 16712960, 16876800, 17040640, 17204480, 17368320, 17532160, 17696000,
  17859840, 18023680, 18187520, 18351360, 18515200, 18679040, 18842880, 19006720, 19170560,
  19334400, 19498240, 19662080, 19825920, 19989760, 20153600, 20317440, 20481280, 20645120,
  20808960, 20972800, 21136640, 21300480, 21464320, 21628160, 21792000, 21955840, 22119680,
  22283520, 22447360, 22611200, 22775040]

def spiralKeysLit44 : List Nat := [ 22938880, 23102720, 23266560, 23430400, 23594240, 23758080,
  23921920, 24085760, 24249600, 24413440, 24577280, 24741120, 24904960, 25068800, 25232640,
  25396480, 25560320, 25724160, 25888000, 25888020, 25888040, 25888060, 25888080, 25888100,
  25888120, 25888140, 25888160, 25888180, 25888200, 25888220, 25888240, 25888260, 25888280,
  25888300, 25888320, 25888340, 25888360, 25888380, 25888400, 25888420, 25888440, 25888460,
  25888480, 25888500, 25888520, 25888540, 25888560, 25888580, 25888600, 25888620, 25888640,
  25888660, 25888680, 25888700, 25888720, 25888740, 25888760, 25888780, 25888800, 25888820,
  25888840, 25888860, 25888880, 25888900, 25888920, 25888940, 25888960, 25888980, 25889000,
  25889020, 25889040, 25889060, 25889080, 25889100, 25889120, 25889140, 25889160, 25889180,
  25889200, 25889220, 25889240, 25889260, 25889280, 25889300, 25889320, 25889340, 25889360,
  25889380, 25889400, 25889420, 25889440, 25889460, 25889480, 25889500, 25889520, 25889540,
  25889560, 25889580, 25889600, 25889620]

def spiralKeysLit45 : List Nat := [ 25889640, 25889660, 25889680, 25889700, 25889720, 25889740,
  25889760, 25889780, 25889800, 25889820, 25889840, 25889860, 25889880, 25726040, 25562200,
  25398360, 25234520, 25070680, 24906840, 24743000, 24579160, 24415320, 24251480, 24087640,
  23923800, 23759960, 23596120, 23432280, 23268440, 23104600, 22940760, 22776920, 22613080,
  22449240, 22285400, 22121560, 21957720, 21793880, 21630040, 21466200, 21302360, 21138520,
  20974680, 20810840, 20647000, 20483160, 20319320, 20155480, 19991640, 19827800, 19663960,
  19500120, 19336280, 19172440, 19008600, 18844760, 18680920, 18517080, 18353240, 18189400,
  18025560, 17861720, 17697880, 17534040, 17370200, 17206360, 17042520, 16878680, 16714840,
  16551000, 16387160, 16223320, 16059480, 15895640, 15731800, 15567960, 15404120, 15240280,
  15076440, 14912600, 14748760, 14584920, 14421080, 14257240, 14093400, 13929560, 13765720,
  13601880, 13438040, 13274200, 13110360, 12946520, 12782680, 12618840, 12455000, 12291160,
  12127320, 11963480, 11799640, 11635800]

def spiralKeysLit46 : List Nat := [ 11471960, 11308120, 11144280, 10980440, 10816600, 10652760,
  10488920, 10325080, 10161240, 10161220, 10161200, 10161180, 10161160, 10161140, 10161120,
  10161100, 10161080, 10161060, 10161040, 10161020, 10161000, 10160980, 10160960, 10160940,
  10160920, 10160900, 10160880, 10160860, 10160840, 10160820, 10160800, 10160780, 10160760,
  10160740, 10160720, 10160700, 10160680, 10160660, 10160640, 10160620, 10160600, 10160580,
  10160560, 10160540, 10160520, 10160500, 10160480, 10160460, 10160440, 10160420, 10160400,
  10160380, 10160360, 10160340, 10160320, 10160300, 10160280, 10160260, 10160240, 10160220,
  10160200, 10160180, 10160160, 10160140, 10160120, 10160100, 10160080, 10160060, 10160040,
  10160020, 10160000, 10159980, 10159960, 10159940, 10159920, 10159900, 10159880, 10159860,
  10159840, 10159820, 10159800, 10159780, 10159760, 10159740, 10159720, 10159700, 10159680,
  10159660, 10159640, 10159620, 10159600, 10159580, 10159560, 10159540, 10159520, 10159500,
  10159480, 10159460, 10159440, 10159420]

def spiralKeysLit47 : List Nat := [ 10159400, 10159380, 10159360, 10159340, 10159320, 10323160,
  10487000, 10650840, 10814680, 10978520, 11142360, 11306200, 11470040, 11633880, 11797720,
  11961560, 12125400, 12289240, 12453080, 12616920, 12780760, 12944600, 13108440, 13272280,
  13436120, 13599960, 13763800, 13927640, 14091480, 14255320, 14419160, 14583000, 14746840,
  14910680, 15074520, 15238360, 15402200, 15566040, 15729880, 15893720, 16057560, 16221400,
  16385240, 16549080, 16712920, 16876760, 17040600, 17204440, 17368280, 17532120, 17695960,
  17859800, 18023640, 18187480, 18351320, 18515160, 18679000, 18842840, 19006680, 19170520,
  19334360, 19498200, 19662040, 19825880, 19989720, 20153560, 20317400, 20481240, 20645080,
  20808920, 20972760, 21136600, 21300440, 21464280, 21628120, 21791960, 21955800, 22119640,
  22283480, 22447320, 22611160, 22775000, 22938840, 23102680, 23266520, 23430360, 23594200,
  23758040, 23921880, 24085720, 24249560, 24413400, 24577240, 24741080, 24904920, 25068760,
  25232600, 25396440, 25560280, 25724120]

def spiralKeysLit48 : List Nat := [ 25887960, 26051800, 26215640, 26215660, 26215680, 26215700,
  26215720, 26215740, 26215760, 26215780, 26215800, 26215820, 26215840, 26215860, 26215880,
  26215900, 26215920, 26215940, 26215960, 26215980, 26216000, 26216020, 26216040, 26216060,
  26216080, 26216100, 26216120, 26216140, 26216160, 26216180, 26216200, 26216220, 26216240,
  26216260, 26216280, 26216300, 26216320, 26216340, 26216360, 26216380, 26216400, 26216420,
  26216440, 26216460, 26216480, 26216500, 26216520, 26216540, 26216560, 26216580, 26216600,
  26216620, 26216640, 26216660, 26216680, 26216700, 26216720, 26216740, 26216760, 26216780,
  26216800, 26216820, 26216840, 26216860, 26216880, 26216900, 26216920, 26216940, 26216960,
  26216980, 26217000, 26217020, 26217040, 26217060, 26217080, 26217100, 26217120, 26217140,
  26217160, 26217180, 26217200, 26217220, 26217240, 26217260, 26217280, 26217300, 26217320,
  26217340, 26217360, 26217380, 26217400, 26217420, 26217440, 26217460, 26217480, 26217500,
  26217520, 26217540, 26217560, 26217580]

def spiralKeysLit49 : List Nat := [ 26217600]

def spiralKeysLit : List Nat :=
  spiralKeysLit0 ++ (spiralKeysLit1 ++ (spiralKeysLit2 ++ (spiralKeysLit3 ++ (spiralKeysLit4 ++ (spiralKeysLit5 ++ (spiralKeysLit6 ++ (spiralKeysLit7 ++ (spiralKeysLit8 ++ (spiralKeysLit9 ++ (spiralKeysLit10 ++ (spiralKeysLit11 ++ (spiralKeysLit12 ++ (spiralKeysLit13 ++ (spiralKeysLit14 ++ (spiralKeysLit15 ++ (spiralKeysLit16 ++ (spiralKeysLit17 ++ (spiralKeysLit18 ++ (spiralKeysLit19 ++ (spiralKeysLit20 ++ (spiralKeysLit21 ++ (spiralKeysLit22 ++ (spiralKeysLit23 ++ (spiralKeysLit24 ++ (spiralKeysLit25 ++ (spiralKeysLit26 ++ (spiralKeysLit27 ++ (spiralKeysLit28 ++ (spiralKeysLit29 ++ (spiralKeysLit30 ++ (spiralKeysLit31 ++ (spiralKeysLit32 ++ (spiralKeysLit33 ++ (spiralKeysLit34 ++ (spiralKeysLit35 ++ (spiralKeysLit36 ++ (spiralKeysLit37 ++ (spiralKeysLit38 ++ (spiralKeysLit39 ++ (spiralKeysLit40 ++ (spiralKeysLit41 ++ (spiralKeysLit42 ++ (spiralKeysLit43 ++ (spiralKeysLit44 ++ (spiralKeysLit45 ++ (spiralKeysLit46 ++ (spiralKeysLit47 ++ (spiralKeysLit48 ++ (spiralKeysLit49)))))))))))))))))))))))))))))))))))))))))))))))))

def sortedKeysA0 : List Nat := [ 10159320, 10159340, 10159360, 10159380, 10159400, 10159420,
  10159440, 10159460, 10159480, 10159500, 10159520, 10159540, 10159560, 10159580, 10159600,
  10159620, 10159640, 10159660, 10159680, 10159700, 10159720, 10159740, 10159760, 10159780,
  10159800, 10159820, 10159840, 10159860, 10159880, 10159900, 10159920, 10159940, 10159960,
  10159980, 10160000, 10160020, 10160040, 10160060, 10160080, 10160100, 10160120, 10160140,
  10160160, 10160180, 10160200, 10160220, 10160240, 10160260, 10160280, 10160300, 10160320,
  10160340, 10160360, 10160380, 10160400, 10160420, 10160440, 10160460, 10160480, 10160500,
  10160520, 10160540, 10160560, 10160580, 10160600, 10160620, 10160640, 10160660, 10160680,
  10160700, 10160720, 10160740, 10160760, 10160780, 10160800, 10160820, 10160840, 10160860,
  10160880, 10160900, 10160920, 10160940, 10160960, 10160980, 10161000, 10161020, 10161040,
  10161060, 10161080, 10161100, 10161120, 10161140, 10161160, 10161180, 10161200, 10161220,
  10161240, 10323160, 10325080, 10487000, 10487040, 10487060, 10487080, 10487100, 10487120,
  10487140, 10487160, 10487180, 10487200, 10487220, 10487240, 10487260, 10487280, 10487300,
  10487320, 10487340, 10487360, 10487380, 10487400, 10487420, 10487440, 10487460, 10487480,
  10487500, 10487520, 10487540, 10487560, 10487580, 10487600, 10487620, 10487640, 10487660,
  10487680, 10487700, 10487720, 10487740, 10487760, 10487780, 10487800, 10487820, 10487840,
  10487860, 10487880, 10487900, 10487920, 10487940, 10487960, 10487980, 10488000, 10488020,
  10488040, 10488060, 10488080, 10488100, 10488120, 10488140, 10488160, 10488180, 10488200,
  10488220, 10488240, 10488260, 10488280, 10488300, 10488320, 10488340, 10488360, 10488380,
  10488400, 10488420, 10488440, 10488460, 10488480, 10488500, 10488520, 10488540, 10488560,
  10488580, 10488600, 10488620, 10488640, 10488660, 10488680, 10488700, 10488720, 10488740,
  10488760, 10488780, 10488800, 10488820, 10488840, 10488860, 10488880, 10488920, 10650840,
  10650880, 10652720, 10652760, 10814680, 10814720, 10814760, 10814780, 10814800, 10814820,
  10814840, 10814860, 10814880, 10814900, 10814920, 10814940, 10814960, 10814980, 10815000,
  10815020, 10815040, 10815060, 10815080, 10815100, 10815120, 10815140, 10815160, 10815180,
  10815200, 10815220, 10815240, 10815260, 10815280, 10815300, 10815320, 10815340, 10815360,
  10815380, 10815400, 10815420, 10815440, 10815460, 10815480, 10815500, 10815520, 10815540,
  10815560, 10815580, 10815600, 10815620, 10815640, 10815660, 10815680, 10815700, 10815720,
  10815740, 10815760, 10815780, 10815800, 10815820, 10815840, 10815860, 10815880, 10815900,
  10815920, 10815940, 10815960, 10815980, 10816000, 10816020, 10816040, 10816060, 10816080,
  10816100, 10816120, 10816140, 10816160, 10816180, 10816200, 10816220, 10816240, 10816260,
  10816280, 10816300, 10816320, 10816340, 10816360, 10816380, 10816400, 10816420, 10816440,
  10816460, 10816480, 10816500, 10816520, 10816560, 10816600, 10978520, 10978560, 10978600,
  10980360, 10980400, 10980440, 11142360, 11142400, 11142440, 11142480, 11142500, 11142520,
  11142540, 11142560, 11142580, 11142600, 11142620, 11142640, 11142660, 11142680, 11142700,
  11142720, 11142740, 11142760, 11142780, 11142800, 11142820, 11142840, 11142860, 11142880,
  11142900, 11142920, 11142940, 11142960, 11142980, 11143000, 11143020, 11143040, 11143060,
  11143080, 11143100, 11143120, 11143140, 11143160, 11143180, 11143200, 11143220, 11143240,
  11143260, 11143280, 11143300, 11143320, 11143340, 11143360, 11143380, 11143400, 11143420,
  11143440, 11143460, 11143480, 11143500, 11143520, 11143540, 11143560, 11143580, 11143600,
  11143620, 11143640, 11143660, 11143680, 11143700, 11143720, 11143740, 11143760, 11143780,
  11143800, 11143820, 11143840, 11143860, 11143880, 11143900, 11143920, 11143940, 11143960,
  11143980, 11144000, 11144020, 11144040, 11144060, 11144080, 11144100, 11144120, 11144140,
  11144160, 11144200, 11144240, 11144280, 11306200, 11306240, 11306280, 11306320, 11308000,
  11308040, 11308080, 11308120, 11470040, 11470080, 11470120, 11470160, 11470200, 11470220,
  11470240, 11470260, 11470280, 11470300, 11470320, 11470340, 11470360, 11470380, 11470400,
  11470420, 11470440, 11470460, 11470480, 11470500, 11470520, 11470540, 11470560, 11470580,
  11470600, 11470620, 11470640, 11470660, 11470680, 11470700, 11470720, 11470740, 11470760,
  11470780, 11470800, 11470820, 11470840, 11470860, 11470880, 11470900, 11470920, 11470940,
  11470960, 11470980, 11471000, 11471020, 11471040, 11471060, 11471080, 11471100, 11471120,
  11471140, 11471160, 11471180, 11471200, 11471220, 11471240, 11471260, 11471280, 11471300,
  11471320, 11471340, 11471360, 11471380, 11471400, 11471420, 11471440, 11471460, 11471480,
  11471500, 11471520, 11471540, 11471560, 11471580, 11471600, 11471620, 11471640, 11471660,
  11471680, 11471700, 11471720, 11471740, 11471760, 11471780, 11471800, 11471840, 11471880,
  11471920, 11471960, 11633880, 11633920, 11633960, 11634000, 11634040, 11635640, 11635680,
  11635720, 11635760, 11635800, 11797720, 11797760, 11797800, 11797840, 11797880]

def sortedKeysA1 : List Nat := [ 11797920, 11797940, 11797960, 11797980, 11798000, 11798020,
  11798040, 11798060, 11798080, 11798100, 11798120, 11798140, 11798160, 11798180, 11798200,
  11798220, 11798240, 11798260, 11798280, 11798300, 11798320, 11798340, 11798360, 11798380,
  11798400, 11798420, 11798440, 11798460, 11798480, 11798500, 11798520, 11798540, 11798560,
  11798580, 11798600, 11798620, 11798640, 11798660, 11798680, 11798700, 11798720, 11798740,
  11798760, 11798780, 11798800, 11798820, 11798840, 11798860, 11798880, 11798900, 11798920,
  11798940, 11798960, 11798980, 11799000, 11799020, 11799040, 11799060, 11799080, 11799100,
  11799120, 11799140, 11799160, 11799180, 11799200, 11799220, 11799240, 11799260, 11799280,
  11799300, 11799320, 11799340, 11799360, 11799380, 11799400, 11799420, 11799440, 11799480,
  11799520, 11799560, 11799600, 11799640, 11961560, 11961600, 11961640, 11961680, 11961720,
  11961760, 11963280, 11963320, 11963360, 11963400, 11963440, 11963480, 12125400, 12125440,
  12125480, 12125520, 12125560, 12125600, 12125640, 12125660, 12125680, 12125700, 12125720,
  12125740, 12125760, 12125780, 12125800, 12125820, 12125840, 12125860, 12125880, 12125900,
  12125920, 12125940, 12125960, 12125980, 12126000, 12126020, 12126040, 12126060, 12126080,
  12126100, 12126120, 12126140, 12126160, 12126180, 12126200, 12126220, 12126240, 12126260,
  12126280, 12126300, 12126320, 12126340, 12126360, 12126380, 12126400, 12126420, 12126440,
  12126460, 12126480, 12126500, 12126520, 12126540, 12126560, 12126580, 12126600, 12126620,
  12126640, 12126660, 12126680, 12126700, 12126720, 12126740, 12126760, 12126780, 12126800,
  12126820, 12126840, 12126860, 12126880, 12126900, 12126920, 12126940, 12126960, 12126980,
  12127000, 12127020, 12127040, 12127060, 12127080, 12127120, 12127160, 12127200, 12127240,
  12127280, 12127320, 12289240, 12289280, 12289320, 12289360, 12289400, 12289440, 12289480,
  12290920, 12290960, 12291000, 12291040, 12291080, 12291120, 12291160, 12453080, 12453120,
  12453160, 12453200, 12453240, 12453280, 12453320, 12453360, 12453380, 12453400, 12453420,
  12453440, 12453460, 12453480, 12453500, 12453520, 12453540, 12453560, 12453580, 12453600,
  12453620, 12453640, 12453660, 12453680, 12453700, 12453720, 12453740, 12453760, 12453780,
  12453800, 12453820, 12453840, 12453860, 12453880, 12453900, 12453920, 12453940, 12453960,
  12453980, 12454000, 12454020, 12454040, 12454060, 12454080, 12454100, 12454120, 12454140,
  12454160, 12454180, 12454200, 12454220, 12454240, 12454260, 12454280, 12454300, 12454320,
  12454340, 12454360, 12454380, 12454400, 12454420, 12454440, 12454460, 12454480, 12454500,
  12454520, 12454540, 12454560, 12454580, 12454600, 12454620, 12454640, 12454660, 12454680,
  12454700, 12454720, 12454760, 12454800, 12454840, 12454880, 12454920, 12454960, 12455000,
  12616920, 12616960, 12617000, 12617040, 12617080, 12617120, 12617160, 12617200, 12618560,
  12618600, 12618640, 12618680, 12618720, 12618760, 12618800, 12618840, 12780760, 12780800,
  12780840, 12780880, 12780920, 12780960, 12781000, 12781040, 12781080, 12781100, 12781120,
  12781140, 12781160, 12781180, 12781200, 12781220, 12781240, 12781260, 12781280, 12781300,
  12781320, 12781340, 12781360, 12781380, 12781400, 12781420, 12781440, 12781460, 12781480,
  12781500, 12781520, 12781540, 12781560, 12781580, 12781600, 12781620, 12781640, 12781660,
  12781680, 12781700, 12781720, 12781740, 12781760, 12781780, 12781800, 12781820, 12781840,
  12781860, 12781880, 12781900, 12781920, 12781940, 12781960, 12781980, 12782000, 12782020,
  12782040, 12782060, 12782080, 12782100, 12782120, 12782140, 12782160, 12782180, 12782200,
  12782220, 12782240, 12782260, 12782280, 12782300, 12782320, 12782340, 12782360, 12782400,
  12782440, 12782480, 12782520, 12782560, 12782600, 12782640, 12782680, 12944600, 12944640,
  12944680, 12944720, 12944760, 12944800, 12944840, 12944880, 12944920, 12946200, 12946240,
  12946280, 12946320, 12946360, 12946400, 12946440, 12946480, 12946520, 13108440, 13108480,
  13108520, 13108560, 13108600, 13108640, 13108680, 13108720, 13108760, 13108800, 13108820,
  13108840, 13108860, 13108880, 13108900, 13108920, 13108940, 13108960, 13108980, 13109000,
  13109020, 13109040, 13109060, 13109080, 13109100, 13109120, 13109140, 13109160, 13109180,
  13109200, 13109220, 13109240, 13109260, 13109280, 13109300, 13109320, 13109340, 13109360,
  13109380, 13109400, 13109420, 13109440, 13109460, 13109480, 13109500, 13109520, 13109540,
  13109560, 13109580, 13109600, 13109620, 13109640, 13109660, 13109680, 13109700, 13109720,
  13109740, 13109760, 13109780, 13109800, 13109820, 13109840, 13109860, 13109880, 13109900,
  13109920, 13109940, 13109960, 13109980, 13110000, 13110040, 13110080, 13110120, 13110160,
  13110200, 13110240, 13110280, 13110320, 13110360, 13272280, 13272320, 13272360, 13272400,
  13272440, 13272480, 13272520, 13272560, 13272600, 13272640, 13273840, 13273880, 13273920,
  13273960, 13274000, 13274040, 13274080, 13274120, 13274160, 13274200, 13436120, 13436160,
  13436200, 13436240, 13436280, 13436320, 13436360, 13436400, 13436440, 13436480]

def sortedKeysA2 : List Nat := [ 13436520, 13436540, 13436560, 13436580, 13436600, 13436620,
  13436640, 13436660, 13436680, 13436700, 13436720, 13436740, 13436760, 13436780, 13436800,
  13436820, 13436840, 13436860, 13436880, 13436900, 13436920, 13436940, 13436960, 13436980,
  13437000, 13437020, 13437040, 13437060, 13437080, 13437100, 13437120, 13437140, 13437160,
  13437180, 13437200, 13437220, 13437240, 13437260, 13437280, 13437300, 13437320, 13437340,
  13437360, 13437380, 13437400, 13437420, 13437440, 13437460, 13437480, 13437500, 13437520,
  13437540, 13437560, 13437580, 13437600, 13437620, 13437640, 13437680, 13437720, 13437760,
  13437800, 13437840, 13437880, 13437920, 13437960, 13438000, 13438040, 13599960, 13600000,
  13600040, 13600080, 13600120, 13600160, 13600200, 13600240, 13600280, 13600320, 13600360,
  13601480, 13601520, 13601560, 13601600, 13601640, 13601680, 13601720, 13601760, 13601800,
  13601840, 13601880, 13763800, 13763840, 13763880, 13763920, 13763960, 13764000, 13764040,
  13764080, 13764120, 13764160, 13764200, 13764240, 13764260, 13764280, 13764300, 13764320,
  13764340, 13764360, 13764380, 13764400, 13764420, 13764440, 13764460, 13764480, 13764500,
  13764520, 13764540, 13764560, 13764580, 13764600, 13764620, 13764640, 13764660, 13764680,
  13764700, 13764720, 13764740, 13764760, 13764780, 13764800, 13764820, 13764840, 13764860,
  13764880, 13764900, 13764920, 13764940, 13764960, 13764980, 13765000, 13765020, 13765040,
  13765060, 13765080, 13765100, 13765120, 13765140, 13765160, 13765180, 13765200, 13765220,
  13765240, 13765260, 13765280, 13765320, 13765360, 13765400, 13765440, 13765480, 13765520,
  13765560, 13765600, 13765640, 13765680, 13765720, 13927640, 13927680, 13927720, 13927760,
  13927800, 13927840, 13927880, 13927920, 13927960, 13928000, 13928040, 13928080, 13929120,
  13929160, 13929200, 13929240, 13929280, 13929320, 13929360, 13929400, 13929440, 13929480,
  13929520, 13929560, 14091480, 14091520, 14091560, 14091600, 14091640, 14091680, 14091720,
  14091760, 14091800, 14091840, 14091880, 14091920, 14091960, 14091980, 14092000, 14092020,
  14092040, 14092060, 14092080, 14092100, 14092120, 14092140, 14092160, 14092180, 14092200,
  14092220, 14092240, 14092260, 14092280, 14092300, 14092320, 14092340, 14092360, 14092380,
  14092400, 14092420, 14092440, 14092460, 14092480, 14092500, 14092520, 14092540, 14092560,
  14092580, 14092600, 14092620, 14092640, 14092660, 14092680, 14092700, 14092720, 14092740,
  14092760, 14092780, 14092800, 14092820, 14092840, 14092860, 14092880, 14092900, 14092920,
  14092960, 14093000, 14093040, 14093080, 14093120, 14093160, 14093200, 14093240, 14093280,
  14093320, 14093360, 14093400, 14255320, 14255360, 14255400, 14255440, 14255480, 14255520,
  14255560, 14255600, 14255640, 14255680, 14255720, 14255760, 14255800, 14256760, 14256800,
  14256840, 14256880, 14256920, 14256960, 14257000, 14257040, 14257080, 14257120, 14257160,
  14257200, 14257240, 14419160, 14419200, 14419240, 14419280, 14419320, 14419360, 14419400,
  14419440, 14419480, 14419520, 14419560, 14419600, 14419640, 14419680, 14419700, 14419720,
  14419740, 14419760, 14419780, 14419800, 14419820, 14419840, 14419860, 14419880, 14419900,
  14419920, 14419940, 14419960, 14419980, 14420000, 14420020, 14420040, 14420060, 14420080,
  14420100, 14420120, 14420140, 14420160, 14420180, 14420200, 14420220, 14420240, 14420260,
  14420280, 14420300, 14420320, 14420340, 14420360, 14420380, 14420400, 14420420, 14420440,
  14420460, 14420480, 14420500, 14420520, 14420540, 14420560, 14420600, 14420640, 14420680,
  14420720, 14420760, 14420800, 14420840, 14420880, 14420920, 14420960, 14421000, 14421040,
  14421080, 14583000, 14583040, 14583080, 14583120, 14583160, 14583200, 14583240, 14583280,
  14583320, 14583360, 14583400, 14583440, 14583480, 14583520, 14584400, 14584440, 14584480,
  14584520, 14584560, 14584600, 14584640, 14584680, 14584720, 14584760, 14584800, 14584840,
  14584880, 14584920, 14746840, 14746880, 14746920, 14746960, 14747000, 14747040, 14747080,
  14747120, 14747160, 14747200, 14747240, 14747280, 14747320, 14747360, 14747400, 14747420,
  14747440, 14747460, 14747480, 14747500, 14747520, 14747540, 14747560, 14747580, 14747600,
  14747620, 14747640, 14747660, 14747680, 14747700, 14747720, 14747740, 14747760, 14747780,
  14747800, 14747820, 14747840, 14747860, 14747880, 14747900, 14747920, 14747940, 14747960,
  14747980, 14748000, 14748020, 14748040, 14748060, 14748080, 14748100, 14748120, 14748140,
  14748160, 14748180, 14748200, 14748240, 14748280, 14748320, 14748360, 14748400, 14748440,
  14748480, 14748520, 14748560, 14748600, 14748640, 14748680, 14748720, 14748760, 14910680,
  14910720, 14910760, 14910800, 14910840, 14910880, 14910920, 14910960, 14911000, 14911040,
  14911080, 14911120, 14911160, 14911200, 14911240, 14912040, 14912080, 14912120, 14912160,
  14912200, 14912240, 14912280, 14912320, 14912360, 14912400, 14912440, 14912480, 14912520,
  14912560, 14912600, 15074520, 15074560, 15074600, 15074640, 15074680, 15074720, 15074760,
  15074800, 15074840, 15074880, 15074920, 15074960, 15075000, 15075040, 15075080]

def sortedKeysA3 : List Nat := [ 15075120, 15075140, 15075160, 15075180, 15075200, 15075220,
  15075240, 15075260, 15075280, 15075300, 15075320, 15075340, 15075360, 15075380, 15075400,
  15075420, 15075440, 15075460, 15075480, 15075500, 15075520, 15075540, 15075560, 15075580,
  15075600, 15075620, 15075640, 15075660, 15075680, 15075700, 15075720, 15075740, 15075760,
  15075780, 15075800, 15075820, 15075840, 15075880, 15075920, 15075960, 15076000, 15076040,
  15076080, 15076120, 15076160, 15076200, 15076240, 15076280, 15076320, 15076360, 15076400,
  15076440, 15238360, 15238400, 15238440, 15238480, 15238520, 15238560, 15238600, 15238640,
  15238680, 15238720, 15238760, 15238800, 15238840, 15238880, 15238920, 15238960, 15239680,
  15239720, 15239760, 15239800, 15239840, 15239880, 15239920, 15239960, 15240000, 15240040,
  15240080, 15240120, 15240160, 15240200, 15240240, 15240280, 15402200, 15402240, 15402280,
  15402320, 15402360, 15402400, 15402440, 15402480, 15402520, 15402560, 15402600, 15402640,
  15402680, 15402720, 15402760, 15402800, 15402840, 15402860, 15402880, 15402900, 15402920,
  15402940, 15402960, 15402980, 15403000, 15403020, 15403040, 15403060, 15403080, 15403100,
  15403120, 15403140, 15403160, 15403180, 15403200, 15403220, 15403240, 15403260, 15403280,
  15403300, 15403320, 15403340, 15403360, 15403380, 15403400, 15403420, 15403440, 15403460,
  15403480, 15403520, 15403560, 15403600, 15403640, 15403680, 15403720, 15403760, 15403800,
  15403840, 15403880, 15403920, 15403960, 15404000, 15404040, 15404080, 15404120, 15566040,
  15566080, 15566120, 15566160, 15566200, 15566240, 15566280, 15566320, 15566360, 15566400,
  15566440, 15566480, 15566520, 15566560, 15566600, 15566640, 15566680, 15567320, 15567360,
  15567400, 15567440, 15567480, 15567520, 15567560, 15567600, 15567640, 15567680, 15567720,
  15567760, 15567800, 15567840, 15567880, 15567920, 15567960, 15729880, 15729920, 15729960,
  15730000, 15730040, 15730080, 15730120, 15730160, 15730200, 15730240, 15730280, 15730320,
  15730360, 15730400, 15730440, 15730480, 15730520, 15730560, 15730580, 15730600, 15730620,
  15730640, 15730660, 15730680, 15730700, 15730720, 15730740, 15730760, 15730780, 15730800,
  15730820, 15730840, 15730860, 15730880, 15730900, 15730920, 15730940, 15730960, 15730980,
  15731000, 15731020, 15731040, 15731060, 15731080, 15731100, 15731120, 15731160, 15731200,
  15731240, 15731280, 15731320, 15731360, 15731400, 15731440, 15731480, 15731520, 15731560,
  15731600, 15731640, 15731680, 15731720, 15731760, 15731800, 15893720, 15893760, 15893800,
  15893840, 15893880, 15893920, 15893960, 15894000, 15894040, 15894080, 15894120, 15894160,
  15894200, 15894240, 15894280, 15894320, 15894360, 15894400, 15894960, 15895000, 15895040,
  15895080, 15895120, 15895160, 15895200, 15895240, 15895280, 15895320, 15895360, 15895400,
  15895440, 15895480, 15895520, 15895560, 15895600, 15895640, 16057560, 16057600, 16057640,
  16057680, 16057720, 16057760, 16057800, 16057840, 16057880, 16057920, 16057960, 16058000,
  16058040, 16058080, 16058120, 16058160, 16058200, 16058240, 16058280, 16058300, 16058320,
  16058340, 16058360, 16058380, 16058400, 16058420, 16058440, 16058460, 16058480, 16058500,
  16058520, 16058540, 16058560, 16058580, 16058600, 16058620, 16058640, 16058660, 16058680,
  16058700, 16058720, 16058740, 16058760, 16058800, 16058840, 16058880, 16058920, 16058960,
  16059000, 16059040, 16059080, 16059120, 16059160, 16059200, 16059240, 16059280, 16059320,
  16059360, 16059400, 16059440, 16059480, 16221400, 16221440, 16221480, 16221520, 16221560,
  16221600, 16221640, 16221680, 16221720, 16221760, 16221800, 16221840, 16221880, 16221920,
  16221960, 16222000, 16222040, 16222080, 16222120, 16222600, 16222640, 16222680, 16222720,
  16222760, 16222800, 16222840, 16222880, 16222920, 16222960, 16223000, 16223040, 16223080,
  16223120, 16223160, 16223200, 16223240, 16223280, 16223320, 16385240, 16385280, 16385320,
  16385360, 16385400, 16385440, 16385480, 16385520, 16385560, 16385600, 16385640, 16385680,
  16385720, 16385760, 16385800, 16385840, 16385880, 16385920, 16385960, 16386000, 16386020,
  16386040, 16386060, 16386080, 16386100, 16386120, 16386140, 16386160, 16386180, 16386200,
  16386220, 16386240, 16386260, 16386280, 16386300, 16386320, 16386340, 16386360, 16386380,
  16386400, 16386440, 16386480, 16386520, 16386560, 16386600, 16386640, 16386680, 16386720,
  16386760, 16386800, 16386840, 16386880, 16386920, 16386960, 16387000, 16387040, 16387080,
  16387120, 16387160, 16549080, 16549120, 16549160, 16549200, 16549240, 16549280, 16549320,
  16549360, 16549400, 16549440, 16549480, 16549520, 16549560, 16549600, 16549640, 16549680,
  16549720, 16549760, 16549800, 16549840, 16550240, 16550280, 16550320, 16550360, 16550400,
  16550440, 16550480, 16550520, 16550560, 16550600, 16550640, 16550680, 16550720, 16550760,
  16550800, 16550840, 16550880, 16550920, 16550960, 16551000, 16712920, 16712960, 16713000,
  16713040, 16713080, 16713120, 16713160, 16713200, 16713240, 16713280, 16713320, 16713360,
  16713400, 16713440, 16713480, 16713520, 16713560, 16713600, 16713640, 16713680]

def sortedKeysA4 : List Nat := [ 16713720, 16713740, 16713760, 16713780, 16713800, 16713820,
  16713840, 16713860, 16713880, 16713900, 16713920, 16713940, 16713960, 16713980, 16714000,
  16714020, 16714040, 16714080, 16714120, 16714160, 16714200, 16714240, 16714280, 16714320,
  16714360, 16714400, 16714440, 16714480, 16714520, 16714560, 16714600, 16714640, 16714680,
  16714720, 16714760, 16714800, 16714840, 16876760, 16876800, 16876840, 16876880, 16876920,
  16876960, 16877000, 16877040, 16877080, 16877120, 16877160, 16877200, 16877240, 16877280,
  16877320, 16877360, 16877400, 16877440, 16877480, 16877520, 16877560, 16877880, 16877920,
  16877960, 16878000, 16878040, 16878080, 16878120, 16878160, 16878200, 16878240, 16878280,
  16878320, 16878360, 16878400, 16878440, 16878480, 16878520, 16878560, 16878600, 16878640,
  16878680, 17040600, 17040640, 17040680, 17040720, 17040760, 17040800, 17040840, 17040880,
  17040920, 17040960, 17041000, 17041040, 17041080, 17041120, 17041160, 17041200, 17041240,
  17041280, 17041320, 17041360, 17041400, 17041440, 17041460, 17041480, 17041500, 17041520,
  17041540, 17041560, 17041580, 17041600, 17041620, 17041640, 17041660, 17041680, 17041720,
  17041760, 17041800, 17041840, 17041880, 17041920, 17041960, 17042000, 17042040, 17042080,
  17042120, 17042160, 17042200, 17042240, 17042280, 17042320, 17042360, 17042400, 17042440,
  17042480, 17042520, 17204440, 17204480, 17204520, 17204560, 17204600, 17204640, 17204680,
  17204720, 17204760, 17204800, 17204840, 17204880, 17204920, 17204960, 17205000, 17205040,
  17205080, 17205120, 17205160, 17205200, 17205240, 17205280, 17205520, 17205560, 17205600,
  17205640, 17205680, 17205720, 17205760, 17205800, 17205840, 17205880, 17205920, 17205960,
  17206000, 17206040, 17206080, 17206120, 17206160, 17206200, 17206240, 17206280, 17206320,
  17206360, 17368280, 17368320, 17368360, 17368400, 17368440, 17368480, 17368520, 17368560,
  17368600, 17368640, 17368680, 17368720, 17368760, 17368800, 17368840, 17368880, 17368920,
  17368960, 17369000, 17369040, 17369080, 17369120, 17369160, 17369180, 17369200, 17369220,
  17369240, 17369260, 17369280, 17369300, 17369320, 17369360, 17369400, 17369440, 17369480,
  17369520, 17369560, 17369600, 17369640, 17369680, 17369720, 17369760, 17369800, 17369840,
  17369880, 17369920, 17369960, 17370000, 17370040, 17370080, 17370120, 17370160, 17370200,
  17532120, 17532160, 17532200, 17532240, 17532280, 17532320, 17532360, 17532400, 17532440,
  17532480, 17532520, 17532560, 17532600, 17532640, 17532680, 17532720, 17532760, 17532800,
  17532840, 17532880, 17532920, 17532960, 17533000, 17533160, 17533200, 17533240, 17533280,
  17533320, 17533360, 17533400, 17533440, 17533480, 17533520, 17533560, 17533600, 17533640,
  17533680, 17533720, 17533760, 17533800, 17533840, 17533880, 17533920, 17533960, 17534000,
  17534040, 17695960, 17696000, 17696040, 17696080, 17696120, 17696160, 17696200, 17696240,
  17696280, 17696320, 17696360, 17696400, 17696440, 17696480, 17696520, 17696560, 17696600,
  17696640, 17696680, 17696720, 17696760, 17696800, 17696840, 17696880, 17696900, 17696920,
  17696940, 17696960, 17697000, 17697040, 17697080, 17697120, 17697160, 17697200, 17697240,
  17697280, 17697320, 17697360, 17697400, 17697440, 17697480, 17697520, 17697560, 17697600,
  17697640, 17697680, 17697720, 17697760, 17697800, 17697840, 17697880, 17859800, 17859840,
  17859880, 17859920, 17859960, 17860000, 17860040, 17860080, 17860120, 17860160, 17860200,
  17860240, 17860280, 17860320, 17860360, 17860400, 17860440, 17860480, 17860520, 17860560,
  17860600, 17860640, 17860680, 17860720, 17860800, 17860840, 17860880, 17860920, 17860960,
  17861000, 17861040, 17861080, 17861120, 17861160, 17861200, 17861240, 17861280, 17861320,
  17861360, 17861400, 17861440, 17861480, 17861520, 17861560, 17861600, 17861640, 17861680,
  17861720, 18023640, 18023680, 18023720, 18023760, 18023800, 18023840, 18023880, 18023920,
  18023960, 18024000, 18024040, 18024080, 18024120, 18024160, 18024200, 18024240, 18024280,
  18024320, 18024360, 18024400, 18024440, 18024480, 18024520, 18024560, 18024600, 18024640,
  18024680, 18024720, 18024760, 18024800, 18024840, 18024880, 18024920, 18024960, 18025000,
  18025040, 18025080, 18025120, 18025160, 18025200, 18025240, 18025280, 18025320, 18025360,
  18025400, 18025440, 18025480, 18025520, 18025560, 18187480, 18187520, 18187560, 18187600,
  18187640, 18187680, 18187720, 18187760, 18187800, 18187840, 18187880, 18187920, 18187960,
  18188000, 18188040, 18188080, 18188120, 18188160, 18188200, 18188240, 18188280, 18188320,
  18188360, 18188400, 18188440, 18188480, 18188520, 18188560, 18188600, 18188640, 18188680,
  18188720, 18188760, 18188800, 18188840, 18188880, 18188920, 18188960, 18189000, 18189040,
  18189080, 18189120, 18189160, 18189200, 18189240, 18189280, 18189320, 18189360, 18189400,
  18351320, 18351360, 18351400, 18351440, 18351480, 18351520, 18351560, 18351600, 18351640,
  18351680, 18351720, 18351760, 18351800, 18351840, 18351880, 18351920, 18351960, 18352000,
  18352040, 18352080, 18352120, 18352160, 18352200, 18352240, 18352280, 18352300]

def sortedKeysA5 : List Nat := [ 18352320, 18352360, 18352400, 18352440, 18352480, 18352520,
  18352560, 18352600, 18352640, 18352680, 18352720, 18352760, 18352800, 18352840, 18352880,
  18352920, 18352960, 18353000, 18353040, 18353080, 18353120, 18353160, 18353200, 18353240,
  18515160, 18515200, 18515240, 18515280, 18515320, 18515360, 18515400, 18515440, 18515480,
  18515520, 18515560, 18515600, 18515640, 18515680, 18515720, 18515760, 18515800, 18515840,
  18515880, 18515920, 18515960, 18516000, 18516040, 18516080, 18516200, 18516240, 18516280,
  18516320, 18516360, 18516400, 18516440, 18516480, 18516520, 18516560, 18516600, 18516640,
  18516680, 18516720, 18516760, 18516800, 18516840, 18516880, 18516920, 18516960, 18517000,
  18517040, 18517080, 18679000, 18679040, 18679080, 18679120, 18679160, 18679200, 18679240,
  18679280, 18679320, 18679360, 18679400, 18679440, 18679480, 18679520, 18679560, 18679600,
  18679640, 18679680, 18679720, 18679760, 18679800, 18679840, 18679880, 18679920, 18679940,
  18679960, 18679980, 18680000, 18680020, 18680040, 18680080, 18680120, 18680160, 18680200,
  18680240, 18680280, 18680320, 18680360, 18680400, 18680440, 18680480, 18680520, 18680560,
  18680600, 18680640, 18680680, 18680720, 18680760, 18680800, 18680840, 18680880, 18680920,
  18842840, 18842880, 18842920, 18842960, 18843000, 18843040, 18843080, 18843120, 18843160,
  18843200, 18843240, 18843280, 18843320, 18843360, 18843400, 18843440, 18843480, 18843520,
  18843560, 18843600, 18843640, 18843680, 18843720, 18843920, 18843960, 18844000, 18844040,
  18844080, 18844120, 18844160, 18844200, 18844240, 18844280, 18844320, 18844360, 18844400,
  18844440, 18844480, 18844520, 18844560, 18844600, 18844640, 18844680, 18844720, 18844760,
  19006680, 19006720, 19006760, 19006800, 19006840, 19006880, 19006920, 19006960, 19007000,
  19007040, 19007080, 19007120, 19007160, 19007200, 19007240, 19007280, 19007320, 19007360,
  19007400, 19007440, 19007480, 19007520, 19007560, 19007580, 19007600, 19007620, 19007640,
  19007660, 19007680, 19007700, 19007720, 19007740, 19007760, 19007800, 19007840, 19007880,
  19007920, 19007960, 19008000, 19008040, 19008080, 19008120, 19008160, 19008200, 19008240,
  19008280, 19008320, 19008360, 19008400, 19008440, 19008480, 19008520, 19008560, 19008600,
  19170520, 19170560, 19170600, 19170640, 19170680, 19170720, 19170760, 19170800, 19170840,
  19170880, 19170920, 19170960, 19171000, 19171040, 19171080, 19171120, 19171160, 19171200,
  19171240, 19171280, 19171320, 19171360, 19171640, 19171680, 19171720, 19171760, 19171800,
  19171840, 19171880, 19171920, 19171960, 19172000, 19172040, 19172080, 19172120, 19172160,
  19172200, 19172240, 19172280, 19172320, 19172360, 19172400, 19172440, 19334360, 19334400,
  19334440, 19334480, 19334520, 19334560, 19334600, 19334640, 19334680, 19334720, 19334760,
  19334800, 19334840, 19334880, 19334920, 19334960, 19335000, 19335040, 19335080, 19335120,
  19335160, 19335200, 19335220, 19335240, 19335260, 19335280, 19335300, 19335320, 19335340,
  19335360, 19335380, 19335400, 19335420, 19335440, 19335460, 19335480, 19335520, 19335560,
  19335600, 19335640, 19335680, 19335720, 19335760, 19335800, 19335840, 19335880, 19335920,
  19335960, 19336000, 19336040, 19336080, 19336120, 19336160, 19336200, 19336240, 19336280,
  19498200, 19498240, 19498280, 19498320, 19498360, 19498400, 19498440, 19498480, 19498520,
  19498560, 19498600, 19498640, 19498680, 19498720, 19498760, 19498800, 19498840, 19498880,
  19498920, 19498960, 19499000, 19499360, 19499400, 19499440, 19499480, 19499520, 19499560,
  19499600, 19499640, 19499680, 19499720, 19499760, 19499800, 19499840, 19499880, 19499920,
  19499960, 19500000, 19500040, 19500080, 19500120, 19662040, 19662080, 19662120, 19662160,
  19662200, 19662240, 19662280, 19662320, 19662360, 19662400, 19662440, 19662480, 19662520,
  19662560, 19662600, 19662640, 19662680, 19662720, 19662760, 19662800, 19662840, 19662860,
  19662880, 19662900, 19662920, 19662940, 19662960, 19662980, 19663000, 19663020, 19663040,
  19663060, 19663080, 19663100, 19663120, 19663140, 19663160, 19663180, 19663200, 19663240,
  19663280, 19663320, 19663360, 19663400, 19663440, 19663480, 19663520, 19663560, 19663600,
  19663640, 19663680, 19663720, 19663760, 19663800, 19663840, 19663880, 19663920, 19663960,
  19825880, 19825920, 19825960, 19826000, 19826040, 19826080, 19826120, 19826160, 19826200,
  19826240, 19826280, 19826320, 19826360, 19826400, 19826440, 19826480, 19826520, 19826560,
  19826600, 19826640, 19827080, 19827120, 19827160, 19827200, 19827240, 19827280, 19827320,
  19827360, 19827400, 19827440, 19827480, 19827520, 19827560, 19827600, 19827640, 19827680,
  19827720, 19827760, 19827800, 19989720, 19989760, 19989800, 19989840, 19989880, 19989920,
  19989960, 19990000, 19990040, 19990080, 19990120, 19990160, 19990200, 19990240, 19990280,
  19990320, 19990360, 19990400, 19990440, 19990480, 19990500, 19990520, 19990540, 19990560,
  19990580, 19990600, 19990620, 19990640, 19990660, 19990680, 19990700, 19990720, 19990740,
  19990760, 19990780, 19990800, 19990820, 19990840, 19990860, 19990880, 19990900]

def sortedKeysA6 : List Nat := [ 19990920, 19990960, 19991000, 19991040, 19991080, 19991120,
  19991160, 19991200, 19991240, 19991280, 19991320, 19991360, 19991400, 19991440, 19991480,
  19991520, 19991560, 19991600, 19991640, 20153560, 20153600, 20153640, 20153680, 20153720,
  20153760, 20153800, 20153840, 20153880, 20153920, 20153960, 20154000, 20154040, 20154080,
  20154120, 20154160, 20154200, 20154240, 20154280, 20154800, 20154840, 20154880, 20154920,
  20154960, 20155000, 20155040, 20155080, 20155120, 20155160, 20155200, 20155240, 20155280,
  20155320, 20155360, 20155400, 20155440, 20155480, 20317400, 20317440, 20317480, 20317520,
  20317560, 20317600, 20317640, 20317680, 20317720, 20317760, 20317800, 20317840, 20317880,
  20317920, 20317960, 20318000, 20318040, 20318080, 20318120, 20318140, 20318160, 20318180,
  20318200, 20318220, 20318240, 20318260, 20318280, 20318300, 20318320, 20318340, 20318360,
  20318380, 20318400, 20318420, 20318440, 20318460, 20318480, 20318500, 20318520, 20318540,
  20318560, 20318580, 20318600, 20318620, 20318640, 20318680, 20318720, 20318760, 20318800,
  20318840, 20318880, 20318920, 20318960, 20319000, 20319040, 20319080, 20319120, 20319160,
  20319200, 20319240, 20319280, 20319320, 20481240, 20481280, 20481320, 20481360, 20481400,
  20481440, 20481480, 20481520, 20481560, 20481600, 20481640, 20481680, 20481720, 20481760,
  20481800, 20481840, 20481880, 20481920, 20482520, 20482560, 20482600, 20482640, 20482680,
  20482720, 20482760, 20482800, 20482840, 20482880, 20482920, 20482960, 20483000, 20483040,
  20483080, 20483120, 20483160, 20645080, 20645120, 20645160, 20645200, 20645240, 20645280,
  20645320, 20645360, 20645400, 20645440, 20645480, 20645520, 20645560, 20645600, 20645640,
  20645680, 20645720, 20645760, 20645780, 20645800, 20645820, 20645840, 20645860, 20645880,
  20645900, 20645920, 20645940, 20645960, 20645980, 20646000, 20646020, 20646040, 20646060,
  20646080, 20646100, 20646120, 20646140, 20646160, 20646180, 20646200, 20646220, 20646240,
  20646260, 20646280, 20646300, 20646320, 20646340, 20646360, 20646400, 20646440, 20646480,
  20646520, 20646560, 20646600, 20646640, 20646680, 20646720, 20646760, 20646800, 20646840,
  20646880, 20646920, 20646960, 20647000, 20808920, 20808960, 20809000, 20809040, 20809080,
  20809120, 20809160, 20809200, 20809240, 20809280, 20809320, 20809360, 20809400, 20809440,
  20809480, 20809520, 20809560, 20810240, 20810280, 20810320, 20810360, 20810400, 20810440,
  20810480, 20810520, 20810560, 20810600, 20810640, 20810680, 20810720, 20810760, 20810800,
  20810840, 20972760, 20972800, 20972840, 20972880, 20972920, 20972960, 20973000, 20973040,
  20973080, 20973120, 20973160, 20973200, 20973240, 20973280, 20973320, 20973360, 20973400,
  20973420, 20973440, 20973460, 20973480, 20973500, 20973520, 20973540, 20973560, 20973580,
  20973600, 20973620, 20973640, 20973660, 20973680, 20973700, 20973720, 20973740, 20973760,
  20973780, 20973800, 20973820, 20973840, 20973860, 20973880, 20973900, 20973920, 20973940,
  20973960, 20973980, 20974000, 20974020, 20974040, 20974060, 20974080, 20974120, 20974160,
  20974200, 20974240, 20974280, 20974320, 20974360, 20974400, 20974440, 20974480, 20974520,
  20974560, 20974600, 20974640, 20974680, 21136600, 21136640, 21136680, 21136720, 21136760,
  21136800, 21136840, 21136880, 21136920, 21136960, 21137000, 21137040, 21137080, 21137120,
  21137160, 21137200, 21137960, 21138000, 21138040, 21138080, 21138120, 21138160, 21138200,
  21138240, 21138280, 21138320, 21138360, 21138400, 21138440, 21138480, 21138520, 21300440,
  21300480, 21300520, 21300560, 21300600, 21300640, 21300680, 21300720, 21300760, 21300800,
  21300840, 21300880, 21300920, 21300960, 21301000, 21301040, 21301060, 21301080, 21301100,
  21301120, 21301140, 21301160, 21301180, 21301200, 21301220, 21301240, 21301260, 21301280,
  21301300, 21301320, 21301340, 21301360, 21301380, 21301400, 21301420, 21301440, 21301460,
  21301480, 21301500, 21301520, 21301540, 21301560, 21301580, 21301600, 21301620, 21301640,
  21301660, 21301680, 21301700, 21301720, 21301740, 21301760, 21301780, 21301800, 21301840,
  21301880, 21301920, 21301960, 21302000, 21302040, 21302080, 21302120, 21302160, 21302200,
  21302240, 21302280, 21302320, 21302360, 21464280, 21464320, 21464360, 21464400, 21464440,
  21464480, 21464520, 21464560, 21464600, 21464640, 21464680, 21464720, 21464760, 21464800,
  21464840, 21465680, 21465720, 21465760, 21465800, 21465840, 21465880, 21465920, 21465960,
  21466000, 21466040, 21466080, 21466120, 21466160, 21466200, 21628120, 21628160, 21628200,
  21628240, 21628280, 21628320, 21628360, 21628400, 21628440, 21628480, 21628520, 21628560,
  21628600, 21628640, 21628680, 21628700, 21628720, 21628740, 21628760, 21628780, 21628800,
  21628820, 21628840, 21628860, 21628880, 21628900, 21628920, 21628940, 21628960, 21628980,
  21629000, 21629020, 21629040, 21629060, 21629080, 21629100, 21629120, 21629140, 21629160,
  21629180, 21629200, 21629220, 21629240, 21629260, 21629280, 21629300, 21629320, 21629340,
  21629360, 21629380, 21629400, 21629420, 21629440, 21629460, 21629480, 21629500]

def sortedKeysA7 : List Nat := [ 21629520, 21629560, 21629600, 21629640, 21629680, 21629720,
  21629760, 21629800, 21629840, 21629880, 21629920, 21629960, 21630000, 21630040, 21791960,
  21792000, 21792040, 21792080, 21792120, 21792160, 21792200, 21792240, 21792280, 21792320,
  21792360, 21792400, 21792440, 21792480, 21793400, 21793440, 21793480, 21793520, 21793560,
  21793600, 21793640, 21793680, 21793720, 21793760, 21793800, 21793840, 21793880, 21955800,
  21955840, 21955880, 21955920, 21955960, 21956000, 21956040, 21956080, 21956120, 21956160,
  21956200, 21956240, 21956280, 21956320, 21956340, 21956360, 21956380, 21956400, 21956420,
  21956440, 21956460, 21956480, 21956500, 21956520, 21956540, 21956560, 21956580, 21956600,
  21956620, 21956640, 21956660, 21956680, 21956700, 21956720, 21956740, 21956760, 21956780,
  21956800, 21956820, 21956840, 21956860, 21956880, 21956900, 21956920, 21956940, 21956960,
  21956980, 21957000, 21957020, 21957040, 21957060, 21957080, 21957100, 21957120, 21957140,
  21957160, 21957180, 21957200, 21957220, 21957240, 21957280, 21957320, 21957360, 21957400,
  21957440, 21957480, 21957520, 21957560, 21957600, 21957640, 21957680, 21957720, 22119640,
  22119680, 22119720, 22119760, 22119800, 22119840, 22119880, 22119920, 22119960, 22120000,
  22120040, 22120080, 22120120, 22121120, 22121160, 22121200, 22121240, 22121280, 22121320,
  22121360, 22121400, 22121440, 22121480, 22121520, 22121560, 22283480, 22283520, 22283560,
  22283600, 22283640, 22283680, 22283720, 22283760, 22283800, 22283840, 22283880, 22283920,
  22283960, 22283980, 22284000, 22284020, 22284040, 22284060, 22284080, 22284100, 22284120,
  22284140, 22284160, 22284180, 22284200, 22284220, 22284240, 22284260, 22284280, 22284300,
  22284320, 22284340, 22284360, 22284380, 22284400, 22284420, 22284440, 22284460, 22284480,
  22284500, 22284520, 22284540, 22284560, 22284580, 22284600, 22284620, 22284640, 22284660,
  22284680, 22284700, 22284720, 22284740, 22284760, 22284780, 22284800, 22284820, 22284840,
  22284860, 22284880, 22284900, 22284920, 22284940, 22284960, 22285000, 22285040, 22285080,
  22285120, 22285160, 22285200, 22285240, 22285280, 22285320, 22285360, 22285400, 22447320,
  22447360, 22447400, 22447440, 22447480, 22447520, 22447560, 22447600, 22447640, 22447680,
  22447720, 22447760, 22448840, 22448880, 22448920, 22448960, 22449000, 22449040, 22449080,
  22449120, 22449160, 22449200, 22449240, 22611160, 22611200, 22611240, 22611280, 22611320,
  22611360, 22611400, 22611440, 22611480, 22611520, 22611560, 22611600, 22611620, 22611640,
  22611660, 22611680, 22611700, 22611720, 22611740, 22611760, 22611780, 22611800, 22611820,
  22611840, 22611860, 22611880, 22611900, 22611920, 22611940, 22611960, 22611980, 22612000,
  22612020, 22612040, 22612060, 22612080, 22612100, 22612120, 22612140, 22612160, 22612180,
  22612200, 22612220, 22612240, 22612260, 22612280, 22612300, 22612320, 22612340, 22612360,
  22612380, 22612400, 22612420, 22612440, 22612460, 22612480, 22612500, 22612520, 22612540,
  22612560, 22612580, 22612600, 22612620, 22612640, 22612660, 22612680, 22612720, 22612760,
  22612800, 22612840, 22612880, 22612920, 22612960, 22613000, 22613040, 22613080, 22775000,
  22775040, 22775080, 22775120, 22775160, 22775200, 22775240, 22775280, 22775320, 22775360,
  22775400, 22776560, 22776600, 22776640, 22776680, 22776720, 22776760, 22776800, 22776840,
  22776880, 22776920, 22938840, 22938880, 22938920, 22938960, 22939000, 22939040, 22939080,
  22939120, 22939160, 22939200, 22939240, 22939260, 22939280, 22939300, 22939320, 22939340,
  22939360, 22939380, 22939400, 22939420, 22939440, 22939460, 22939480, 22939500, 22939520,
  22939540, 22939560, 22939580, 22939600, 22939620, 22939640, 22939660, 22939680, 22939700,
  22939720, 22939740, 22939760, 22939780, 22939800, 22939820, 22939840, 22939860, 22939880,
  22939900, 22939920, 22939940, 22939960, 22939980, 22940000, 22940020, 22940040, 22940060,
  22940080, 22940100, 22940120, 22940140, 22940160, 22940180, 22940200, 22940220, 22940240,
  22940260, 22940280, 22940300, 22940320, 22940340, 22940360, 22940380, 22940400, 22940440,
  22940480, 22940520, 22940560, 22940600, 22940640, 22940680, 22940720, 22940760, 23102680,
  23102720, 23102760, 23102800, 23102840, 23102880, 23102920, 23102960, 23103000, 23103040,
  23104280, 23104320, 23104360, 23104400, 23104440, 23104480, 23104520, 23104560, 23104600,
  23266520, 23266560, 23266600, 23266640, 23266680, 23266720, 23266760, 23266800, 23266840,
  23266880, 23266900, 23266920, 23266940, 23266960, 23266980, 23267000, 23267020, 23267040,
  23267060, 23267080, 23267100, 23267120, 23267140, 23267160, 23267180, 23267200, 23267220,
  23267240, 23267260, 23267280, 23267300, 23267320, 23267340, 23267360, 23267380, 23267400,
  23267420, 23267440, 23267460, 23267480, 23267500, 23267520, 23267540, 23267560, 23267580,
  23267600, 23267620, 23267640, 23267660, 23267680, 23267700, 23267720, 23267740, 23267760,
  23267780, 23267800, 23267820, 23267840, 23267860, 23267880, 23267900, 23267920, 23267940,
  23267960, 23267980, 23268000, 23268020, 23268040, 23268060, 23268080, 23268100]

def sortedKeysA8 : List Nat := [ 23268120, 23268160, 23268200, 23268240, 23268280, 23268320,
  23268360, 23268400, 23268440, 23430360, 23430400, 23430440, 23430480, 23430520, 23430560,
  23430600, 23430640, 23430680, 23432000, 23432040, 23432080, 23432120, 23432160, 23432200,
  23432240, 23432280, 23594200, 23594240, 23594280, 23594320, 23594360, 23594400, 23594440,
  23594480, 23594520, 23594540, 23594560, 23594580, 23594600, 23594620, 23594640, 23594660,
  23594680, 23594700, 23594720, 23594740, 23594760, 23594780, 23594800, 23594820, 23594840,
  23594860, 23594880, 23594900, 23594920, 23594940, 23594960, 23594980, 23595000, 23595020,
  23595040, 23595060, 23595080, 23595100, 23595120, 23595140, 23595160, 23595180, 23595200,
  23595220, 23595240, 23595260, 23595280, 23595300, 23595320, 23595340, 23595360, 23595380,
  23595400, 23595420, 23595440, 23595460, 23595480, 23595500, 23595520, 23595540, 23595560,
  23595580, 23595600, 23595620, 23595640, 23595660, 23595680, 23595700, 23595720, 23595740,
  23595760, 23595780, 23595800, 23595820, 23595840, 23595880, 23595920, 23595960, 23596000,
  23596040, 23596080, 23596120, 23758040, 23758080, 23758120, 23758160, 23758200, 23758240,
  23758280, 23758320, 23759720, 23759760, 23759800, 23759840, 23759880, 23759920, 23759960,
  23921880, 23921920, 23921960, 23922000, 23922040, 23922080, 23922120, 23922160, 23922180,
  23922200, 23922220, 23922240, 23922260, 23922280, 23922300, 23922320, 23922340, 23922360,
  23922380, 23922400, 23922420, 23922440, 23922460, 23922480, 23922500, 23922520, 23922540,
  23922560, 23922580, 23922600, 23922620, 23922640, 23922660, 23922680, 23922700, 23922720,
  23922740, 23922760, 23922780, 23922800, 23922820, 23922840, 23922860, 23922880, 23922900,
  23922920, 23922940, 23922960, 23922980, 23923000, 23923020, 23923040, 23923060, 23923080,
  23923100, 23923120, 23923140, 23923160, 23923180, 23923200, 23923220, 23923240, 23923260,
  23923280, 23923300, 23923320, 23923340, 23923360, 23923380, 23923400, 23923420, 23923440,
  23923460, 23923480, 23923500, 23923520, 23923540, 23923560, 23923600, 23923640, 23923680,
  23923720, 23923760, 23923800, 24085720, 24085760, 24085800, 24085840, 24085880, 24085920,
  24085960, 24087440, 24087480, 24087520, 24087560, 24087600, 24087640, 24249560, 24249600,
  24249640, 24249680, 24249720, 24249760, 24249800, 24249820, 24249840, 24249860, 24249880,
  24249900, 24249920, 24249940, 24249960, 24249980, 24250000, 24250020, 24250040, 24250060,
  24250080, 24250100, 24250120, 24250140, 24250160, 24250180, 24250200, 24250220, 24250240,
  24250260, 24250280, 24250300, 24250320, 24250340, 24250360, 24250380, 24250400, 24250420,
  24250440, 24250460, 24250480, 24250500, 24250520, 24250540, 24250560, 24250580, 24250600,
  24250620, 24250640, 24250660, 24250680, 24250700, 24250720, 24250740, 24250760, 24250780,
  24250800, 24250820, 24250840, 24250860, 24250880, 24250900, 24250920, 24250940, 24250960,
  24250980, 24251000, 24251020, 24251040, 24251060, 24251080, 24251100, 24251120, 24251140,
  24251160, 24251180, 24251200, 24251220, 24251240, 24251260, 24251280, 24251320, 24251360,
  24251400, 24251440, 24251480, 24413400, 24413440, 24413480, 24413520, 24413560, 24413600,
  24415160, 24415200, 24415240, 24415280, 24415320, 24577240, 24577280, 24577320, 24577360,
  24577400, 24577440, 24577460, 24577480, 24577500, 24577520, 24577540, 24577560, 24577580,
  24577600, 24577620, 24577640, 24577660, 24577680, 24577700, 24577720, 24577740, 24577760,
  24577780, 24577800, 24577820, 24577840, 24577860, 24577880, 24577900, 24577920, 24577940,
  24577960, 24577980, 24578000, 24578020, 24578040, 24578060, 24578080, 24578100, 24578120,
  24578140, 24578160, 24578180, 24578200, 24578220, 24578240, 24578260, 24578280, 24578300,
  24578320, 24578340, 24578360, 24578380, 24578400, 24578420, 24578440, 24578460, 24578480,
  24578500, 24578520, 24578540, 24578560, 24578580, 24578600, 24578620, 24578640, 24578660,
  24578680, 24578700, 24578720, 24578740, 24578760, 24578780, 24578800, 24578820, 24578840,
  24578860, 24578880, 24578900, 24578920, 24578940, 24578960, 24578980, 24579000, 24579040,
  24579080, 24579120, 24579160, 24741080, 24741120, 24741160, 24741200, 24741240, 24742880,
  24742920, 24742960, 24743000, 24904920, 24904960, 24905000, 24905040, 24905080, 24905100,
  24905120, 24905140, 24905160, 24905180, 24905200, 24905220, 24905240, 24905260, 24905280,
  24905300, 24905320, 24905340, 24905360, 24905380, 24905400, 24905420, 24905440, 24905460,
  24905480, 24905500, 24905520, 24905540, 24905560, 24905580, 24905600, 24905620, 24905640,
  24905660, 24905680, 24905700, 24905720, 24905740, 24905760, 24905780, 24905800, 24905820,
  24905840, 24905860, 24905880, 24905900, 24905920, 24905940, 24905960, 24905980, 24906000,
  24906020, 24906040, 24906060, 24906080, 24906100, 24906120, 24906140, 24906160, 24906180,
  24906200, 24906220, 24906240, 24906260, 24906280, 24906300, 24906320, 24906340, 24906360,
  24906380, 24906400, 24906420, 24906440, 24906460, 24906480, 24906500, 24906520, 24906540,
  24906560, 24906580, 24906600, 24906620, 24906640, 24906660, 24906680, 24906700]

def sortedKeysA9 : List Nat := [ 24906720, 24906760, 24906800, 24906840, 25068760, 25068800,
  25068840, 25068880, 25070600, 25070640, 25070680, 25232600, 25232640, 25232680, 25232720,
  25232740, 25232760, 25232780, 25232800, 25232820, 25232840, 25232860, 25232880, 25232900,
  25232920, 25232940, 25232960, 25232980, 25233000, 25233020, 25233040, 25233060, 25233080,
  25233100, 25233120, 25233140, 25233160, 25233180, 25233200, 25233220, 25233240, 25233260,
  25233280, 25233300, 25233320, 25233340, 25233360, 25233380, 25233400, 25233420, 25233440,
  25233460, 25233480, 25233500, 25233520, 25233540, 25233560, 25233580, 25233600, 25233620,
  25233640, 25233660, 25233680, 25233700, 25233720, 25233740, 25233760, 25233780, 25233800,
  25233820, 25233840, 25233860, 25233880, 25233900, 25233920, 25233940, 25233960, 25233980,
  25234000, 25234020, 25234040, 25234060, 25234080, 25234100, 25234120, 25234140, 25234160,
  25234180, 25234200, 25234220, 25234240, 25234260, 25234280, 25234300, 25234320, 25234340,
  25234360, 25234380, 25234400, 25234420, 25234440, 25234480, 25234520, 25396440, 25396480,
  25396520, 25398320, 25398360, 25560280, 25560320, 25560360, 25560380, 25560400, 25560420,
  25560440, 25560460, 25560480, 25560500, 25560520, 25560540, 25560560, 25560580, 25560600,
  25560620, 25560640, 25560660, 25560680, 25560700, 25560720, 25560740, 25560760, 25560780,
  25560800, 25560820, 25560840, 25560860, 25560880, 25560900, 25560920, 25560940, 25560960,
  25560980, 25561000, 25561020, 25561040, 25561060, 25561080, 25561100, 25561120, 25561140,
  25561160, 25561180, 25561200, 25561220, 25561240, 25561260, 25561280, 25561300, 25561320,
  25561340, 25561360, 25561380, 25561400, 25561420, 25561440, 25561460, 25561480, 25561500,
  25561520, 25561540, 25561560, 25561580, 25561600, 25561620, 25561640, 25561660, 25561680,
  25561700, 25561720, 25561740, 25561760, 25561780, 25561800, 25561820, 25561840, 25561860,
  25561880, 25561900, 25561920, 25561940, 25561960, 25561980, 25562000, 25562020, 25562040,
  25562060, 25562080, 25562100, 25562120, 25562140, 25562160, 25562200, 25724120, 25724160,
  25726040, 25887960, 25888000, 25888020, 25888040, 25888060, 25888080, 25888100, 25888120,
  25888140, 25888160, 25888180, 25888200, 25888220, 25888240, 25888260, 25888280, 25888300,
  25888320, 25888340, 25888360, 25888380, 25888400, 25888420, 25888440, 25888460, 25888480,
  25888500, 25888520, 25888540, 25888560, 25888580, 25888600, 25888620, 25888640, 25888660,
  25888680, 25888700, 25888720, 25888740, 25888760, 25888780, 25888800, 25888820, 25888840,
  25888860, 25888880, 25888900, 25888920, 25888940, 25888960, 25888980, 25889000, 25889020,
  25889040, 25889060, 25889080, 25889100, 25889120, 25889140, 25889160, 25889180, 25889200,
  25889220, 25889240, 25889260, 25889280, 25889300, 25889320, 25889340, 25889360, 25889380,
  25889400, 25889420, 25889440, 25889460, 25889480, 25889500, 25889520, 25889540, 25889560,
  25889580, 25889600, 25889620, 25889640, 25889660, 25889680, 25889700, 25889720, 25889740,
  25889760, 25889780, 25889800, 25889820, 25889840, 25889860, 25889880, 26051800, 26215640,
  26215660, 26215680, 26215700, 26215720, 26215740, 26215760, 26215780, 26215800, 26215820,
  26215840, 26215860, 26215880, 26215900, 26215920, 26215940, 26215960, 26215980, 26216000,
  26216020, 26216040, 26216060, 26216080, 26216100, 26216120, 26216140, 26216160, 26216180,
  26216200, 26216220, 26216240, 26216260, 26216280, 26216300, 26216320, 26216340, 26216360,
  26216380, 26216400, 26216420, 26216440, 26216460, 26216480, 26216500, 26216520, 26216540,
  26216560, 26216580, 26216600, 26216620, 26216640, 26216660, 26216680, 26216700, 26216720,
  26216740, 26216760, 26216780, 26216800, 26216820, 26216840, 26216860, 26216880, 26216900,
  26216920, 26216940, 26216960, 26216980, 26217000, 26217020, 26217040, 26217060, 26217080,
  26217100, 26217120, 26217140, 26217160, 26217180, 26217200, 26217220, 26217240, 26217260,
  26217280, 26217300, 26217320, 26217340, 26217360, 26217380, 26217400, 26217420, 26217440,
  26217460, 26217480, 26217500, 26217520, 26217540, 26217560, 26217580, 26217600]

def sortedKeysLit : List Nat :=
  sortedKeysA0 ++ (sortedKeysA1 ++ (sortedKeysA2 ++ (sortedKeysA3 ++ (sortedKeysA4 ++ (sortedKeysA5 ++ (sortedKeysA6 ++ (sortedKeysA7 ++ (sortedKeysA8 ++ (sortedKeysA9)))))))))

theorem spiralSeg0 : segCheck 200 200 (allSteps.take 100) spiralKeysLit0 = some (360, 120) := by decide

theorem spiralSeg1 : segCheck 360 120 ((allSteps.drop 100).take 100) spiralKeysLit1 = some (0, 400) := by decide

theorem spiralSeg2 : segCheck 0 400 ((allSteps.drop 200).take 100) spiralKeysLit2 = some (-40, 200) := by decide

theorem spiralSeg3 : segCheck (-40) 200 ((allSteps.drop 300).take 100) spiralKeysLit3 = some (-80, 320) := by decide

theorem spiralSeg4 : segCheck (-80) 320 ((allSteps.drop 400).take 100) spiralKeysLit4 = some (120, 520) := by decide

theorem spiralSeg5 : segCheck 120 520 ((allSteps.drop 500).take 100) spiralKeysLit5 = some (560, 320) := by decide

theorem spiralSeg6 : segCheck 560 320 ((allSteps.drop 600).take 100) spiralKeysLit6 = some (160, (-160)) := by decide

theorem spiralSeg7 : segCheck 160 (-160) ((allSteps.drop 700).take 100) spiralKeysLit7 = some (-200, 600) := by decide

theorem spiralSeg8 : segCheck (-200) 600 ((allSteps.drop 800).take 100) spiralKeysLit8 = some (640, 160) := by decide

theorem spiralSeg9 : segCheck 640 160 ((allSteps.drop 900).take 100) spiralKeysLit9 = some (-240, 0) := by decide

theorem spiralSeg10 : segCheck (-240) 0 ((allSteps.drop 1000).take 100) spiralKeysLit10 = some (680, 600) := by decide

theorem spiralSeg11 : segCheck 680 600 ((allSteps.drop 1100).take 100) spiralKeysLit11 = some (-280, (-280)) := by decide

theorem spiralSeg12 : segCheck (-280) (-280) ((allSteps.drop 1200).take 100) spiralKeysLit12 = some (720, 720) := by decide

theorem spiralSeg13 : segCheck 720 720 ((allSteps.drop 1300).take 100) spiralKeysLit13 = some (-320, (-240)) := by decide

theorem spiralSeg14 : segCheck (-320) (-240) ((allSteps.drop 1400).take 100) spiralKeysLit14 = some (760, 520) := by decide

theorem spiralSeg15 : segCheck 760 520 ((allSteps.drop 1500).take 100) spiralKeysLit15 = some (-360, 120) := by decide

theorem spiralSeg16 : segCheck (-360) 120 ((allSteps.drop 1600).take 100) spiralKeysLit16 = some (800, 0) := by decide

theorem spiralSeg17 : segCheck 800 0 ((allSteps.drop 1700).take 100) spiralKeysLit17 = some (-400, 800) := by decide

theorem spiralSeg18 : segCheck (-400) 800 ((allSteps.drop 1800).take 100) spiralKeysLit18 = some (400, (-400)) := by decide

theorem spiralSeg19 : segCheck 400 (-400) ((allSteps.drop 1900).take 100) spiralKeysLit19 = some (520, 840) := by decide

theorem spiralSeg20 : segCheck 520 840 ((allSteps.drop 2000).take 100) spiralKeysLit20 = some (-440, (-200)) := by decide

theorem spiralSeg21 : segCheck (-440) (-200) ((allSteps.drop 2100).take 100) spiralKeysLit21 = some (880, 0) := by decide

theorem spiralSeg22 : segCheck 880 0 ((allSteps.drop 2200).take 100) spiralKeysLit22 = some (-240, 880) := by decide

theorem spiralSeg23 : segCheck (-240) 880 ((allSteps.drop 2300).take 100) spiralKeysLit23 = some (-80, (-480)) := by decide

theorem spiralSeg24 : segCheck (-80) (-480) ((allSteps.drop 2400).take 100) spiralKeysLit24 = some (920, 520) := by decide

theorem spiralSeg25 : segCheck 920 520 ((allSteps.drop 2500).take 100) spiralKeysLit25 = some (-520, 760) := by decide

theorem spiralSeg26 : segCheck (-520) 760 ((allSteps.drop 2600).take 100) spiralKeysLit26 = some (200, (-520)) := by decide

theorem spiralSeg27 : segCheck 200 (-520) ((allSteps.drop 2700).take 100) spiralKeysLit27 = some (960, 720) := by decide

theorem spiralSeg28 : segCheck 960 720 ((allSteps.drop 2800).take 100) spiralKeysLit28 = some (-560, 720) := by decide

theorem spiralSeg29 : segCheck (-560) 720 ((allSteps.drop 2900).take 100) spiralKeysLit29 = some (160, (-560)) := by decide

theorem spiralSeg30 : segCheck 160 (-560) ((allSteps.drop 3000).take 100) spiralKeysLit30 = some (1000, 600) := by decide

theorem spiralSeg31 : segCheck 1000 600 ((allSteps.drop 3100).take 100) spiralKeysLit31 = some (-600, 1000) := by decide

theorem spiralSeg32 : segCheck (-600) 1000 ((allSteps.drop 3200).take 100) spiralKeysLit32 = some (-200, (-600)) := by decide

theorem spiralSeg33 : segCheck (-200) (-600) ((allSteps.drop 3300).take 100) spiralKeysLit33 = some (1040, 160) := by decide

theorem spiralSeg34 : segCheck 1040 160 ((allSteps.drop 3400).take 100) spiralKeysLit34 = some (-80, 1040) := by decide

theorem spiralSeg35 : segCheck (-80) 1040 ((allSteps.drop 3500).take 100) spiralKeysLit35 = some (-640, (-400)) := by decide

theorem spiralSeg36 : segCheck (-640) (-400) ((allSteps.drop 3600).take 100) spiralKeysLit36 = some (1080, (-600)) := by decide

theorem spiralSeg37 : segCheck 1080 (-600) ((allSteps.drop 3700).take 100) spiralKeysLit37 = some (760, 1080) := by decide

theorem spiralSeg38 : segCheck 760 1080 ((allSteps.drop 3800).take 100) spiralKeysLit38 = some (-680, 520) := by decide

theorem spiralSeg39 : segCheck (-680) 520 ((allSteps.drop 3900).take 100) spiralKeysLit39 = some (120, (-680)) := by decide

theorem spiralSeg40 : segCheck 120 (-680) ((allSteps.drop 4000).take 100) spiralKeysLit40 = some (1120, 320) := by decide

theorem spiralSeg41 : segCheck 1120 320 ((allSteps.drop 4100).take 100) spiralKeysLit41 = some (-80, 1120) := by decide

theorem spiralSeg42 : segCheck (-80) 1120 ((allSteps.drop 4200).take 100) spiralKeysLit42 = some (-720, (-240)) := by decide

theorem spiralSeg43 : segCheck (-720) (-240) ((allSteps.drop 4300).take 100) spiralKeysLit43 = some (800, (-720)) := by decide

theorem spiralSeg44 : segCheck 800 (-720) ((allSteps.drop 4400).take 100) spiralKeysLit44 = some (1160, 920) := by decide

theorem spiralSeg45 : segCheck 1160 920 ((allSteps.drop 4500).take 100) spiralKeysLit45 = some (-600, 1160) := by decide

theorem spiralSeg46 : segCheck (-600) 1160 ((allSteps.drop 4600).take 100) spiralKeysLit46 = some (-760, (-680)) := by decide

theorem spiralSeg47 : segCheck (-760) (-680) ((allSteps.drop 4700).take 100) spiralKeysLit47 = some (1160, (-760)) := by decide

theorem spiralSeg48 : segCheck 1160 (-760) ((allSteps.drop 4800).take 100) spiralKeysLit48 = some (1200, 1200) := by decide

/-- The source-derived spiral keys equal the literal certificate list. -/
theorem spiralKeys_eq_lit : spiralKeys = spiralKeysLit := by
  have h49 : (spiralFrom ⟨1200, 1200⟩ (allSteps.drop 4900)).map cellKey = spiralKeysLit49 := by
    rw [show allSteps.drop 4900 = ([] : List Point) from by decide]
    decide
  have h48 : (spiralFrom ⟨1160, (-760)⟩ (allSteps.drop 4800)).map cellKey = spiralKeysLit48 ++ (spiralKeysLit49) := by
    rw [show allSteps.drop 4800 = (allSteps.drop 4800).take 100 ++ (allSteps.drop 4800).drop 100 from (List.take_append_drop 100 (allSteps.drop 4800)).symm]
    rw [segCheck_spec spiralKeysLit48 ((allSteps.drop 4800).take 100) 1160 (-760) 1200 1200 spiralSeg48 ((allSteps.drop 4800).drop 100)]
    rw [List.drop_drop]
    rw [show (100 : Nat) + 4800 = 4900 from rfl]
    rw [h49]
  have h47 : (spiralFrom ⟨-760, (-680)⟩ (allSteps.drop 4700)).map cellKey = spiralKeysLit47 ++ (spiralKeysLit48 ++ (spiralKeysLit49)) := by
    rw [show allSteps.drop 4700 = (allSteps.drop 4700).take 100 ++ (allSteps.drop 4700).drop 100 from (List.take_append_drop 100 (allSteps.drop 4700)).symm]
    rw [segCheck_spec spiralKeysLit47 ((allSteps.drop 4700).take 100) (-760) (-680) 1160 (-760) spiralSeg47 ((allSteps.drop 4700).drop 100)]
    rw [List.drop_drop]
    rw [show (100 : Nat) + 4700 = 4800 from rfl]
    rw [h48]
  have h46 : (spiralFrom ⟨-600, 1160⟩ (allSteps.drop 4600)).map cellKey = spiralKeysLit46 ++ (spiralKeysLit47 ++ (spiralKeysLit48 ++ (spiralKeysLit49))) := by
    rw [show allSteps.drop 4600 = (allSteps.drop 4600).take 100 ++ (allSteps.drop 4600).drop 100 from (List.take_append_drop 100 (allSteps.drop 4600)).symm]
    rw [segCheck_spec spiralKeysLit46 ((allSteps.drop 4600).take 100) (-600) 1160 (-760) (-680) spiralSeg46 ((allSteps.drop 4600).drop 100)]
    rw [List.drop_drop]
    rw [show (100 : Nat) + 4600 = 4700 from rfl]
    rw [h47]
  have h45 : (spiralFrom ⟨1160, 920⟩ (allSteps.drop 4500)).map cellKey = spiralKeysLit45 ++ (spiralKeysLit46 ++ (spiralKeysLit47 ++ (spiralKeysLit48 ++ (spiralKeysLit49)))) := by
    rw [show allSteps.drop 4500 = (allSteps.drop 4500).take 100 ++ (allSteps.drop 4500).drop 100 from (List.take_append_drop 100 (allSteps.drop 4500)).symm]
    rw [segCheck_spec spiralKeysLit45 ((allSteps.drop 4500).take 100) 1160 920 (-600) 1160 spiralSeg45 ((allSteps.drop 4500).drop 100)]
    rw [List.drop_drop]
    rw [show (100 : Nat) + 4500 = 4600 from rfl]
    rw [h46]
  have h44 : (spiralFrom ⟨800, (-720)⟩ (allSteps.drop 4400)).map cellKey = spiralKeysLit44 ++ (spiralKeysLit45 ++ (spiralKeysLit46 ++ (spiralKeysLit47 ++ (spiralKeysLit48 ++ (spiralKeysLit49))))) := by
    rw [show allSteps.drop 4400 = (allSteps.drop 4400).take 100 ++ (allSteps.drop 4400).drop 100 from (List.take_append_drop 100 (allSteps.drop 4400)).symm]
    rw [segCheck_spec spiralKeysLit44 ((allSteps.drop 4400).take 100) 800 (-720) 1160 920 spiralSeg44 ((allSteps.drop 4400).drop 100)]
    rw [List.drop_drop]
    rw [show (100 : Nat) + 4400 = 4500 from rfl]
    rw [h45]
  have h43 : (spiralFrom ⟨-720, (-240)⟩ (allSteps.drop 4300)).map cellKey = spiralKeysLit43 ++ (spiralKeysLit44 ++ (spiralKeysLit45 ++ (spiralKeysLit46 ++ (spiralKeysLit47 ++ (spiralKeysLit48 ++ (spiralKeysLit49)))))) := by
    rw [show allSteps.drop 4300 = (allSteps.drop 4300).take 100 ++ (allSteps.drop 4300).drop 100 from (List.take_append_drop 100 (allSteps.drop 4300)).symm]
    rw [segCheck_spec spiralKeysLit43 ((allSteps.drop 4300).take 100) (-720) (-240) 800 (-720) spiralSeg43 ((allSteps.drop 4300).drop 100)]
    rw [List.drop_drop]
    rw [show (100 : Nat) + 4300 = 4400 from rfl]
    rw [h44]
  have h42 : (spiralFrom ⟨-80, 1120⟩ (allSteps.drop 4200)).map cellKey = spiralKeysLit42 ++ (spiralKeysLit43 ++ (spiralKeysLit44 ++ (spiralKeysLit45 ++ (spiralKeysLit46 ++ (spiralKeysLit47 ++ (spiralKeysLit48 ++ (spiralKeysLit49))))))) := by
    rw [show allSteps.drop 4200 = (allSteps.drop 4200).take 100 ++ (allSteps.drop 4200).drop 100 from (List.take_append_drop 100 (allSteps.drop 4200)).symm]
    rw [segCheck_spec spiralKeysLit42 ((allSteps.drop 4200).take 100) (-80) 1120 (-720) (-240) spiralSeg42 ((allSteps.drop 4200).drop 100)]
    rw [List.drop_drop]
    rw [show (100 : Nat) + 4200 = 4300 from rfl]
    rw [h43]
  have h41 : (spiralFrom ⟨1120, 320⟩ (allSteps.drop 4100)).map cellKey = spiralKeysLit41 ++ (spiralKeysLit42 ++ (spiralKeysLit43 ++ (spiralKeysLit44 ++ (spiralKeysLit45 ++ (spiralKeysLit46 ++ (spiralKeysLit47 ++ (spiralKeysLit48 ++ (spiralKeysLit49)))))))) := by
    rw [show allSteps.drop 4100 = (allSteps.drop 4100).take 100 ++ (allSteps.drop 4100).drop 100 from (List.take_append_drop 100 (allSteps.drop 4100)).symm]
    rw [segCheck_spec spiralKeysLit41 ((allSteps.drop 4100).take 100) 1120 320 (-80) 1120 spiralSeg41 ((allSteps.drop 4100).drop 100)]
    rw [List.drop_drop]
    rw [show (100 : Nat) + 4100 = 4200 from rfl]
    rw [h42]
  have h40 : (spiralFrom ⟨120, (-680)⟩ (allSteps.drop 4000)).map cellKey = spiralKeysLit40 ++ (spiralKeysLit41 ++ (spiralKeysLit42 ++ (spiralKeysLit43 ++ (spiralKeysLit44 ++ (spiralKeysLit45 ++ (spiralKeysLit46 ++ (spiralKeysLit47 ++ (spiralKeysLit48 ++ (spiralKeysLit49))))))))) := by
    rw [show allSteps.drop 4000 = (allSteps.drop 4000).take 100 ++ (allSteps.drop 4000).drop 100 from (List.take_append_drop 100 (allSteps.drop 4000)).symm]
    rw [segCheck_spec spiralKeysLit40 ((allSteps.drop 4000).take 100) 120 (-680) 1120 320 spiralSeg40 ((allSteps.drop 4000).drop 100)]
    rw [List.drop_drop]
    rw [show (100 : Nat) + 4000 = 4100 from rfl]
    rw [h41]
  have h39 : (spiralFrom ⟨-680, 520⟩ (allSteps.drop 3900)).map cellKey = spiralKeysLit39 ++ (spiralKeysLit40 ++ (spiralKeysLit41 ++ (spiralKeysLit42 ++ (spiralKeysLit43 ++ (spiralKeysLit44 ++ (spiralKeysLit45 ++ (spiralKeysLit46 ++ (spiralKeysLit47 ++ (spiralKeysLit48 ++ (spiralKeysLit49)))))))))) := by
    rw [show allSteps.drop 3900 = (allSteps.drop 3900).take 100 ++ (allSteps.drop 3900).drop 100 from (List.take_append_drop 100 (allSteps.drop 3900)).symm]
    rw [segCheck_spec spiralKeysLit39 ((allSteps.drop 3900).take 100) (-680) 520 120 (-680) spiralSeg39 ((allSteps.drop 3900).drop 100)]
    rw [List.drop_drop]
    rw [show (100 : Nat) + 3900 = 4000 from rfl]
    rw [h40]
  have h38 : (spiralFrom ⟨760, 1080⟩ (allSteps.drop 3800)).map cellKey = spiralKeysLit38 ++ (spiralKeysLit39 ++ (spiralKeysLit40 ++ (spiralKeysLit41 ++ (spiralKeysLit42 ++ (spiralKeysLit43 ++ (spiralKeysLit44 ++ (spiralKeysLit45 ++ (spiralKeysLit46 ++ (spiralKeysLit47 ++ (spiralKeysLit48 ++ (spiralKeysLit49))))))))))) := by
    rw [show allSteps.drop 3800 = (allSteps.drop 3800).take 100 ++ (allSteps.drop 3800).drop 100 from (List.take_append_drop 100 (allSteps.drop 3800)).symm]
    rw [segCheck_spec spiralKeysLit38 ((allSteps.drop 3800).take 100) 760 1080 (-680) 520 spiralSeg38 ((allSteps.drop 3800).drop 100)]
    rw [List.drop_drop]
    rw [show (100 : Nat) + 3800 = 3900 from rfl]
    rw [h39]
  have h37 : (spiralFrom ⟨1080, (-600)⟩ (allSteps.drop 3700)).map cellKey = spiralKeysLit37 ++ (spiralKeysLit38 ++ (spiralKeysLit39 ++ (spiralKeysLit40 ++ (spiralKeysLit41 ++ (spiralKeysLit42 ++ (spiralKeysLit43 ++ (spiralKeysLit44 ++ (spiralKeysLit45 ++ (spiralKeysLit46 ++ (spiralKeysLit47 ++ (spiralKeysLit48 ++ (spiralKeysLit49)))))))))))) := by
    rw [show allSteps.drop 3700 = (allSteps.drop 3700).take 100 ++ (allSteps.drop 3700).drop 100 from (List.take_append_drop 100 (allSteps.drop 3700)).symm]
    rw [segCheck_spec spiralKeysLit37 ((allSteps.drop 3700).take 100) 1080 (-600) 760 1080 spiralSeg37 ((allSteps.drop 3700).drop 100)]
    rw [List.drop_drop]
    rw [show (100 : Nat) + 3700 = 3800 from rfl]
    rw [h38]
  have h36 : (spiralFrom ⟨-640, (-400)⟩ (allSteps.drop 3600)).map cellKey = spiralKeysLit36 ++ (spiralKeysLit37 ++ (spiralKeysLit38 ++ (spiralKeysLit39 ++ (spiralKeysLit40 ++ (spiralKeysLit41 ++ (spiralKeysLit42 ++ (spiralKeysLit43 ++ (spiralKeysLit44 ++ (spiralKeysLit45 ++ (spiralKeysLit46 ++ (spiralKeysLit47 ++ (spiralKeysLit48 ++ (spiralKeysLit49))))))))))))) := by
    rw [show allSteps.drop 3600 = (allSteps.drop 3600).take 100 ++ (allSteps.drop 3600).drop 100 from (List.take_append_drop 100 (allSteps.drop 3600)).symm]
    rw [segCheck_spec spiralKeysLit36 ((allSteps.drop 3600).take 100) (-640) (-400) 1080 (-600) spiralSeg36 ((allSteps.drop 3600).drop 100)]
    rw [List.drop_drop]
    rw [show (100 : Nat) + 3600 = 3700 from rfl]
    rw [h37]
  have h35 : (spiralFrom ⟨-80, 1040⟩ (allSteps.drop 3500)).map cellKey = spiralKeysLit35 ++ (spiralKeysLit36 ++ (spiralKeysLit37 ++ (spiralKeysLit38 ++ (spiralKeysLit39 ++ (spiralKeysLit40 ++ (spiralKeysLit41 ++ (spiralKeysLit42 ++ (spiralKeysLit43 ++ (spiralKeysLit44 ++ (spiralKeysLit45 ++ (spiralKeysLit46 ++ (spiralKeysLit47 ++ (spiralKeysLit48 ++ (spiralKeysLit49)))))))))))))) := by
    rw [show allSteps.drop 3500 = (allSteps.drop 3500).take 100 ++ (allSteps.drop 3500).drop 100 from (List.take_append_drop 100 (allSteps.drop 3500)).symm]
    rw [segCheck_spec spiralKeysLit35 ((allSteps.drop 3500).take 100) (-80) 1040 (-640) (-400) spiralSeg35 ((allSteps.drop 3500).drop 100)]
    rw [List.drop_drop]
    rw [show (100 : Nat) + 3500 = 3600 from rfl]
    rw [h36]
  have h34 : (spiralFrom ⟨1040, 160⟩ (allSteps.drop 3400)).map cellKey = spiralKeysLit34 ++ (spiralKeysLit35 ++ (spiralKeysLit36 ++ (spiralKeysLit37 ++ (spiralKeysLit38 ++ (spiralKeysLit39 ++ (spiralKeysLit40 ++ (spiralKeysLit41 ++ (spiralKeysLit42 ++ (spiralKeysLit43 ++ (spiralKeysLit44 ++ (spiralKeysLit45 ++ (spiralKeysLit46 ++ (spiralKeysLit47 ++ (spiralKeysLit48 ++ (spiralKeysLit49))))))))))))))) := by
    rw [show allSteps.drop 3400 = (allSteps.drop 3400).take 100 ++ (allSteps.drop 3400).drop 100 from (List.take_append_drop 100 (allSteps.drop 3400)).symm]
    rw [segCheck_spec spiralKeysLit34 ((allSteps.drop 3400).take 100) 1040 160 (-80) 1040 spiralSeg34 ((allSteps.drop 3400).drop 100)]
    rw [List.drop_drop]
    rw [show (100 : Nat) + 3400 = 3500 from rfl]
    rw [h35]
  have h33 : (spiralFrom ⟨-200, (-600)⟩ (allSteps.drop 3300)).map cellKey = spiralKeysLit33 ++ (spiralKeysLit34 ++ (spiralKeysLit35 ++ (spiralKeysLit36 ++ (spiralKeysLit37 ++ (spiralKeysLit38 ++ (spiralKeysLit39 ++ (spiralKeysLit40 ++ (spiralKeysLit41 ++ (spiralKeysLit42 ++ (spiralKeysLit43 ++ (spiralKeysLit44 ++ (spiralKeysLit45 ++ (spiralKeysLit46 ++ (spiralKeysLit47 ++ (spiralKeysLit48 ++ (spiralKeysLit49)))))))))))))))) := by
    rw [show allSteps.drop 3300 = (allSteps.drop 3300).take 100 ++ (allSteps.drop 3300).drop 100 from (List.take_append_drop 100 (allSteps.drop 3300)).symm]
    rw [segCheck_spec spiralKeysLit33 ((allSteps.drop 3300).take 100) (-200) (-600) 1040 160 spiralSeg33 ((allSteps.drop 3300).drop 100)]
    rw [List.drop_drop]
    rw [show (100 : Nat) + 3300 = 3400 from rfl]
    rw [h34]
  have h32 : (spiralFrom ⟨-600, 1000⟩ (allSteps.drop 3200)).map cellKey = spiralKeysLit32 ++ (spiralKeysLit33 ++ (spiralKeysLit34 ++ (spiralKeysLit35 ++ (spiralKeysLit36 ++ (spiralKeysLit37 ++ (spiralKeysLit38 ++ (spiralKeysLit39 ++ (spiralKeysLit40 ++ (spiralKeysLit41 ++ (spiralKeysLit42 ++ (spiralKeysLit43 ++ (spiralKeysLit44 ++ (spiralKeysLit45 ++ (spiralKeysLit46 ++ (spiralKeysLit47 ++ (spiralKeysLit48 ++ (spiralKeysLit49))))))))))))))))) := by
    rw [show allSteps.drop 3200 = (allSteps.drop 3200).take 100 ++ (allSteps.drop 3200).drop 100 from (List.take_append_drop 100 (allSteps.drop 3200)).symm]
    rw [segCheck_spec spiralKeysLit32 ((allSteps.drop 3200).take 100) (-600) 1000 (-200) (-600) spiralSeg32 ((allSteps.drop 3200).drop 100)]
    rw [List.drop_drop]
    rw [show (100 : Nat) + 3200 = 3300 from rfl]
    rw [h33]
  have h31 : (spiralFrom ⟨1000, 600⟩ (allSteps.drop 3100)).map cellKey = spiralKeysLit31 ++ (spiralKeysLit32 ++ (spiralKeysLit33 ++ (spiralKeysLit34 ++ (spiralKeysLit35 ++ (spiralKeysLit36 ++ (spiralKeysLit37 ++ (spiralKeysLit38 ++ (spiralKeysLit39 ++ (spiralKeysLit40 ++ (spiralKeysLit41 ++ (spiralKeysLit42 ++ (spiralKeysLit43 ++ (spiralKeysLit44 ++ (spiralKeysLit45 ++ (spiralKeysLit46 ++ (spiralKeysLit47 ++ (spiralKeysLit48 ++ (spiralKeysLit49)))))))))))))))))) := by
    rw [show allSteps.drop 3100 = (allSteps.drop 3100).take 100 ++ (allSteps.drop 3100).drop 100 from (List.take_append_drop 100 (allSteps.drop 3100)).symm]
    rw [segCheck_spec spiralKeysLit31 ((allSteps.drop 3100).take 100) 1000 600 (-600) 1000 spiralSeg31 ((allSteps.drop 3100).drop 100)]
    rw [List.drop_drop]
    rw [show (100 : Nat) + 3100 = 3200 from rfl]
    rw [h32]
  have h30 : (spiralFrom ⟨160, (-560)⟩ (allSteps.drop 3000)).map cellKey = spiralKeysLit30 ++ (spiralKeysLit31 ++ (spiralKeysLit32 ++ (spiralKeysLit33 ++ (spiralKeysLit34 ++ (spiralKeysLit35 ++ (spiralKeysLit36 ++ (spiralKeysLit37 ++ (spiralKeysLit38 ++ (spiralKeysLit39 ++ (spiralKeysLit40 ++ (spiralKeysLit41 ++ (spiralKeysLit42 ++ (spiralKeysLit43 ++ (spiralKeysLit44 ++ (spiralKeysLit45 ++ (spiralKeysLit46 ++ (spiralKeysLit47 ++ (spiralKeysLit48 ++ (spiralKeysLit49))))))))))))))))))) := by
    rw [show allSteps.drop 3000 = (allSteps.drop 3000).take 100 ++ (allSteps.drop 3000).drop 100 from (List.take_append_drop 100 (allSteps.drop 3000)).symm]
    rw [segCheck_spec spiralKeysLit30 ((allSteps.drop 3000).take 100) 160 (-560) 1000 600 spiralSeg30 ((allSteps.drop 3000).drop 100)]
    rw [List.drop_drop]
    rw [show (100 : Nat) + 3000 = 3100 from rfl]
    rw [h31]
  have h29 : (spiralFrom ⟨-560, 720⟩ (allSteps.drop 2900)).map cellKey = spiralKeysLit29 ++ (spiralKeysLit30 ++ (spiralKeysLit31 ++ (spiralKeysLit32 ++ (spiralKeysLit33 ++ (spiralKeysLit34 ++ (spiralKeysLit35 ++ (spiralKeysLit36 ++ (spiralKeysLit37 ++ (spiralKeysLit38 ++ (spiralKeysLit39 ++ (spiralKeysLit40 ++ (spiralKeysLit41 ++ (spiralKeysLit42 ++ (spiralKeysLit43 ++ (spiralKeysLit44 ++ (spiralKeysLit45 ++ (spiralKeysLit46 ++ (spiralKeysLit47 ++ (spiralKeysLit48 ++ (spiralKeysLit49)))))))))))))))))))) := by
    rw [show allSteps.drop 2900 = (allSteps.drop 2900).take 100 ++ (allSteps.drop 2900).drop 100 from (List.take_append_drop 100 (allSteps.drop 2900)).symm]
    rw [segCheck_spec spiralKeysLit29 ((allSteps.drop 2900).take 100) (-560) 720 160 (-560) spiralSeg29 ((allSteps.drop 2900).drop 100)]
    rw [List.drop_drop]
    rw [show (100 : Nat) + 2900 = 3000 from rfl]
    rw [h30]
  have h28 : (spiralFrom ⟨960, 720⟩ (allSteps.drop 2800)).map cellKey = spiralKeysLit28 ++ (spiralKeysLit29 ++ (spiralKeysLit30 ++ (spiralKeysLit31 ++ (spiralKeysLit32 ++ (spiralKeysLit33 ++ (spiralKeysLit34 ++ (spiralKeysLit35 ++ (spiralKeysLit36 ++ (spiralKeysLit37 ++ (spiralKeysLit38 ++ (spiralKeysLit39 ++ (spiralKeysLit40 ++ (spiralKeysLit41 ++ (spiralKeysLit42 ++ (spiralKeysLit43 ++ (spiralKeysLit44 ++ (spiralKeysLit45 ++ (spiralKeysLit46 ++ (spiralKeysLit47 ++ (spiralKeysLit48 ++ (spiralKeysLit49))))))))))))))))))))) := by
    rw [show allSteps.drop 2800 = (allSteps.drop 2800).take 100 ++ (allSteps.drop 2800).drop 100 from (List.take_append_drop 100 (allSteps.drop 2800)).symm]
    rw [segCheck_spec spiralKeysLit28 ((allSteps.drop 2800).take 100) 960 720 (-560) 720 spiralSeg28 ((allSteps.drop 2800).drop 100)]
    rw [List.drop_drop]
    rw [show (100 : Nat) + 2800 = 2900 from rfl]
    rw [h29]
  have h27 : (spiralFrom ⟨200, (-520)⟩ (allSteps.drop 2700)).map cellKey = spiralKeysLit27 ++ (spiralKeysLit28 ++ (spiralKeysLit29 ++ (spiralKeysLit30 ++ (spiralKeysLit31 ++ (spiralKeysLit32 ++ (spiralKeysLit33 ++ (spiralKeysLit34 ++ (spiralKeysLit35 ++ (spiralKeysLit36 ++ (spiralKeysLit37 ++ (spiralKeysLit38 ++ (spiralKeysLit39 ++ (spiralKeysLit40 ++ (spiralKeysLit41 ++ (spiralKeysLit42 ++ (spiralKeysLit43 ++ (spiralKeysLit44 ++ (spiralKeysLit45 ++ (spiralKeysLit46 ++ (spiralKeysLit47 ++ (spiralKeysLit48 ++ (spiralKeysLit49)))))))))))))))))))))) := by
    rw [show allSteps.drop 2700 = (allSteps.drop 2700).take 100 ++ (allSteps.drop 2700).drop 100 from (List.take_append_drop 100 (allSteps.drop 2700)).symm]
    rw [segCheck_spec spiralKeysLit27 ((allSteps.drop 2700).take 100) 200 (-520) 960 720 spiralSeg27 ((allSteps.drop 2700).drop 100)]
    rw [List.drop_drop]
    rw [show (100 : Nat) + 2700 = 2800 from rfl]
    rw [h28]
  have h26 : (spiralFrom ⟨-520, 760⟩ (allSteps.drop 2600)).map cellKey = spiralKeysLit26 ++ (spiralKeysLit27 ++ (spiralKeysLit28 ++ (spiralKeysLit29 ++ (spiralKeysLit30 ++ (spiralKeysLit31 ++ (spiralKeysLit32 ++ (spiralKeysLit33 ++ (spiralKeysLit34 ++ (spiralKeysLit35 ++ (spiralKeysLit36 ++ (spiralKeysLit37 ++ (spiralKeysLit38 ++ (spiralKeysLit39 ++ (spiralKeysLit40 ++ (spiralKeysLit41 ++ (spiralKeysLit42 ++ (spiralKeysLit43 ++ (spiralKeysLit44 ++ (spiralKeysLit45 ++ (spiralKeysLit46 ++ (spiralKeysLit47 ++ (spiralKeysLit48 ++ (spiralKeysLit49))))))))))))))))))))))) := by
    rw [show allSteps.drop 2600 = (allSteps.drop 2600).take 100 ++ (allSteps.drop 2600).drop 100 from (List.take_append_drop 100 (allSteps.drop 2600)).symm]
    rw [segCheck_spec spiralKeysLit26 ((allSteps.drop 2600).take 100) (-520) 760 200 (-520) spiralSeg26 ((allSteps.drop 2600).drop 100)]
    rw [List.drop_drop]
    rw [show (100 : Nat) + 2600 = 2700 from rfl]
    rw [h27]
  have h25 : (spiralFrom ⟨920, 520⟩ (allSteps.drop 2500)).map cellKey = spiralKeysLit25 ++ (spiralKeysLit26 ++ (spiralKeysLit27 ++ (spiralKeysLit28 ++ (spiralKeysLit29 ++ (spiralKeysLit30 ++ (spiralKeysLit31 ++ (spiralKeysLit32 ++ (spiralKeysLit33 ++ (spiralKeysLit34 ++ (spiralKeysLit35 ++ (spiralKeysLit36 ++ (spiralKeysLit37 ++ (spiralKeysLit38 ++ (spiralKeysLit39 ++ (spiralKeysLit40 ++ (spiralKeysLit41 ++ (spiralKeysLit42 ++ (spiralKeysLit43 ++ (spiralKeysLit44 ++ (spiralKeysLit45 ++ (spiralKeysLit46 ++ (spiralKeysLit47 ++ (spiralKeysLit48 ++ (spiralKeysLit49)))))))))))))))))))))))) := by
    rw [show allSteps.drop 2500 = (allSteps.drop 2500).take 100 ++ (allSteps.drop 2500).drop 100 from (List.take_append_drop 100 (allSteps.drop 2500)).symm]
    rw [segCheck_spec spiralKeysLit25 ((allSteps.drop 2500).take 100) 920 520 (-520) 760 spiralSeg25 ((allSteps.drop 2500).drop 100)]
    rw [List.drop_drop]
    rw [show (100 : Nat) + 2500 = 2600 from rfl]
    rw [h26]
  have h24 : (spiralFrom ⟨-80, (-480)⟩ (allSteps.drop 2400)).map cellKey = spiralKeysLit24 ++ (spiralKeysLit25 ++ (spiralKeysLit26 ++ (spiralKeysLit27 ++ (spiralKeysLit28 ++ (spiralKeysLit29 ++ (spiralKeysLit30 ++ (spiralKeysLit31 ++ (spiralKeysLit32 ++ (spiralKeysLit33 ++ (spiralKeysLit34 ++ (spiralKeysLit35 ++ (spiralKeysLit36 ++ (spiralKeysLit37 ++ (spiralKeysLit38 ++ (spiralKeysLit39 ++ (spiralKeysLit40 ++ (spiralKeysLit41 ++ (spiralKeysLit42 ++ (spiralKeysLit43 ++ (spiralKeysLit44 ++ (spiralKeysLit45 ++ (spiralKeysLit46 ++ (spiralKeysLit47 ++ (spiralKeysLit48 ++ (spiralKeysLit49))))))))))))))))))))))))) := by
    rw [show allSteps.drop 2400 = (allSteps.drop 2400).take 100 ++ (allSteps.drop 2400).drop 100 from (List.take_append_drop 100 (allSteps.drop 2400)).symm]
    rw [segCheck_spec spiralKeysLit24 ((allSteps.drop 2400).take 100) (-80) (-480) 920 520 spiralSeg24 ((allSteps.drop 2400).drop 100)]
    rw [List.drop_drop]
    rw [show (100 : Nat) + 2400 = 2500 from rfl]
    rw [h25]
  have h23 : (spiralFrom ⟨-240, 880⟩ (allSteps.drop 2300)).map cellKey = spiralKeysLit23 ++ (spiralKeysLit24 ++ (spiralKeysLit25 ++ (spiralKeysLit26 ++ (spiralKeysLit27 ++ (spiralKeysLit28 ++ (spiralKeysLit29 ++ (spiralKeysLit30 ++ (spiralKeysLit31 ++ (spiralKeysLit32 ++ (spiralKeysLit33 ++ (spiralKeysLit34 ++ (spiralKeysLit35 ++ (spiralKeysLit36 ++ (spiralKeysLit37 ++ (spiralKeysLit38 ++ (spiralKeysLit39 ++ (spiralKeysLit40 ++ (spiralKeysLit41 ++ (spiralKeysLit42 ++ (spiralKeysLit43 ++ (spiralKeysLit44 ++ (spiralKeysLit45 ++ (spiralKeysLit46 ++ (spiralKeysLit47 ++ (spiralKeysLit48 ++ (spiralKeysLit49)))))))))))))))))))))))))) := by
    rw [show allSteps.drop 2300 = (allSteps.drop 2300).take 100 ++ (allSteps.drop 2300).drop 100 from (List.take_append_drop 100 (allSteps.drop 2300)).symm]
    rw [segCheck_spec spiralKeysLit23 ((allSteps.drop 2300).take 100) (-240) 880 (-80) (-480) spiralSeg23 ((allSteps.drop 2300).drop 100)]
    rw [List.drop_drop]
    rw [show (100 : Nat) + 2300 = 2400 from rfl]
    rw [h24]
  have h22 : (spiralFrom ⟨880, 0⟩ (allSteps.drop 2200)).map cellKey = spiralKeysLit22 ++ (spiralKeysLit23 ++ (spiralKeysLit24 ++ (spiralKeysLit25 ++ (spiralKeysLit26 ++ (spiralKeysLit27 ++ (spiralKeysLit28 ++ (spiralKeysLit29 ++ (spiralKeysLit30 ++ (spiralKeysLit31 ++ (spiralKeysLit32 ++ (spiralKeysLit33 ++ (spiralKeysLit34 ++ (spiralKeysLit35 ++ (spiralKeysLit36 ++ (spiralKeysLit37 ++ (spiralKeysLit38 ++ (spiralKeysLit39 ++ (spiralKeysLit40 ++ (spiralKeysLit41 ++ (spiralKeysLit42 ++ (spiralKeysLit43 ++ (spiralKeysLit44 ++ (spiralKeysLit45 ++ (spiralKeysLit46 ++ (spiralKeysLit47 ++ (spiralKeysLit48 ++ (spiralKeysLit49))))))))))))))))))))))))))) := by
    rw [show allSteps.drop 2200 = (allSteps.drop 2200).take 100 ++ (allSteps.drop 2200).drop 100 from (List.take_append_drop 100 (allSteps.drop 2200)).symm]
    rw [segCheck_spec spiralKeysLit22 ((allSteps.drop 2200).take 100) 880 0 (-240) 880 spiralSeg22 ((allSteps.drop 2200).drop 100)]
    rw [List.drop_drop]
    rw [show (100 : Nat) + 2200 = 2300 from rfl]
    rw [h23]
  have h21 : (spiralFrom ⟨-440, (-200)⟩ (allSteps.drop 2100)).map cellKey = spiralKeysLit21 ++ (spiralKeysLit22 ++ (spiralKeysLit23 ++ (spiralKeysLit24 ++ (spiralKeysLit25 ++ (spiralKeysLit26 ++ (spiralKeysLit27 ++ (spiralKeysLit28 ++ (spiralKeysLit29 ++ (spiralKeysLit30 ++ (spiralKeysLit31 ++ (spiralKeysLit32 ++ (spiralKeysLit33 ++ (spiralKeysLit34 ++ (spiralKeysLit35 ++ (spiralKeysLit36 ++ (spiralKeysLit37 ++ (spiralKeysLit38 ++ (spiralKeysLit39 ++ (spiralKeysLit40 ++ (spiralKeysLit41 ++ (spiralKeysLit42 ++ (spiralKeysLit43 ++ (spiralKeysLit44 ++ (spiralKeysLit45 ++ (spiralKeysLit46 ++ (spiralKeysLit47 ++ (spiralKeysLit48 ++ (spiralKeysLit49)))))))))))))))))))))))))))) := by
    rw [show allSteps.drop 2100 = (allSteps.drop 2100).take 100 ++ (allSteps.drop 2100).drop 100 from (List.take_append_drop 100 (allSteps.drop 2100)).symm]
    rw [segCheck_spec spiralKeysLit21 ((allSteps.drop 2100).take 100) (-440) (-200) 880 0 spiralSeg21 ((allSteps.drop 2100).drop 100)]
    rw [List.drop_drop]
    rw [show (100 : Nat) + 2100 = 2200 from rfl]
    rw [h22]
  have h20 : (spiralFrom ⟨520, 840⟩ (allSteps.drop 2000)).map cellKey = spiralKeysLit20 ++ (spiralKeysLit21 ++ (spiralKeysLit22 ++ (spiralKeysLit23 ++ (spiralKeysLit24 ++ (spiralKeysLit25 ++ (spiralKeysLit26 ++ (spiralKeysLit27 ++ (spiralKeysLit28 ++ (spiralKeysLit29 ++ (spiralKeysLit30 ++ (spiralKeysLit31 ++ (spiralKeysLit32 ++ (spiralKeysLit33 ++ (spiralKeysLit34 ++ (spiralKeysLit35 ++ (spiralKeysLit36 ++ (spiralKeysLit37 ++ (spiralKeysLit38 ++ (spiralKeysLit39 ++ (spiralKeysLit40 ++ (spiralKeysLit41 ++ (spiralKeysLit42 ++ (spiralKeysLit43 ++ (spiralKeysLit44 ++ (spiralKeysLit45 ++ (spiralKeysLit46 ++ (spiralKeysLit47 ++ (spiralKeysLit48 ++ (spiralKeysLit49))))))))))))))))))))))))))))) := by
    rw [show allSteps.drop 2000 = (allSteps.drop 2000).take 100 ++ (allSteps.drop 2000).drop 100 from (List.take_append_drop 100 (allSteps.drop 2000)).symm]
    rw [segCheck_spec spiralKeysLit20 ((allSteps.drop 2000).take 100) 520 840 (-440) (-200) spiralSeg20 ((allSteps.drop 2000).drop 100)]
    rw [List.drop_drop]
    rw [show (100 : Nat) + 2000 = 2100 from rfl]
    rw [h21]
  have h19 : (spiralFrom ⟨400, (-400)⟩ (allSteps.drop 1900)).map cellKey = spiralKeysLit19 ++ (spiralKeysLit20 ++ (spiralKeysLit21 ++ (spiralKeysLit22 ++ (spiralKeysLit23 ++ (spiralKeysLit24 ++ (spiralKeysLit25 ++ (spiralKeysLit26 ++ (spiralKeysLit27 ++ (spiralKeysLit28 ++ (spiralKeysLit29 ++ (spiralKeysLit30 ++ (spiralKeysLit31 ++ (spiralKeysLit32 ++ (spiralKeysLit33 ++ (spiralKeysLit34 ++ (spiralKeysLit35 ++ (spiralKeysLit36 ++ (spiralKeysLit37 ++ (spiralKeysLit38 ++ (spiralKeysLit39 ++ (spiralKeysLit40 ++ (spiralKeysLit41 ++ (spiralKeysLit42 ++ (spiralKeysLit43 ++ (spiralKeysLit44 ++ (spiralKeysLit45 ++ (spiralKeysLit46 ++ (spiralKeysLit47 ++ (spiralKeysLit48 ++ (spiralKeysLit49)))))))))))))))))))))))))))))) := by
    rw [show allSteps.drop 1900 = (allSteps.drop 1900).take 100 ++ (allSteps.drop 1900).drop 100 from (List.take_append_drop 100 (allSteps.drop 1900)).symm]
    rw [segCheck_spec spiralKeysLit19 ((allSteps.drop 1900).take 100) 400 (-400) 520 840 spiralSeg19 ((allSteps.drop 1900).drop 100)]
    rw [List.drop_drop]
    rw [show (100 : Nat) + 1900 = 2000 from rfl]
    rw [h20]
  have h18 : (spiralFrom ⟨-400, 800⟩ (allSteps.drop 1800)).map cellKey = spiralKeysLit18 ++ (spiralKeysLit19 ++ (spiralKeysLit20 ++ (spiralKeysLit21 ++ (spiralKeysLit22 ++ (spiralKeysLit23 ++ (spiralKeysLit24 ++ (spiralKeysLit25 ++ (spiralKeysLit26 ++ (spiralKeysLit27 ++ (spiralKeysLit28 ++ (spiralKeysLit29 ++ (spiralKeysLit30 ++ (spiralKeysLit31 ++ (spiralKeysLit32 ++ (spiralKeysLit33 ++ (spiralKeysLit34 ++ (spiralKeysLit35 ++ (spiralKeysLit36 ++ (spiralKeysLit37 ++ (spiralKeysLit38 ++ (spiralKeysLit39 ++ (spiralKeysLit40 ++ (spiralKeysLit41 ++ (spiralKeysLit42 ++ (spiralKeysLit43 ++ (spiralKeysLit44 ++ (spiralKeysLit45 ++ (spiralKeysLit46 ++ (spiralKeysLit47 ++ (spiralKeysLit48 ++ (spiralKeysLit49))))))))))))))))))))))))))))))) := by
    rw [show allSteps.drop 1800 = (allSteps.drop 1800).take 100 ++ (allSteps.drop 1800).drop 100 from (List.take_append_drop 100 (allSteps.drop 1800)).symm]
    rw [segCheck_spec spiralKeysLit18 ((allSteps.drop 1800).take 100) (-400) 800 400 (-400) spiralSeg18 ((allSteps.drop 1800).drop 100)]
    rw [List.drop_drop]
    rw [show (100 : Nat) + 1800 = 1900 from rfl]
    rw [h19]
  have h17 : (spiralFrom ⟨800, 0⟩ (allSteps.drop 1700)).map cellKey = spiralKeysLit17 ++ (spiralKeysLit18 ++ (spiralKeysLit19 ++ (spiralKeysLit20 ++ (spiralKeysLit21 ++ (spiralKeysLit22 ++ (spiralKeysLit23 ++ (spiralKeysLit24 ++ (spiralKeysLit25 ++ (spiralKeysLit26 ++ (spiralKeysLit27 ++ (spiralKeysLit28 ++ (spiralKeysLit29 ++ (spiralKeysLit30 ++ (spiralKeysLit31 ++ (spiralKeysLit32 ++ (spiralKeysLit33 ++ (spiralKeysLit34 ++ (spiralKeysLit35 ++ (spiralKeysLit36 ++ (spiralKeysLit37 ++ (spiralKeysLit38 ++ (spiralKeysLit39 ++ (spiralKeysLit40 ++ (spiralKeysLit41 ++ (spiralKeysLit42 ++ (spiralKeysLit43 ++ (spiralKeysLit44 ++ (spiralKeysLit45 ++ (spiralKeysLit46 ++ (spiralKeysLit47 ++ (spiralKeysLit48 ++ (spiralKeysLit49)))))))))))))))))))))))))))))))) := by
    rw [show allSteps.drop 1700 = (allSteps.drop 1700).take 100 ++ (allSteps.drop 1700).drop 100 from (List.take_append_drop 100 (allSteps.drop 1700)).symm]
    rw [segCheck_spec spiralKeysLit17 ((allSteps.drop 1700).take 100) 800 0 (-400) 800 spiralSeg17 ((allSteps.drop 1700).drop 100)]
    rw [List.drop_drop]
    rw [show (100 : Nat) + 1700 = 1800 from rfl]
    rw [h18]
  have h16 : (spiralFrom ⟨-360, 120⟩ (allSteps.drop 1600)).map cellKey = spiralKeysLit16 ++ (spiralKeysLit17 ++ (spiralKeysLit18 ++ (spiralKeysLit19 ++ (spiralKeysLit20 ++ (spiralKeysLit21 ++ (spiralKeysLit22 ++ (spiralKeysLit23 ++ (spiralKeysLit24 ++ (spiralKeysLit25 ++ (spiralKeysLit26 ++ (spiralKeysLit27 ++ (spiralKeysLit28 ++ (spiralKeysLit29 ++ (spiralKeysLit30 ++ (spiralKeysLit31 ++ (spiralKeysLit32 ++ (spiralKeysLit33 ++ (spiralKeysLit34 ++ (spiralKeysLit35 ++ (spiralKeysLit36 ++ (spiralKeysLit37 ++ (spiralKeysLit38 ++ (spiralKeysLit39 ++ (spiralKeysLit40 ++ (spiralKeysLit41 ++ (spiralKeysLit42 ++ (spiralKeysLit43 ++ (spiralKeysLit44 ++ (spiralKeysLit45 ++ (spiralKeysLit46 ++ (spiralKeysLit47 ++ (spiralKeysLit48 ++ (spiralKeysLit49))))))))))))))))))))))))))))))))) := by
    rw [show allSteps.drop 1600 = (allSteps.drop 1600).take 100 ++ (allSteps.drop 1600).drop 100 from (List.take_append_drop 100 (allSteps.drop 1600)).symm]
    rw [segCheck_spec spiralKeysLit16 ((allSteps.drop 1600).take 100) (-360) 120 800 0 spiralSeg16 ((allSteps.drop 1600).drop 100)]
    rw [List.drop_drop]
    rw [show (100 : Nat) + 1600 = 1700 from rfl]
    rw [h17]
  have h15 : (spiralFrom ⟨760, 520⟩ (allSteps.drop 1500)).map cellKey = spiralKeysLit15 ++ (spiralKeysLit16 ++ (spiralKeysLit17 ++ (spiralKeysLit18 ++ (spiralKeysLit19 ++ (spiralKeysLit20 ++ (spiralKeysLit21 ++ (spiralKeysLit22 ++ (spiralKeysLit23 ++ (spiralKeysLit24 ++ (spiralKeysLit25 ++ (spiralKeysLit26 ++ (spiralKeysLit27 ++ (spiralKeysLit28 ++ (spiralKeysLit29 ++ (spiralKeysLit30 ++ (spiralKeysLit31 ++ (spiralKeysLit32 ++ (spiralKeysLit33 ++ (spiralKeysLit34 ++ (spiralKeysLit35 ++ (spiralKeysLit36 ++ (spiralKeysLit37 ++ (spiralKeysLit38 ++ (spiralKeysLit39 ++ (spiralKeysLit40 ++ (spiralKeysLit41 ++ (spiralKeysLit42 ++ (spiralKeysLit43 ++ (spiralKeysLit44 ++ (spiralKeysLit45 ++ (spiralKeysLit46 ++ (spiralKeysLit47 ++ (spiralKeysLit48 ++ (spiralKeysLit49)))))))))))))))))))))))))))))))))) := by
    rw [show allSteps.drop 1500 = (allSteps.drop 1500).take 100 ++ (allSteps.drop 1500).drop 100 from (List.take_append_drop 100 (allSteps.drop 1500)).symm]
    rw [segCheck_spec spiralKeysLit15 ((allSteps.drop 1500).take 100) 760 520 (-360) 120 spiralSeg15 ((allSteps.drop 1500).drop 100)]
    rw [List.drop_drop]
    rw [show (100 : Nat) + 1500 = 1600 from rfl]
    rw [h16]
  have h14 : (spiralFrom ⟨-320, (-240)⟩ (allSteps.drop 1400)).map cellKey = spiralKeysLit14 ++ (spiralKeysLit15 ++ (spiralKeysLit16 ++ (spiralKeysLit17 ++ (spiralKeysLit18 ++ (spiralKeysLit19 ++ (spiralKeysLit20 ++ (spiralKeysLit21 ++ (spiralKeysLit22 ++ (spiralKeysLit23 ++ (spiralKeysLit24 ++ (spiralKeysLit25 ++ (spiralKeysLit26 ++ (spiralKeysLit27 ++ (spiralKeysLit28 ++ (spiralKeysLit29 ++ (spiralKeysLit30 ++ (spiralKeysLit31 ++ (spiralKeysLit32 ++ (spiralKeysLit33 ++ (spiralKeysLit34 ++ (spiralKeysLit35 ++ (spiralKeysLit36 ++ (spiralKeysLit37 ++ (spiralKeysLit38 ++ (spiralKeysLit39 ++ (spiralKeysLit40 ++ (spiralKeysLit41 ++ (spiralKeysLit42 ++ (spiralKeysLit43 ++ (spiralKeysLit44 ++ (spiralKeysLit45 ++ (spiralKeysLit46 ++ (spiralKeysLit47 ++ (spiralKeysLit48 ++ (spiralKeysLit49))))))))))))))))))))))))))))))))))) := by
    rw [show allSteps.drop 1400 = (allSteps.drop 1400).take 100 ++ (allSteps.drop 1400).drop 100 from (List.take_append_drop 100 (allSteps.drop 1400)).symm]
    rw [segCheck_spec spiralKeysLit14 ((allSteps.drop 1400).take 100) (-320) (-240) 760 520 spiralSeg14 ((allSteps.drop 1400).drop 100)]
    rw [List.drop_drop]
    rw [show (100 : Nat) + 1400 = 1500 from rfl]
    rw [h15]
  have h13 : (spiralFrom ⟨720, 720⟩ (allSteps.drop 1300)).map cellKey = spiralKeysLit13 ++ (spiralKeysLit14 ++ (spiralKeysLit15 ++ (spiralKeysLit16 ++ (spiralKeysLit17 ++ (spiralKeysLit18 ++ (spiralKeysLit19 ++ (spiralKeysLit20 ++ (spiralKeysLit21 ++ (spiralKeysLit22 ++ (spiralKeysLit23 ++ (spiralKeysLit24 ++ (spiralKeysLit25 ++ (spiralKeysLit26 ++ (spiralKeysLit27 ++ (spiralKeysLit28 ++ (spiralKeysLit29 ++ (spiralKeysLit30 ++ (spiralKeysLit31 ++ (spiralKeysLit32 ++ (spiralKeysLit33 ++ (spiralKeysLit34 ++ (spiralKeysLit35 ++ (spiralKeysLit36 ++ (spiralKeysLit37 ++ (spiralKeysLit38 ++ (spiralKeysLit39 ++ (spiralKeysLit40 ++ (spiralKeysLit41 ++ (spiralKeysLit42 ++ (spiralKeysLit43 ++ (spiralKeysLit44 ++ (spiralKeysLit45 ++ (spiralKeysLit46 ++ (spiralKeysLit47 ++ (spiralKeysLit48 ++ (spiralKeysLit49)))))))))))))))))))))))))))))))))))) := by
    rw [show allSteps.drop 1300 = (allSteps.drop 1300).take 100 ++ (allSteps.drop 1300).drop 100 from (List.take_append_drop 100 (allSteps.drop 1300)).symm]
    rw [segCheck_spec spiralKeysLit13 ((allSteps.drop 1300).take 100) 720 720 (-320) (-240) spiralSeg13 ((allSteps.drop 1300).drop 100)]
    rw [List.drop_drop]
    rw [show (100 : Nat) + 1300 = 1400 from rfl]
    rw [h14]
  have h12 : (spiralFrom ⟨-280, (-280)⟩ (allSteps.drop 1200)).map cellKey = spiralKeysLit12 ++ (spiralKeysLit13 ++ (spiralKeysLit14 ++ (spiralKeysLit15 ++ (spiralKeysLit16 ++ (spiralKeysLit17 ++ (spiralKeysLit18 ++ (spiralKeysLit19 ++ (spiralKeysLit20 ++ (spiralKeysLit21 ++ (spiralKeysLit22 ++ (spiralKeysLit23 ++ (spiralKeysLit24 ++ (spiralKeysLit25 ++ (spiralKeysLit26 ++ (spiralKeysLit27 ++ (spiralKeysLit28 ++ (spiralKeysLit29 ++ (spiralKeysLit30 ++ (spiralKeysLit31 ++ (spiralKeysLit32 ++ (spiralKeysLit33 ++ (spiralKeysLit34 ++ (spiralKeysLit35 ++ (spiralKeysLit36 ++ (spiralKeysLit37 ++ (spiralKeysLit38 ++ (spiralKeysLit39 ++ (spiralKeysLit40 ++ (spiralKeysLit41 ++ (spiralKeysLit42 ++ (spiralKeysLit43 ++ (spiralKeysLit44 ++ (spiralKeysLit45 ++ (spiralKeysLit46 ++ (spiralKeysLit47 ++ (spiralKeysLit48 ++ (spiralKeysLit49))))))))))))))))))))))))))))))))))))) := by
    rw [show allSteps.drop 1200 = (allSteps.drop 1200).take 100 ++ (allSteps.drop 1200).drop 100 from (List.take_append_drop 100 (allSteps.drop 1200)).symm]
    rw [segCheck_spec spiralKeysLit12 ((allSteps.drop 1200).take 100) (-280) (-280) 720 720 spiralSeg12 ((allSteps.drop 1200).drop 100)]
    rw [List.drop_drop]
    rw [show (100 : Nat) + 1200 = 1300 from rfl]
    rw [h13]
  have h11 : (spiralFrom ⟨680, 600⟩ (allSteps.drop 1100)).map cellKey = spiralKeysLit11 ++ (spiralKeysLit12 ++ (spiralKeysLit13 ++ (spiralKeysLit14 ++ (spiralKeysLit15 ++ (spiralKeysLit16 ++ (spiralKeysLit17 ++ (spiralKeysLit18 ++ (spiralKeysLit19 ++ (spiralKeysLit20 ++ (spiralKeysLit21 ++ (spiralKeysLit22 ++ (spiralKeysLit23 ++ (spiralKeysLit24 ++ (spiralKeysLit25 ++ (spiralKeysLit26 ++ (spiralKeysLit27 ++ (spiralKeysLit28 ++ (spiralKeysLit29 ++ (spiralKeysLit30 ++ (spiralKeysLit31 ++ (spiralKeysLit32 ++ (spiralKeysLit33 ++ (spiralKeysLit34 ++ (spiralKeysLit35 ++ (spiralKeysLit36 ++ (spiralKeysLit37 ++ (spiralKeysLit38 ++ (spiralKeysLit39 ++ (spiralKeysLit40 ++ (spiralKeysLit41 ++ (spiralKeysLit42 ++ (spiralKeysLit43 ++ (spiralKeysLit44 ++ (spiralKeysLit45 ++ (spiralKeysLit46 ++ (spiralKeysLit47 ++ (spiralKeysLit48 ++ (spiralKeysLit49)))))))))))))))))))))))))))))))))))))) := by
    rw [show allSteps.drop 1100 = (allSteps.drop 1100).take 100 ++ (allSteps.drop 1100).drop 100 from (List.take_append_drop 100 (allSteps.drop 1100)).symm]
    rw [segCheck_spec spiralKeysLit11 ((allSteps.drop 1100).take 100) 680 600 (-280) (-280) spiralSeg11 ((allSteps.drop 1100).drop 100)]
    rw [List.drop_drop]
    rw [show (100 : Nat) + 1100 = 1200 from rfl]
    rw [h12]
  have h10 : (spiralFrom ⟨-240, 0⟩ (allSteps.drop 1000)).map cellKey = spiralKeysLit10 ++ (spiralKeysLit11 ++ (spiralKeysLit12 ++ (spiralKeysLit13 ++ (spiralKeysLit14 ++ (spiralKeysLit15 ++ (spiralKeysLit16 ++ (spiralKeysLit17 ++ (spiralKeysLit18 ++ (spiralKeysLit19 ++ (spiralKeysLit20 ++ (spiralKeysLit21 ++ (spiralKeysLit22 ++ (spiralKeysLit23 ++ (spiralKeysLit24 ++ (spiralKeysLit25 ++ (spiralKeysLit26 ++ (spiralKeysLit27 ++ (spiralKeysLit28 ++ (spiralKeysLit29 ++ (spiralKeysLit30 ++ (spiralKeysLit31 ++ (spiralKeysLit32 ++ (spiralKeysLit33 ++ (spiralKeysLit34 ++ (spiralKeysLit35 ++ (spiralKeysLit36 ++ (spiralKeysLit37 ++ (spiralKeysLit38 ++ (spiralKeysLit39 ++ (spiralKeysLit40 ++ (spiralKeysLit41 ++ (spiralKeysLit42 ++ (spiralKeysLit43 ++ (spiralKeysLit44 ++ (spiralKeysLit45 ++ (spiralKeysLit46 ++ (spiralKeysLit47 ++ (spiralKeysLit48 ++ (spiralKeysLit49))))))))))))))))))))))))))))))))))))))) := by
    rw [show allSteps.drop 1000 = (allSteps.drop 1000).take 100 ++ (allSteps.drop 1000).drop 100 from (List.take_append_drop 100 (allSteps.drop 1000)).symm]
    rw [segCheck_spec spiralKeysLit10 ((allSteps.drop 1000).take 100) (-240) 0 680 600 spiralSeg10 ((allSteps.drop 1000).drop 100)]
    rw [List.drop_drop]
    rw [show (100 : Nat) + 1000 = 1100 from rfl]
    rw [h11]
  have h9 : (spiralFrom ⟨640, 160⟩ (allSteps.drop 900)).map cellKey = spiralKeysLit9 ++ (spiralKeysLit10 ++ (spiralKeysLit11 ++ (spiralKeysLit12 ++ (spiralKeysLit13 ++ (spiralKeysLit14 ++ (spiralKeysLit15 ++ (spiralKeysLit16 ++ (spiralKeysLit17 ++ (spiralKeysLit18 ++ (spiralKeysLit19 ++ (spiralKeysLit20 ++ (spiralKeysLit21 ++ (spiralKeysLit22 ++ (spiralKeysLit23 ++ (spiralKeysLit24 ++ (spiralKeysLit25 ++ (spiralKeysLit26 ++ (spiralKeysLit27 ++ (spiralKeysLit28 ++ (spiralKeysLit29 ++ (spiralKeysLit30 ++ (spiralKeysLit31 ++ (spiralKeysLit32 ++ (spiralKeysLit33 ++ (spiralKeysLit34 ++ (spiralKeysLit35 ++ (spiralKeysLit36 ++ (spiralKeysLit37 ++ (spiralKeysLit38 ++ (spiralKeysLit39 ++ (spiralKeysLit40 ++ (spiralKeysLit41 ++ (spiralKeysLit42 ++ (spiralKeysLit43 ++ (spiralKeysLit44 ++ (spiralKeysLit45 ++ (spiralKeysLit46 ++ (spiralKeysLit47 ++ (spiralKeysLit48 ++ (spiralKeysLit49)))))))))))))))))))))))))))))))))))))))) := by
    rw [show allSteps.drop 900 = (allSteps.drop 900).take 100 ++ (allSteps.drop 900).drop 100 from (List.take_append_drop 100 (allSteps.drop 900)).symm]
    rw [segCheck_spec spiralKeysLit9 ((allSteps.drop 900).take 100) 640 160 (-240) 0 spiralSeg9 ((allSteps.drop 900).drop 100)]
    rw [List.drop_drop]
    rw [show (100 : Nat) + 900 = 1000 from rfl]
    rw [h10]
  have h8 : (spiralFrom ⟨-200, 600⟩ (allSteps.drop 800)).map cellKey = spiralKeysLit8 ++ (spiralKeysLit9 ++ (spiralKeysLit10 ++ (spiralKeysLit11 ++ (spiralKeysLit12 ++ (spiralKeysLit13 ++ (spiralKeysLit14 ++ (spiralKeysLit15 ++ (spiralKeysLit16 ++ (spiralKeysLit17 ++ (spiralKeysLit18 ++ (spiralKeysLit19 ++ (spiralKeysLit20 ++ (spiralKeysLit21 ++ (spiralKeysLit22 ++ (spiralKeysLit23 ++ (spiralKeysLit24 ++ (spiralKeysLit25 ++ (spiralKeysLit26 ++ (spiralKeysLit27 ++ (spiralKeysLit28 ++ (spiralKeysLit29 ++ (spiralKeysLit30 ++ (spiralKeysLit31 ++ (spiralKeysLit32 ++ (spiralKeysLit33 ++ (spiralKeysLit34 ++ (spiralKeysLit35 ++ (spiralKeysLit36 ++ (spiralKeysLit37 ++ (spiralKeysLit38 ++ (spiralKeysLit39 ++ (spiralKeysLit40 ++ (spiralKeysLit41 ++ (spiralKeysLit42 ++ (spiralKeysLit43 ++ (spiralKeysLit44 ++ (spiralKeysLit45 ++ (spiralKeysLit46 ++ (spiralKeysLit47 ++ (spiralKeysLit48 ++ (spiralKeysLit49))))))))))))))))))))))))))))))))))))))))) := by
    rw [show allSteps.drop 800 = (allSteps.drop 800).take 100 ++ (allSteps.drop 800).drop 100 from (List.take_append_drop 100 (allSteps.drop 800)).symm]
    rw [segCheck_spec spiralKeysLit8 ((allSteps.drop 800).take 100) (-200) 600 640 160 spiralSeg8 ((allSteps.drop 800).drop 100)]
    rw [List.drop_drop]
    rw [show (100 : Nat) + 800 = 900 from rfl]
    rw [h9]
  have h7 : (spiralFrom ⟨160, (-160)⟩ (allSteps.drop 700)).map cellKey = spiralKeysLit7 ++ (spiralKeysLit8 ++ (spiralKeysLit9 ++ (spiralKeysLit10 ++ (spiralKeysLit11 ++ (spiralKeysLit12 ++ (spiralKeysLit13 ++ (spiralKeysLit14 ++ (spiralKeysLit15 ++ (spiralKeysLit16 ++ (spiralKeysLit17 ++ (spiralKeysLit18 ++ (spiralKeysLit19 ++ (spiralKeysLit20 ++ (spiralKeysLit21 ++ (spiralKeysLit22 ++ (spiralKeysLit23 ++ (spiralKeysLit24 ++ (spiralKeysLit25 ++ (spiralKeysLit26 ++ (spiralKeysLit27 ++ (spiralKeysLit28 ++ (spiralKeysLit29 ++ (spiralKeysLit30 ++ (spiralKeysLit31 ++ (spiralKeysLit32 ++ (spiralKeysLit33 ++ (spiralKeysLit34 ++ (spiralKeysLit35 ++ (spiralKeysLit36 ++ (spiralKeysLit37 ++ (spiralKeysLit38 ++ (spiralKeysLit39 ++ (spiralKeysLit40 ++ (spiralKeysLit41 ++ (spiralKeysLit42 ++ (spiralKeysLit43 ++ (spiralKeysLit44 ++ (spiralKeysLit45 ++ (spiralKeysLit46 ++ (spiralKeysLit47 ++ (spiralKeysLit48 ++ (spiralKeysLit49)))))))))))))))))))))))))))))))))))))))))) := by
    rw [show allSteps.drop 700 = (allSteps.drop 700).take 100 ++ (allSteps.drop 700).drop 100 from (List.take_append_drop 100 (allSteps.drop 700)).symm]
    rw [segCheck_spec spiralKeysLit7 ((allSteps.drop 700).take 100) 160 (-160) (-200) 600 spiralSeg7 ((allSteps.drop 700).drop 100)]
    rw [List.drop_drop]
    rw [show (100 : Nat) + 700 = 800 from rfl]
    rw [h8]
  have h6 : (spiralFrom ⟨560, 320⟩ (allSteps.drop 600)).map cellKey = spiralKeysLit6 ++ (spiralKeysLit7 ++ (spiralKeysLit8 ++ (spiralKeysLit9 ++ (spiralKeysLit10 ++ (spiralKeysLit11 ++ (spiralKeysLit12 ++ (spiralKeysLit13 ++ (spiralKeysLit14 ++ (spiralKeysLit15 ++ (spiralKeysLit16 ++ (spiralKeysLit17 ++ (spiralKeysLit18 ++ (spiralKeysLit19 ++ (spiralKeysLit20 ++ (spiralKeysLit21 ++ (spiralKeysLit22 ++ (spiralKeysLit23 ++ (spiralKeysLit24 ++ (spiralKeysLit25 ++ (spiralKeysLit26 ++ (spiralKeysLit27 ++ (spiralKeysLit28 ++ (spiralKeysLit29 ++ (spiralKeysLit30 ++ (spiralKeysLit31 ++ (spiralKeysLit32 ++ (spiralKeysLit33 ++ (spiralKeysLit34 ++ (spiralKeysLit35 ++ (spiralKeysLit36 ++ (spiralKeysLit37 ++ (spiralKeysLit38 ++ (spiralKeysLit39 ++ (spiralKeysLit40 ++ (spiralKeysLit41 ++ (spiralKeysLit42 ++ (spiralKeysLit43 ++ (spiralKeysLit44 ++ (spiralKeysLit45 ++ (spiralKeysLit46 ++ (spiralKeysLit47 ++ (spiralKeysLit48 ++ (spiralKeysLit49))))))))))))))))))))))))))))))))))))))))))) := by
    rw [show allSteps.drop 600 = (allSteps.drop 600).take 100 ++ (allSteps.drop 600).drop 100 from (List.take_append_drop 100 (allSteps.drop 600)).symm]
    rw [segCheck_spec spiralKeysLit6 ((allSteps.drop 600).take 100) 560 320 160 (-160) spiralSeg6 ((allSteps.drop 600).drop 100)]
    rw [List.drop_drop]
    rw [show (100 : Nat) + 600 = 700 from rfl]
    rw [h7]
  have h5 : (spiralFrom ⟨120, 520⟩ (allSteps.drop 500)).map cellKey = spiralKeysLit5 ++ (spiralKeysLit6 ++ (spiralKeysLit7 ++ (spiralKeysLit8 ++ (spiralKeysLit9 ++ (spiralKeysLit10 ++ (spiralKeysLit11 ++ (spiralKeysLit12 ++ (spiralKeysLit13 ++ (spiralKeysLit14 ++ (spiralKeysLit15 ++ (spiralKeysLit16 ++ (spiralKeysLit17 ++ (spiralKeysLit18 ++ (spiralKeysLit19 ++ (spiralKeysLit20 ++ (spiralKeysLit21 ++ (spiralKeysLit22 ++ (spiralKeysLit23 ++ (spiralKeysLit24 ++ (spiralKeysLit25 ++ (spiralKeysLit26 ++ (spiralKeysLit27 ++ (spiralKeysLit28 ++ (spiralKeysLit29 ++ (spiralKeysLit30 ++ (spiralKeysLit31 ++ (spiralKeysLit32 ++ (spiralKeysLit33 ++ (spiralKeysLit34 ++ (spiralKeysLit35 ++ (spiralKeysLit36 ++ (spiralKeysLit37 ++ (spiralKeysLit38 ++ (spiralKeysLit39 ++ (spiralKeysLit40 ++ (spiralKeysLit41 ++ (spiralKeysLit42 ++ (spiralKeysLit43 ++ (spiralKeysLit44 ++ (spiralKeysLit45 ++ (spiralKeysLit46 ++ (spiralKeysLit47 ++ (spiralKeysLit48 ++ (spiralKeysLit49)))))))))))))))))))))))))))))))))))))))))))) := by
    rw [show allSteps.drop 500 = (allSteps.drop 500).take 100 ++ (allSteps.drop 500).drop 100 from (List.take_append_drop 100 (allSteps.drop 500)).symm]
    rw [segCheck_spec spiralKeysLit5 ((allSteps.drop 500).take 100) 120 520 560 320 spiralSeg5 ((allSteps.drop 500).drop 100)]
    rw [List.drop_drop]
    rw [show (100 : Nat) + 500 = 600 from rfl]
    rw [h6]
  have h4 : (spiralFrom ⟨-80, 320⟩ (allSteps.drop 400)).map cellKey = spiralKeysLit4 ++ (spiralKeysLit5 ++ (spiralKeysLit6 ++ (spiralKeysLit7 ++ (spiralKeysLit8 ++ (spiralKeysLit9 ++ (spiralKeysLit10 ++ (spiralKeysLit11 ++ (spiralKeysLit12 ++ (spiralKeysLit13 ++ (spiralKeysLit14 ++ (spiralKeysLit15 ++ (spiralKeysLit16 ++ (spiralKeysLit17 ++ (spiralKeysLit18 ++ (spiralKeysLit19 ++ (spiralKeysLit20 ++ (spiralKeysLit21 ++ (spiralKeysLit22 ++ (spiralKeysLit23 ++ (spiralKeysLit24 ++ (spiralKeysLit25 ++ (spiralKeysLit26 ++ (spiralKeysLit27 ++ (spiralKeysLit28 ++ (spiralKeysLit29 ++ (spiralKeysLit30 ++ (spiralKeysLit31 ++ (spiralKeysLit32 ++ (spiralKeysLit33 ++ (spiralKeysLit34 ++ (spiralKeysLit35 ++ (spiralKeysLit36 ++ (spiralKeysLit37 ++ (spiralKeysLit38 ++ (spiralKeysLit39 ++ (spiralKeysLit40 ++ (spiralKeysLit41 ++ (spiralKeysLit42 ++ (spiralKeysLit43 ++ (spiralKeysLit44 ++ (spiralKeysLit45 ++ (spiralKeysLit46 ++ (spiralKeysLit47 ++ (spiralKeysLit48 ++ (spiralKeysLit49))))))))))))))))))))))))))))))))))))))))))))) := by
    rw [show allSteps.drop 400 = (allSteps.drop 400).take 100 ++ (allSteps.drop 400).drop 100 from (List.take_append_drop 100 (allSteps.drop 400)).symm]
    rw [segCheck_spec spiralKeysLit4 ((allSteps.drop 400).take 100) (-80) 320 120 520 spiralSeg4 ((allSteps.drop 400).drop 100)]
    rw [List.drop_drop]
    rw [show (100 : Nat) + 400 = 500 from rfl]
    rw [h5]
  have h3 : (spiralFrom ⟨-40, 200⟩ (allSteps.drop 300)).map cellKey = spiralKeysLit3 ++ (spiralKeysLit4 ++ (spiralKeysLit5 ++ (spiralKeysLit6 ++ (spiralKeysLit7 ++ (spiralKeysLit8 ++ (spiralKeysLit9 ++ (spiralKeysLit10 ++ (spiralKeysLit11 ++ (spiralKeysLit12 ++ (spiralKeysLit13 ++ (spiralKeysLit14 ++ (spiralKeysLit15 ++ (spiralKeysLit16 ++ (spiralKeysLit17 ++ (spiralKeysLit18 ++ (spiralKeysLit19 ++ (spiralKeysLit20 ++ (spiralKeysLit21 ++ (spiralKeysLit22 ++ (spiralKeysLit23 ++ (spiralKeysLit24 ++ (spiralKeysLit25 ++ (spiralKeysLit26 ++ (spiralKeysLit27 ++ (spiralKeysLit28 ++ (spiralKeysLit29 ++ (spiralKeysLit30 ++ (spiralKeysLit31 ++ (spiralKeysLit32 ++ (spiralKeysLit33 ++ (spiralKeysLit34 ++ (spiralKeysLit35 ++ (spiralKeysLit36 ++ (spiralKeysLit37 ++ (spiralKeysLit38 ++ (spiralKeysLit39 ++ (spiralKeysLit40 ++ (spiralKeysLit41 ++ (spiralKeysLit42 ++ (spiralKeysLit43 ++ (spiralKeysLit44 ++ (spiralKeysLit45 ++ (spiralKeysLit46 ++ (spiralKeysLit47 ++ (spiralKeysLit48 ++ (spiralKeysLit49)))))))))))))))))))))))))))))))))))))))))))))) := by
    rw [show allSteps.drop 300 = (allSteps.drop 300).take 100 ++ (allSteps.drop 300).drop 100 from (List.take_append_drop 100 (allSteps.drop 300)).symm]
    rw [segCheck_spec spiralKeysLit3 ((allSteps.drop 300).take 100) (-40) 200 (-80) 320 spiralSeg3 ((allSteps.drop 300).drop 100)]
    rw [List.drop_drop]
    rw [show (100 : Nat) + 300 = 400 from rfl]
    rw [h4]
  have h2 : (spiralFrom ⟨0, 400⟩ (allSteps.drop 200)).map cellKey = spiralKeysLit2 ++ (spiralKeysLit3 ++ (spiralKeysLit4 ++ (spiralKeysLit5 ++ (spiralKeysLit6 ++ (spiralKeysLit7 ++ (spiralKeysLit8 ++ (spiralKeysLit9 ++ (spiralKeysLit10 ++ (spiralKeysLit11 ++ (spiralKeysLit12 ++ (spiralKeysLit13 ++ (spiralKeysLit14 ++ (spiralKeysLit15 ++ (spiralKeysLit16 ++ (spiralKeysLit17 ++ (spiralKeysLit18 ++ (spiralKeysLit19 ++ (spiralKeysLit20 ++ (spiralKeysLit21 ++ (spiralKeysLit22 ++ (spiralKeysLit23 ++ (spiralKeysLit24 ++ (spiralKeysLit25 ++ (spiralKeysLit26 ++ (spiralKeysLit27 ++ (spiralKeysLit28 ++ (spiralKeysLit29 ++ (spiralKeysLit30 ++ (spiralKeysLit31 ++ (spiralKeysLit32 ++ (spiralKeysLit33 ++ (spiralKeysLit34 ++ (spiralKeysLit35 ++ (spiralKeysLit36 ++ (spiralKeysLit37 ++ (spiralKeysLit38 ++ (spiralKeysLit39 ++ (spiralKeysLit40 ++ (spiralKeysLit41 ++ (spiralKeysLit42 ++ (spiralKeysLit43 ++ (spiralKeysLit44 ++ (spiralKeysLit45 ++ (spiralKeysLit46 ++ (spiralKeysLit47 ++ (spiralKeysLit48 ++ (spiralKeysLit49))))))))))))))))))))))))))))))))))))))))))))))) := by
    rw [show allSteps.drop 200 = (allSteps.drop 200).take 100 ++ (allSteps.drop 200).drop 100 from (List.take_append_drop 100 (allSteps.drop 200)).symm]
    rw [segCheck_spec spiralKeysLit2 ((allSteps.drop 200).take 100) 0 400 (-40) 200 spiralSeg2 ((allSteps.drop 200).drop 100)]
    rw [List.drop_drop]
    rw [show (100 : Nat) + 200 = 300 from rfl]
    rw [h3]
  have h1 : (spiralFrom ⟨360, 120⟩ (allSteps.drop 100)).map cellKey = spiralKeysLit1 ++ (spiralKeysLit2 ++ (spiralKeysLit3 ++ (spiralKeysLit4 ++ (spiralKeysLit5 ++ (spiralKeysLit6 ++ (spiralKeysLit7 ++ (spiralKeysLit8 ++ (spiralKeysLit9 ++ (spiralKeysLit10 ++ (spiralKeysLit11 ++ (spiralKeysLit12 ++ (spiralKeysLit13 ++ (spiralKeysLit14 ++ (spiralKeysLit15 ++ (spiralKeysLit16 ++ (spiralKeysLit17 ++ (spiralKeysLit18 ++ (spiralKeysLit19 ++ (spiralKeysLit20 ++ (spiralKeysLit21 ++ (spiralKeysLit22 ++ (spiralKeysLit23 ++ (spiralKeysLit24 ++ (spiralKeysLit25 ++ (spiralKeysLit26 ++ (spiralKeysLit27 ++ (spiralKeysLit28 ++ (spiralKeysLit29 ++ (spiralKeysLit30 ++ (spiralKeysLit31 ++ (spiralKeysLit32 ++ (spiralKeysLit33 ++ (spiralKeysLit34 ++ (spiralKeysLit35 ++ (spiralKeysLit36 ++ (spiralKeysLit37 ++ (spiralKeysLit38 ++ (spiralKeysLit39 ++ (spiralKeysLit40 ++ (spiralKeysLit41 ++ (spiralKeysLit42 ++ (spiralKeysLit43 ++ (spiralKeysLit44 ++ (spiralKeysLit45 ++ (spiralKeysLit46 ++ (spiralKeysLit47 ++ (spiralKeysLit48 ++ (spiralKeysLit49)))))))))))))))))))))))))))))))))))))))))))))))) := by
    rw [show allSteps.drop 100 = (allSteps.drop 100).take 100 ++ (allSteps.drop 100).drop 100 from (List.take_append_drop 100 (allSteps.drop 100)).symm]
    rw [segCheck_spec spiralKeysLit1 ((allSteps.drop 100).take 100) 360 120 0 400 spiralSeg1 ((allSteps.drop 100).drop 100)]
    rw [List.drop_drop]
    rw [show (100 : Nat) + 100 = 200 from rfl]
    rw [h2]
  have h0 : (spiralFrom ⟨200, 200⟩ (allSteps)).map cellKey = spiralKeysLit0 ++ (spiralKeysLit1 ++ (spiralKeysLit2 ++ (spiralKeysLit3 ++ (spiralKeysLit4 ++ (spiralKeysLit5 ++ (spiralKeysLit6 ++ (spiralKeysLit7 ++ (spiralKeysLit8 ++ (spiralKeysLit9 ++ (spiralKeysLit10 ++ (spiralKeysLit11 ++ (spiralKeysLit12 ++ (spiralKeysLit13 ++ (spiralKeysLit14 ++ (spiralKeysLit15 ++ (spiralKeysLit16 ++ (spiralKeysLit17 ++ (spiralKeysLit18 ++ (spiralKeysLit19 ++ (spiralKeysLit20 ++ (spiralKeysLit21 ++ (spiralKeysLit22 ++ (spiralKeysLit23 ++ (spiralKeysLit24 ++ (spiralKeysLit25 ++ (spiralKeysLit26 ++ (spiralKeysLit27 ++ (spiralKeysLit28 ++ (spiralKeysLit29 ++ (spiralKeysLit30 ++ (spiralKeysLit31 ++ (spiralKeysLit32 ++ (spiralKeysLit33 ++ (spiralKeysLit34 ++ (spiralKeysLit35 ++ (spiralKeysLit36 ++ (spiralKeysLit37 ++ (spiralKeysLit38 ++ (spiralKeysLit39 ++ (spiralKeysLit40 ++ (spiralKeysLit41 ++ (spiralKeysLit42 ++ (spiralKeysLit43 ++ (spiralKeysLit44 ++ (spiralKeysLit45 ++ (spiralKeysLit46 ++ (spiralKeysLit47 ++ (spiralKeysLit48 ++ (spiralKeysLit49))))))))))))))))))))))))))))))))))))))))))))))))) := by
    rw [show allSteps = allSteps.take 100 ++ allSteps.drop 100 from (List.take_append_drop 100 allSteps).symm]
    rw [segCheck_spec spiralKeysLit0 (allSteps.take 100) 200 200 360 120 spiralSeg0 (allSteps.drop 100)]
    rw [h1]
  unfold spiralKeys spiralAll
  rw [show startHead = (⟨200, 200⟩ : Point) from by decide]
  rw [h0]
  rfl

set_option maxHeartbeats 4000000 in
/-- The merge-sorted keys equal the sorted literal list. -/
theorem msort_eq_sorted : msortN 16 4901 spiralKeysLit = sortedKeysLit := by
  have e9 : (msortN 16 4901 spiralKeysLit).drop 4500 = sortedKeysA9 := by decide
  have e8 : (msortN 16 4901 spiralKeysLit).drop 4000 = sortedKeysA8 ++ (sortedKeysA9) := by
    rw [show (msortN 16 4901 spiralKeysLit).drop 4000 = ((msortN 16 4901 spiralKeysLit).drop 4000).take 500 ++ ((msortN 16 4901 spiralKeysLit).drop 4000).drop 500 from (List.take_append_drop 500 ((msortN 16 4901 spiralKeysLit).drop 4000)).symm]
    rw [show ((msortN 16 4901 spiralKeysLit).drop 4000).take 500 = sortedKeysA8 from by decide]
    rw [List.drop_drop]
    rw [show (500 : Nat) + 4000 = 4500 from rfl]
    rw [e9]
  have e7 : (msortN 16 4901 spiralKeysLit).drop 3500 = sortedKeysA7 ++ (sortedKeysA8 ++ (sortedKeysA9)) := by
    rw [show (msortN 16 4901 spiralKeysLit).drop 3500 = ((msortN 16 4901 spiralKeysLit).drop 3500).take 500 ++ ((msortN 16 4901 spiralKeysLit).drop 3500).drop 500 from (List.take_append_drop 500 ((msortN 16 4901 spiralKeysLit).drop 3500)).symm]
    rw [show ((msortN 16 4901 spiralKeysLit).drop 3500).take 500 = sortedKeysA7 from by decide]
    rw [List.drop_drop]
    rw [show (500 : Nat) + 3500 = 4000 from rfl]
    rw [e8]
  have e6 : (msortN 16 4901 spiralKeysLit).drop 3000 = sortedKeysA6 ++ (sortedKeysA7 ++ (sortedKeysA8 ++ (sortedKeysA9))) := by
    rw [show (msortN 16 4901 spiralKeysLit).drop 3000 = ((msortN 16 4901 spiralKeysLit).drop 3000).take 500 ++ ((msortN 16 4901 spiralKeysLit).drop 3000).drop 500 from (List.take_append_drop 500 ((msortN 16 4901 spiralKeysLit).drop 3000)).symm]
    rw [show ((msortN 16 4901 spiralKeysLit).drop 3000).take 500 = sortedKeysA6 from by decide]
    rw [List.drop_drop]
    rw [show (500 : Nat) + 3000 = 3500 from rfl]
    rw [e7]
  have e5 : (msortN 16 4901 spiralKeysLit).drop 2500 = sortedKeysA5 ++ (sortedKeysA6 ++ (sortedKeysA7 ++ (sortedKeysA8 ++ (sortedKeysA9)))) := by
    rw [show (msortN 16 4901 spiralKeysLit).drop 2500 = ((msortN 16 4901 spiralKeysLit).drop 2500).take 500 ++ ((msortN 16 4901 spiralKeysLit).drop 2500).drop 500 from (List.take_append_drop 500 ((msortN 16 4901 spiralKeysLit).drop 2500)).symm]
    rw [show ((msortN 16 4901 spiralKeysLit).drop 2500).take 500 = sortedKeysA5 from by decide]
    rw [List.drop_drop]
    rw [show (500 : Nat) + 2500 = 3000 from rfl]
    rw [e6]
  have e4 : (msortN 16 4901 spiralKeysLit).drop 2000 = sortedKeysA4 ++ (sortedKeysA5 ++ (sortedKeysA6 ++ (sortedKeysA7 ++ (sortedKeysA8 ++ (sortedKeysA9))))) := by
    rw [show (msortN 16 4901 spiralKeysLit).drop 2000 = ((msortN 16 4901 spiralKeysLit).drop 2000).take 500 ++ ((msortN 16 4901 spiralKeysLit).drop 2000).drop 500 from (List.take_append_drop 500 ((msortN 16 4901 spiralKeysLit).drop 2000)).symm]
    rw [show ((msortN 16 4901 spiralKeysLit).drop 2000).take 500 = sortedKeysA4 from by decide]
    rw [List.drop_drop]
    rw [show (500 : Nat) + 2000 = 2500 from rfl]
    rw [e5]
  have e3 : (msortN 16 4901 spiralKeysLit).drop 1500 = sortedKeysA3 ++ (sortedKeysA4 ++ (sortedKeysA5 ++ (sortedKeysA6 ++ (sortedKeysA7 ++ (sortedKeysA8 ++ (sortedKeysA9)))))) := by
    rw [show (msortN 16 4901 spiralKeysLit).drop 1500 = ((msortN 16 4901 spiralKeysLit).drop 1500).take 500 ++ ((msortN 16 4901 spiralKeysLit).drop 1500).drop 500 from (List.take_append_drop 500 ((msortN 16 4901 spiralKeysLit).drop 1500)).symm]
    rw [show ((msortN 16 4901 spiralKeysLit).drop 1500).take 500 = sortedKeysA3 from by decide]
    rw [List.drop_drop]
    rw [show (500 : Nat) + 1500 = 2000 from rfl]
    rw [e4]
  have e2 : (msortN 16 4901 spiralKeysLit).drop 1000 = sortedKeysA2 ++ (sortedKeysA3 ++ (sortedKeysA4 ++ (sortedKeysA5 ++ (sortedKeysA6 ++ (sortedKeysA7 ++ (sortedKeysA8 ++ (sortedKeysA9))))))) := by
    rw [show (msortN 16 4901 spiralKeysLit).drop 1000 = ((msortN 16 4901 spiralKeysLit).drop 1000).take 500 ++ ((msortN 16 4901 spiralKeysLit).drop 1000).drop 500 from (List.take_append_drop 500 ((msortN 16 4901 spiralKeysLit).drop 1000)).symm]
    rw [show ((msortN 16 4901 spiralKeysLit).drop 1000).take 500 = sortedKeysA2 from by decide]
    rw [List.drop_drop]
    rw [show (500 : Nat) + 1000 = 1500 from rfl]
    rw [e3]
  have e1 : (msortN 16 4901 spiralKeysLit).drop 500 = sortedKeysA1 ++ (sortedKeysA2 ++ (sortedKeysA3 ++ (sortedKeysA4 ++ (sortedKeysA5 ++ (sortedKeysA6 ++ (sortedKeysA7 ++ (sortedKeysA8 ++ (sortedKeysA9)))))))) := by
    rw [show (msortN 16 4901 spiralKeysLit).drop 500 = ((msortN 16 4901 spiralKeysLit).drop 500).take 500 ++ ((msortN 16 4901 spiralKeysLit).drop 500).drop 500 from (List.take_append_drop 500 ((msortN 16 4901 spiralKeysLit).drop 500)).symm]
    rw [show ((msortN 16 4901 spiralKeysLit).drop 500).take 500 = sortedKeysA1 from by decide]
    rw [List.drop_drop]
    rw [show (500 : Nat) + 500 = 1000 from rfl]
    rw [e2]
  rw [show msortN 16 4901 spiralKeysLit = (msortN 16 4901 spiralKeysLit).take 500 ++ (msortN 16 4901 spiralKeysLit).drop 500 from (List.take_append_drop 500 (msortN 16 4901 spiralKeysLit)).symm]
  rw [show (msortN 16 4901 spiralKeysLit).take 500 = sortedKeysA0 from by decide]
  rw [e1]
  rfl

/-- A list stays strictly sorted when a sorted continuation is appended whose
first element already closes the chain. -/
theorem strictSorted_append_of : ∀ (l1 : List Nat) (b : Nat) (t : List Nat),
    strictSorted (b :: t) = true → strictSorted (l1 ++ [b]) = true →
    strictSorted (l1 ++ b :: t) = true := by
  intro l1
  induction l1 with
  | nil => intro b t h2 _; exact h2
  | cons a l1 ih =>
    intro b t h2 h1
    cases l1 with
    | nil =>
      simp only [List.cons_append, List.nil_append, strictSorted,
        Bool.and_eq_true] at h1 ⊢
      exact ⟨h1.1, h2⟩
    | cons c l1 =>
      simp only [List.cons_append, strictSorted, Bool.and_eq_true] at h1 ⊢
      exact ⟨h1.1, by
        have := ih b t h2 h1.2
        simpa [List.cons_append] using this⟩

theorem sortedKeysLit_sorted : strictSorted sortedKeysLit = true := by
  have s9 : strictSorted sortedKeysA9 = true := by decide
  have s8 : strictSorted (sortedKeysA8 ++ (sortedKeysA9)) = true := by
    exact strictSorted_append_of sortedKeysA8 24906720 _ s9 (by decide)
  have s7 : strictSorted (sortedKeysA7 ++ (sortedKeysA8 ++ (sortedKeysA9))) = true := by
    exact strictSorted_append_of sortedKeysA7 23268120 _ s8 (by decide)
  have s6 : strictSorted (sortedKeysA6 ++ (sortedKeysA7 ++ (sortedKeysA8 ++ (sortedKeysA9)))) = true := by
    exact strictSorted_append_of sortedKeysA6 21629520 _ s7 (by decide)
  have s5 : strictSorted (sortedKeysA5 ++ (sortedKeysA6 ++ (sortedKeysA7 ++ (sortedKeysA8 ++ (sortedKeysA9))))) = true := by
    exact strictSorted_append_of sortedKeysA5 19990920 _ s6 (by decide)
  have s4 : strictSorted (sortedKeysA4 ++ (sortedKeysA5 ++ (sortedKeysA6 ++ (sortedKeysA7 ++ (sortedKeysA8 ++ (sortedKeysA9)))))) = true := by
    exact strictSorted_append_of sortedKeysA4 18352320 _ s5 (by decide)
  have s3 : strictSorted (sortedKeysA3 ++ (sortedKeysA4 ++ (sortedKeysA5 ++ (sortedKeysA6 ++ (sortedKeysA7 ++ (sortedKeysA8 ++ (sortedKeysA9))))))) = true := by
    exact strictSorted_append_of sortedKeysA3 16713720 _ s4 (by decide)
  have s2 : strictSorted (sortedKeysA2 ++ (sortedKeysA3 ++ (sortedKeysA4 ++ (sortedKeysA5 ++ (sortedKeysA6 ++ (sortedKeysA7 ++ (sortedKeysA8 ++ (sortedKeysA9)))))))) = true := by
    exact strictSorted_append_of sortedKeysA2 15075120 _ s3 (by decide)
  have s1 : strictSorted (sortedKeysA1 ++ (sortedKeysA2 ++ (sortedKeysA3 ++ (sortedKeysA4 ++ (sortedKeysA5 ++ (sortedKeysA6 ++ (sortedKeysA7 ++ (sortedKeysA8 ++ (sortedKeysA9))))))))) = true := by
    exact strictSorted_append_of sortedKeysA1 13436520 _ s2 (by decide)
  have s0 : strictSorted (sortedKeysA0 ++ (sortedKeysA1 ++ (sortedKeysA2 ++ (sortedKeysA3 ++ (sortedKeysA4 ++ (sortedKeysA5 ++ (sortedKeysA6 ++ (sortedKeysA7 ++ (sortedKeysA8 ++ (sortedKeysA9)))))))))) = true := by
    exact strictSorted_append_of sortedKeysA0 11797920 _ s1 (by decide)
  exact s0

/-- All 4901 spiral positions are pairwise distinct. -/
theorem spiralAll_nodup : spiralAll.Nodup := by
  have h1 : (msortN 16 4901 spiralKeysLit).Nodup := by
    rw [msort_eq_sorted]
    exact strictSorted_nodup _ sortedKeysLit_sorted
  have h2 : spiralKeysLit.Nodup := ((msortN_perm 16 4901 spiralKeysLit).nodup_iff).mp h1
  have h3 : spiralKeys.Nodup := by
    rw [spiralKeys_eq_lit]
    exact h2
  exact List.Nodup.of_map cellKey h3

/-- Strict-accumulator list length (kernel-friendly). -/
def lenGo {α : Type} : Nat → List α → Nat
  | n, [] => n
  | 0, _ :: l => lenGo 1 l
  | n + 1, _ :: l => lenGo (n + 2) l

theorem lenGo_eq {α : Type} : ∀ (l : List α) (n : Nat), lenGo n l = n + l.length := by
  intro l
  induction l with
  | nil => intro n; simp [lenGo]
  | cons a t ih =>
    intro n
    cases n with
    | zero =>
      rw [show lenGo 0 (a :: t) = lenGo 1 t from rfl, ih]
      simp [List.length_cons]
      omega
    | succ m =>
      rw [show lenGo (m + 1) (a :: t) = lenGo (m + 2) t from rfl, ih]
      simp [List.length_cons]
      omega

theorem allSteps_length : allSteps.length = 4900 := by
  have h : lenGo 0 allSteps = 4900 := by decide
  rw [lenGo_eq] at h
  omega

theorem spiralAll_length : spiralAll.length = 4901 := by
  have h := spiralFrom_length allSteps startHead
  rw [allSteps_length] at h
  exact h

theorem headD_reverse (l : List Point) (d : Point) : l.reverse.headD d = l.getLastD d := by
  rw [List.headD_eq_head?, List.getLastD_eq_getLast?, List.getLast?_eq_head?_reverse]

theorem getLastD_reverse (l : List Point) (d : Point) : l.reverse.getLastD d = l.headD d := by
  rw [List.getLastD_eq_getLast?, List.getLast?_reverse, List.headD_eq_head?]

theorem headD_take (l : List Point) (n : Nat) (h : 1 ≤ n) (d : Point) :
    (l.take n).headD d = l.headD d := by
  cases n with
  | zero => omega
  | succ m => cases l <;> rfl

theorem spiralFrom_headD (p : Point) (steps : List Point) (d : Point) :
    (spiralFrom p steps).headD d = p := by
  cases steps <;> rfl

/-- Successful initialization: for `1 ≤ n ≤ 4900` the returned snake is the
reversed `n`-prefix of the spiral with head color RED. -/
theorem new_snake_sized_ok (rc : Nat → Color) (n : Nat) (h1 : 1 ≤ n) (hn : n ≤ 4900) :
    new_snake_sized rc n
      = some ⟨(spiralAll.take n).reverse, n, Direction.NONE,
          RED :: (List.range (n - 1)).map rc⟩ := by
  have hne : allSteps ≠ [] := by
    intro h
    have h2 := allSteps_length
    rw [h] at h2
    simp at h2
  unfold new_snake_sized
  rw [snakeLoop_eq n allSteps [startHead] hne, allSteps_length]
  rw [if_pos (by simp; omega)]
  simp only [List.length_singleton]
  rw [extendF_single, spiralFrom_take]
  have hsucc : n - 1 + 1 = n := by omega
  rw [hsucc]
  unfold Snake.mk_snake
  have hlen : ((spiralFrom startHead allSteps).take n).reverse.length = n := by
    rw [List.length_reverse, List.length_take]
    have h3 : (spiralFrom startHead allSteps).length = 4901 := spiralAll_length
    omega
  rw [hlen]
  have hc : (RED :: (List.range (n - 1)).map rc).length = n := by
    simp
    omega
  rw [if_neg (by omega), if_neg (by rw [hc]; omega)]
  rfl

/-- Failed initialization: for `n > 4900` the pattern is exhausted. -/
theorem new_snake_sized_fail (rc : Nat → Color) (n : Nat) (hn : 4900 < n) :
    new_snake_sized rc n = none := by
  have hne : allSteps ≠ [] := by
    intro h
    have h2 := allSteps_length
    rw [h] at h2
    simp at h2
  unfold new_snake_sized
  rw [snakeLoop_eq n allSteps [startHead] hne, allSteps_length]
  rw [if_neg (by simp; omega)]

/-- C7: for every requested length `1 ≤ n` within the pattern bound (4900
steps), the initializer returns a snake of exactly `n` pairwise-distinct
positions (`collide_itself` is false) — the reversed `n`-prefix of the spiral
— whose head is the last-placed spiral position, whose tail is the
grid-center start cell, and whose head color is RED; beyond the bound it
fails. -/
theorem C7_new_snake_sized_spec (rc : Nat → Color) (n : Nat) :
    (1 ≤ n → n ≤ allSteps.length →
      ∃ s, new_snake_sized rc n = some s ∧
        s.points.length = n ∧ s.size = n ∧
        s.collide_itself = false ∧
        s.points = (spiralAll.take n).reverse ∧
        s.head = (spiralAll.take n).getLastD ⟨0, 0⟩ ∧
        s.points.getLastD ⟨0, 0⟩ = startHead ∧
        s.colors.headD WHITE = RED) ∧
    (allSteps.length < n → new_snake_sized rc n = none) := by
  constructor
  · intro h1 hn
    rw [allSteps_length] at hn
    have hlen : ((spiralAll.take n).reverse).length = n := by
      rw [List.length_reverse, List.length_take, spiralAll_length]
      omega
    have hnd : ((spiralAll.take n).reverse).Nodup :=
      List.nodup_reverse.mpr (spiralAll_nodup.sublist (List.take_sublist n spiralAll))
    refine ⟨_, new_snake_sized_ok rc n h1 hn, hlen, rfl, ?_, rfl, ?_, ?_, rfl⟩
    · exact (collide_itself_eq_false_iff _).mpr hnd
    · exact headD_reverse _ _
    · rw [show (⟨(spiralAll.take n).reverse, n, Direction.NONE,
          RED :: (List.range (n - 1)).map rc⟩ : Snake).points
          = (spiralAll.take n).reverse from rfl]
      rw [getLastD_reverse, headD_take spiralAll n h1]
      exact spiralFrom_headD startHead allSteps ⟨0, 0⟩
  · intro hn
    rw [allSteps_length] at hn
    exact new_snake_sized_fail rc n hn

/-- Witness for C7 at `n = 3` (success) and `n = 4901` (pattern exhausted). -/
theorem C7_new_snake_sized_spec_witness :
    (∃ s, new_snake_sized (fun _ => WHITE) 3 = some s ∧
      s.points.length = 3 ∧ s.size = 3 ∧
      s.collide_itself = false ∧
      s.points = (spiralAll.take 3).reverse ∧
      s.head = (spiralAll.take 3).getLastD ⟨0, 0⟩ ∧
      s.points.getLastD ⟨0, 0⟩ = startHead ∧
      s.colors.headD WHITE = RED) ∧
    new_snake_sized (fun _ => WHITE) 4901 = none :=
  ⟨(C7_new_snake_sized_spec (fun _ => WHITE) 3).1 (by decide) (by simp [allSteps_length]),
   (C7_new_snake_sized_spec (fun _ => WHITE) 4901).2 (by simp [allSteps_length])⟩
